import Mathlib

/-!
Payment verification and spend accounting of the Alice backend.

A shallow embedding of the payment core of

* `alicehelio/alice-backend-implementation (1).js` (namespace `Backend` where it differs), and
* `alicehelio/integrated-app/server.js` (namespace `Server` where it differs).

`TokenManager.tokens`, `X402PaymentHandler` and `requirePayment` are textually the same in
both files and are embedded once.

Conventions of the embedding

* A JavaScript number is a finite IEEE-754 binary64 value (`JsNumber`); `+`, `*` and decimal
  literals round to nearest, ties to even, exactly as the engine does.  `NaN`, the
  infinities and the sign of zero are not represented.
* An `async` function is run to completion without interleaving; what a collaborator
  outside the repository answers during the call (the ledger RPC, `JSON.parse`, the clock,
  the Browser-Use and Helio services) is an argument of the embedded function.
* A function that can throw returns `Except JsError _`; state changes made before the throw
  are kept, as in the source.
-/

set_option exponentiation.threshold 20000

namespace SolanaPay

/-! ## Numbers -/

/-- Finite IEEE-754 binary64 value, stored exactly: the number denoted is `units / 2 ^ 1074`
(every finite binary64 value is an integer multiple of `2 ^ (-1074)`). -/
structure JsNumber where
  units : Int
deriving DecidableEq, Repr

namespace JsNumber

/-- Quotient `n / d` rounded to the nearest natural number, ties to the even one. -/
def roundHalfEven (n d : Nat) : Nat :=
  let q := n / d
  let r := n % d
  if 2 * r < d then q
  else if d < 2 * r then q + 1
  else if q % 2 = 0 then q else q + 1

/-- Bisection for the largest `k` in `[lo, hi)` with `2 ^ k ≤ n`. -/
def log2Search : Nat → Nat → Nat → Nat → Nat
  | 0, lo, _, _ => lo
  | f + 1, lo, hi, n =>
    let mid := (lo + hi) / 2
    if 2 ^ mid ≤ n then log2Search f mid hi n else log2Search f lo mid n

/-- Position of the leading bit, `floor (log2 n)`, for `0 < n < 2 ^ 16384`. -/
def log2 (n : Nat) : Nat := log2Search 14 0 16384 n

/-- Binary exponent `floor (log2 (n / d))` of a positive quotient. -/
def binExp (n d : Nat) : Int :=
  let e0 : Int := (log2 n : Int) - (log2 d : Int)
  if 0 ≤ e0 then (if d * 2 ^ e0.toNat ≤ n then e0 else e0 - 1)
  else (if d ≤ n * 2 ^ (-e0).toNat then e0 else e0 - 1)

/-- The non-negative quotient `n / d` rounded to binary64 (53-bit significand, gradual
underflow below `2 ^ (-1022)`), in units of `2 ^ (-1074)`. -/
def roundQuot (n d : Nat) : Nat :=
  if n = 0 then 0 else
  let e := max (binExp n d) (-1022)
  let k := (e + 1022).toNat
  roundHalfEven (n * 2 ^ 1074) (d * 2 ^ k) * 2 ^ k

/-- The binary64 value nearest to `n / d`; a decimal literal such as `349.99` is
`ofQuot 34999 100`. -/
def ofQuot (n : Int) (d : Nat) : JsNumber :=
  if n < 0 then ⟨-(roundQuot n.natAbs d : Int)⟩ else ⟨(roundQuot n.natAbs d : Int)⟩

/-- An integer literal. -/
def ofNat (n : Nat) : JsNumber := ofQuot n 1

/-- JavaScript `a + b` on numbers. -/
def add (a b : JsNumber) : JsNumber := ofQuot (a.units + b.units) (2 ^ 1074)

/-- JavaScript `a * b` on numbers. -/
def mul (a b : JsNumber) : JsNumber := ofQuot (a.units * b.units) (2 ^ 2148)

/-- JavaScript `a > b` on numbers. -/
def gt (a b : JsNumber) : Bool := decide (b.units < a.units)

/-- `Math.pow(10, k)` for a natural `k` (exact up to `10 ^ 22`, correctly rounded above). -/
def pow10 (k : Nat) : JsNumber := ofNat (10 ^ k)

/-- Whether `x < 10 ^ n` for the positive quotient `x = p / q`. -/
def belowPow10 (p q : Nat) (n : Int) : Bool :=
  if 0 ≤ n then decide (p < q * 10 ^ n.toNat) else decide (p * 10 ^ (-n).toNat < q)

/-- The decimal exponent `n` with `10 ^ (n - 1) ≤ p / q < 10 ^ n`. -/
def decExp (p q : Nat) : Int :=
  let est : Int := (binExp p q * 30103) / 100000
  if belowPow10 p q (est - 1) then est - 1
  else if belowPow10 p q est then est
  else if belowPow10 p q (est + 1) then est + 1
  else if belowPow10 p q (est + 2) then est + 2
  else est + 3

/-- Whether the decimal `s * 10 ^ t` reads back as the binary64 value with `p` units. -/
def readsBack (p s : Nat) (t : Int) : Bool :=
  if 0 ≤ t then decide (roundQuot (s * 10 ^ t.toNat) 1 = p)
  else decide (roundQuot s (10 ^ (-t).toNat) = p)

/-- The `k`-digit candidate for `Number::toString`: the digit string `s` with
`s * 10 ^ (n - k)` nearest to the value among those that read back as it, if one exists. -/
def digitsAt (p : Nat) (n : Int) (k : Nat) : Option Nat :=
  let q := 2 ^ 1074
  let t : Int := n - k
  let lo := if 0 ≤ t then p / (q * 10 ^ t.toNat) else (p * 10 ^ (-t).toNat) / q
  let hi := lo + 1
  let okLo := readsBack p lo t
  let okHi := readsBack p hi t
  -- twice the value against `lo + hi` (both scaled by `10 ^ t`) tells the nearer candidate
  let nearerLo :=
    if 0 ≤ t then decide (2 * p < (lo + hi) * 10 ^ t.toNat * q)
    else decide (2 * p * 10 ^ (-t).toNat < (lo + hi) * q)
  let tie :=
    if 0 ≤ t then decide (2 * p = (lo + hi) * 10 ^ t.toNat * q)
    else decide (2 * p * 10 ^ (-t).toNat = (lo + hi) * q)
  if okLo && okHi then
    (if nearerLo || (tie && lo % 2 == 0) then some lo else some hi)
  else if okLo then some lo
  else if okHi then some hi
  else none

/-- Shortest digit string that reads back as the value: tries `k = 1, 2, ...` digits. -/
def shortestDigits (p : Nat) (n : Int) : Nat → Nat → Nat × Nat
  | 0, k => (p, k)
  | fuel + 1, k =>
    match digitsAt p n k with
    | some s => (s, k)
    | none => shortestDigits p n fuel (k + 1)

/-- A run of `n` zero digits. -/
def zeros (n : Nat) : String := String.mk (List.replicate n '0')

/-- Layout of `Number::toString` for the digit string `ds` (of length `k`) and decimal
exponent `n`: plain digits, a decimal point, leading `0.`, or exponent form. -/
def layout (ds : List Char) (k : Nat) (n : Int) : String :=
  if (k : Int) ≤ n ∧ n ≤ 21 then String.mk ds ++ zeros (n - k).toNat
  else if 0 < n ∧ n ≤ 21 then
    String.mk (ds.take n.toNat) ++ "." ++ String.mk (ds.drop n.toNat)
  else if -6 < n ∧ n ≤ 0 then "0." ++ zeros (-n).toNat ++ String.mk ds
  else
    let e := n - 1
    let mant := if k = 1 then String.mk ds
      else String.mk (ds.take 1) ++ "." ++ String.mk (ds.drop 1)
    mant ++ "e" ++ (if e < 0 then "-" else "+") ++ String.mk (Nat.toDigits 10 e.natAbs)

/-- `Number::toString` (radix 10) of a positive value with `p` units. -/
def posToString (p : Nat) : String :=
  let n := decExp p (2 ^ 1074)
  let (s, k) := shortestDigits p n 17 1
  -- a candidate rounded up to `10 ^ k` is the single digit 1 one place higher
  if s = 10 ^ k then layout (Nat.toDigits 10 (s / 10)) k (n + 1)
  else layout (Nat.toDigits 10 s) k n

/-- JavaScript `x.toString()` on a number. -/
def toString (x : JsNumber) : String :=
  if x.units = 0 then "0"
  else if x.units < 0 then "-" ++ posToString x.units.natAbs
  else posToString x.units.natAbs

end JsNumber

/-! ## Values and exceptions -/

/-- An exception value.  Every exception raised in the embedded code is an `Error` object:
the `SyntaxError` of `JSON.parse`, the `TypeError` of a property read on `null` or
`undefined`, or the error a collaborator rejects with.  The code reads only `message`. -/
structure JsError where
  message : String
deriving DecidableEq, Repr

/-- A JavaScript value as produced by `JSON.parse` or returned by a collaborator. -/
inductive JsVal where
  | undefined
  | null
  | bool (b : Bool)
  | num (x : JsNumber)
  | str (s : String)
  | arr (items : List JsVal)
  | obj (props : List (String × JsVal))

namespace JsVal

/-- JavaScript truthiness (`!v` is its negation). -/
def truthy : JsVal → Bool
  | undefined => false
  | null => false
  | bool b => b
  | num x => decide (x.units ≠ 0)
  | str s => decide (s ≠ "")
  | arr _ => true
  | obj _ => true

/-- Property read `v.name` for the names this program reads (`signature`, `amount`,
`token`, `meta`, `err`, `url`, `orderId`), none of which a built-in prototype defines:
a `TypeError` on `null` and `undefined`, the own property of an object, and `undefined`
on everything else. -/
def getProp (v : JsVal) (name : String) : Except JsError JsVal :=
  match v with
  | undefined =>
    .error ⟨"Cannot read properties of undefined (reading '" ++ name ++ "')"⟩
  | null => .error ⟨"Cannot read properties of null (reading '" ++ name ++ "')"⟩
  | obj props => .ok ((props.lookup name).getD undefined)
  | _ => .ok undefined

/-- The `SameValueZero` comparison a `Map` uses on its keys.  A parsed array or object is a
fresh reference, so it is never the same value as a key stored by an earlier call. -/
def sameValueZero : JsVal → JsVal → Bool
  | undefined, undefined => true
  | null, null => true
  | bool a, bool b => a == b
  | num a, num b => decide (a = b)
  | str a, str b => decide (a = b)
  | _, _ => false

/-- Values compared by content rather than by reference. -/
def isPrimitive : JsVal → Bool
  | arr _ => false
  | obj _ => false
  | _ => true

end JsVal

/-! ## Token table and configuration -/

/-- The part of `config` the payment core reads (taken from the process environment). -/
structure Config where
  /-- `config.aliceTokenMint`, as `new PublicKey(...).toString()` prints it -/
  aliceTokenMint : String
  /-- `config.usdcTokenMint`, as `new PublicKey(...).toString()` prints it -/
  usdcTokenMint : String
  /-- `config.merchantWallet`; absent when `MERCHANT_WALLET` is not set -/
  merchantWallet : Option String

/-- A member that an object literal inherits from `Object.prototype` and that a lookup
`table[key]` returns when `key` is its name: a method, with its `length`, or, for the key
`__proto__`, `Object.prototype` itself. -/
inductive InheritedMember where
  | method (length : Nat)
  | objectPrototype
deriving DecidableEq, Repr

/-- The member of `Object.prototype` of that name, if it has one. -/
def inheritedMember (name : String) : Option InheritedMember :=
  if name = "constructor" then some (.method 1)
  else if name = "hasOwnProperty" then some (.method 1)
  else if name = "isPrototypeOf" then some (.method 1)
  else if name = "propertyIsEnumerable" then some (.method 1)
  else if name = "toLocaleString" then some (.method 0)
  else if name = "toString" then some (.method 0)
  else if name = "valueOf" then some (.method 0)
  else if name = "__defineGetter__" then some (.method 2)
  else if name = "__defineSetter__" then some (.method 2)
  else if name = "__lookupGetter__" then some (.method 1)
  else if name = "__lookupSetter__" then some (.method 1)
  else if name = "__proto__" then some .objectPrototype
  else none

/-- One entry of `TokenManager.tokens`. -/
structure TokenInfo where
  mint : String
  decimals : Nat
  priceUsd : JsNumber
deriving DecidableEq, Repr

/-- `TokenManager`, reduced to the `tokens` table its constructor builds. -/
structure TokenManager where
  tokens : List (String × TokenInfo)

/-- `new TokenManager(connection, wallet)`. -/
def TokenManager.create (config : Config) : TokenManager :=
  { tokens :=
      [("ALICE", { mint := config.aliceTokenMint, decimals := 9, priceUsd := JsNumber.ofQuot 10 100 }),
       ("USDC", { mint := config.usdcTokenMint, decimals := 6, priceUsd := JsNumber.ofQuot 100 100 })] }

/-! ## X402PaymentHandler -/

/-- The object `verifyPayment` returns: `{ valid: false, error }` or
`{ valid: true, signature, amount, token }`. -/
inductive Verdict where
  | invalid (error : String)
  | verified (signature amount token : JsVal)

namespace Verdict

/-- The `valid` field. -/
def valid : Verdict → Bool
  | invalid _ => false
  | verified _ _ _ => true

/-- The `error` field (`undefined` on a verified payment). -/
def error : Verdict → JsVal
  | invalid e => .str e
  | verified _ _ _ => .undefined

/-- The `amount` field (`undefined` on an invalid verdict). -/
def amount : Verdict → JsVal
  | invalid _ => .undefined
  | verified _ a _ => a

/-- The `token` field (`undefined` on an invalid verdict). -/
def token : Verdict → JsVal
  | invalid _ => .undefined
  | verified _ _ t => t

/-- The `signature` field (`undefined` on an invalid verdict). -/
def signature : Verdict → JsVal
  | invalid _ => .undefined
  | verified s _ _ => s

end Verdict

/-- The `Map` held in `paymentCache`, as its entries in insertion order. -/
structure PaymentCache where
  entries : List (JsVal × Verdict)

namespace PaymentCache

/-- `new Map()`. -/
def empty : PaymentCache := ⟨[]⟩

/-- Lookup in an entry list. -/
def find : List (JsVal × Verdict) → JsVal → Option Verdict
  | [], _ => none
  | (k, v) :: rest, key => if JsVal.sameValueZero k key then some v else find rest key

/-- Replace the value under `key`, or append a new entry. -/
def insert : List (JsVal × Verdict) → JsVal → Verdict → List (JsVal × Verdict)
  | [], key, v => [(key, v)]
  | (k, w) :: rest, key, v =>
    if JsVal.sameValueZero k key then (k, v) :: rest else (k, w) :: insert rest key v

/-- `Map.prototype.get` (`none` for `undefined`). -/
def get (c : PaymentCache) (key : JsVal) : Option Verdict := find c.entries key

/-- `Map.prototype.has`. -/
def has (c : PaymentCache) (key : JsVal) : Bool := (c.get key).isSome

/-- `Map.prototype.set`. -/
def set (c : PaymentCache) (key : JsVal) (v : Verdict) : PaymentCache :=
  ⟨insert c.entries key v⟩

end PaymentCache

/-- One accepted payment method of a payment requirement. -/
structure PaymentMethod where
  scheme : String
  network : String
  maxAmountRequired : String
  resource : String
  description : String
  mimeType : String
  payTo : Option String
  maxTimeoutSeconds : Nat
  asset : String
  token : String
deriving DecidableEq, Repr

/-- The body `createPaymentRequirement` builds; `error` is `null` (`none`). -/
structure PaymentRequirement where
  x402Version : Nat
  accepts : List PaymentMethod
  error : Option String
deriving DecidableEq, Repr

/-- `JSON.parse(Buffer.from(paymentHeader, 'base64').toString('utf8'))`: the parsed value,
or the `SyntaxError` of `JSON.parse`.  Both steps are built-ins of the platform. -/
abbrev ProofDecoder := String → Except JsError JsVal

/-- What `connection.getTransaction(signature, { commitment: 'confirmed' })` answers at the
time of one call: a rejection, or the resolved value (`null` when the ledger does not know
the transaction, otherwise the transaction record). -/
abbrev Ledger := JsVal → Except JsError JsVal

/-- The read `transaction.meta.err`: a `TypeError` when the record has no `meta`. -/
def transactionErr (transaction : JsVal) : Except JsError JsVal :=
  match transaction.getProp "meta" with
  | .error e => .error e
  | .ok m => m.getProp "err"

/-- `X402PaymentHandler`. -/
structure X402PaymentHandler where
  tokenManager : TokenManager
  paymentCache : PaymentCache

namespace X402PaymentHandler

/-- `new X402PaymentHandler(tokenManager)`. -/
def create (tokenManager : TokenManager) : X402PaymentHandler :=
  { tokenManager := tokenManager, paymentCache := PaymentCache.empty }

/-- `createPaymentRequirement(amount, token, description)`.  A token that is not a key of
the table makes `tokenInfo` undefined and the read `tokenInfo.decimals` throws a
`TypeError`; when the token is the name of a member inherited from `Object.prototype`,
`tokenInfo` is that member, `tokenInfo.decimals` and `tokenInfo.mint` are `undefined` and
it is the call `tokenInfo.mint.toString()` that throws. -/
def createPaymentRequirement (config : Config) (h : X402PaymentHandler)
    (amount : JsNumber) (token description : String) : Except JsError PaymentRequirement :=
  match h.tokenManager.tokens.lookup token with
  | none =>
    match inheritedMember token with
    | some _ => .error ⟨"Cannot read properties of undefined (reading 'toString')"⟩
    | none => .error ⟨"Cannot read properties of undefined (reading 'decimals')"⟩
  | some tokenInfo =>
    .ok
      { x402Version := 1
        accepts :=
          [{ scheme := "exact"
             network := "solana-mainnet"
             maxAmountRequired :=
               (JsNumber.mul amount (JsNumber.pow10 tokenInfo.decimals)).toString
             resource := description
             description := description
             mimeType := "application/json"
             payTo := config.merchantWallet
             maxTimeoutSeconds := 300
             asset := tokenInfo.mint
             token := token }]
        error := none }

/-- What one call of `verifyPayment` did. -/
structure VerifyOutcome where
  /-- the returned verdict, or the exception leaving the function -/
  completion : Except JsError Verdict
  /-- the handler after the call -/
  handler : X402PaymentHandler
  /-- the arguments of the `connection.getTransaction` calls issued, in order -/
  ledgerQueries : List JsVal

/-- The `try` block of `verifyPayment`. -/
def verifyPaymentTry (decode : ProofDecoder) (ledger : Ledger) (h : X402PaymentHandler)
    (paymentHeader : String) : VerifyOutcome :=
  -- Decode payment header
  match decode paymentHeader with
  | .error e => ⟨.error e, h, []⟩
  | .ok paymentData =>
    match paymentData.getProp "signature" with
    | .error e => ⟨.error e, h, []⟩
    | .ok signature =>
      -- Check if already verified
      match h.paymentCache.get signature with
      | some cached => ⟨.ok cached, h, []⟩
      | none =>
        -- Verify transaction on Solana
        match ledger signature with
        | .error e => ⟨.error e, h, [signature]⟩
        | .ok transaction =>
          if !transaction.truthy then
            ⟨.ok (.invalid "Transaction not found or failed"), h, [signature]⟩
          else
            match transactionErr transaction with
            | .error e => ⟨.error e, h, [signature]⟩
            | .ok err =>
              if err.truthy then
                ⟨.ok (.invalid "Transaction not found or failed"), h, [signature]⟩
              else
                -- Cache successful verification
                match paymentData.getProp "amount", paymentData.getProp "token" with
                | .ok amount, .ok token =>
                  let result := Verdict.verified signature amount token
                  ⟨.ok result,
                   { h with paymentCache := h.paymentCache.set signature result },
                   [signature]⟩
                | .error e, _ => ⟨.error e, h, [signature]⟩
                | _, .error e => ⟨.error e, h, [signature]⟩

/-- `verifyPayment(paymentHeader)`: the `try` block, and the `catch` block that turns any
exception into `{ valid: false, error: error.message }`. -/
def verifyPayment (decode : ProofDecoder) (ledger : Ledger) (h : X402PaymentHandler)
    (paymentHeader : String) : VerifyOutcome :=
  let attempt := verifyPaymentTry decode ledger h paymentHeader
  match attempt.completion with
  | .ok verdict => { attempt with completion := .ok verdict }
  | .error e => { attempt with completion := .ok (.invalid e.message) }

end X402PaymentHandler

/-! ## The `requirePayment` middleware -/

/-- The request, reduced to `req.headers['x-payment']`. -/
structure Request where
  xPayment : Option String

/-- A JSON response body of the middleware. -/
inductive ResponseBody where
  | requirement (body : PaymentRequirement)
  | invalidPayment (error : String) (details : JsVal)

/-- What the middleware did with a request. -/
inductive MiddlewareResult where
  /-- `res.status(status).json(body)` -/
  | respond (status : Nat) (body : ResponseBody)
  /-- `req.payment = verification; next()` -/
  | next (payment : Verdict)

/-- What one run of the middleware did. -/
structure MiddlewareOutcome where
  completion : Except JsError MiddlewareResult
  handler : X402PaymentHandler
  ledgerQueries : List JsVal

/-- `requirePayment(amount, token, description)(req, res, next)` on the shared
`x402Handler`. -/
def requirePayment (config : Config) (decode : ProofDecoder)
    (amount : JsNumber) (token description : String)
    (ledger : Ledger) (x402Handler : X402PaymentHandler) (req : Request) :
    MiddlewareOutcome :=
  match req.xPayment.filter (fun p => decide (p ≠ "")) with
  | none =>
    -- Return 402 Payment Required
    match x402Handler.createPaymentRequirement config amount token description with
    | .ok body => ⟨.ok (.respond 402 (.requirement body)), x402Handler, []⟩
    | .error e => ⟨.error e, x402Handler, []⟩
  | some paymentHeader =>
    -- Verify payment
    let verified := x402Handler.verifyPayment decode ledger paymentHeader
    match verified.completion with
    | .error e => ⟨.error e, verified.handler, verified.ledgerQueries⟩
    | .ok verification =>
      if verification.valid then
        ⟨.ok (.next verification), verified.handler, verified.ledgerQueries⟩
      else
        ⟨.ok (.respond 400 (.invalidPayment "Invalid payment" verification.error)),
         verified.handler, verified.ledgerQueries⟩

/-- The handler after a sequence of requests has gone through the middleware of one route,
each request with the ledger as it answers at that time. -/
def serveAll (config : Config) (decode : ProofDecoder)
    (amount : JsNumber) (token description : String) :
    X402PaymentHandler → List (Ledger × Request) → X402PaymentHandler
  | h, [] => h
  | h, (ledger, req) :: rest =>
    serveAll config decode amount token description
      (requirePayment config decode amount token description ledger h req).handler rest

/-! ## AliceAgent: the parts common to both files -/

/-- The `{ ALICE, USDC }` records of the agent. -/
structure TokenAmounts where
  ALICE : JsNumber
  USDC : JsNumber
deriving DecidableEq, Repr

/-- The `spendingLimits` record. -/
structure SpendingLimits where
  perTransaction : TokenAmounts
  daily : TokenAmounts
deriving DecidableEq, Repr

/-- `AliceAgent`, reduced to the fields its methods read or write; the collaborators it
holds (`tokenManager`, `helioClient`, `browserUseClient`, ...) are arguments of the calls. -/
structure AliceAgent where
  spendingLimits : SpendingLimits
  dailySpent : TokenAmounts
deriving DecidableEq, Repr

/-- The constructor of `AliceAgent` (the same limits in both files). -/
def AliceAgent.create : AliceAgent :=
  { spendingLimits :=
      { perTransaction := { ALICE := JsNumber.ofNat 100, USDC := JsNumber.ofNat 500 }
        daily := { ALICE := JsNumber.ofNat 1000, USDC := JsNumber.ofNat 2000 } }
    dailySpent := { ALICE := JsNumber.ofNat 0, USDC := JsNumber.ofNat 0 } }

/-- The object `analyzeIntent` returns; `query` and `product` are absent on some intents. -/
structure Intent where
  type : String
  query : Option String
  product : Option String
deriving DecidableEq, Repr

/-- How a template literal or a property key renders an optional string. -/
def renderOpt (o : Option String) : String := o.getD "undefined"

/-- An entry of the mock search results. -/
structure Product where
  name : String
  price : JsNumber
  url : String
deriving DecidableEq, Repr

/-- An entry of a `payments` list; `paymentLink` is present only on the purchase payment
of `server.js`. -/
structure Payment where
  amount : JsNumber
  token : String
  description : String
  timestamp : String
  paymentLink : Option JsVal

/-- An entry of the mock price table. -/
structure PriceRange where
  min : JsNumber
  max : JsNumber
deriving DecidableEq, Repr

/-- What `mockResults[product] || []` evaluates to: an array of products (an entry of the
table, or the default `[]`), or a member inherited from `Object.prototype`, which is truthy
and so is returned instead of `[]`. -/
inductive SearchResults where
  | list (items : List Product)
  | inherited (member : InheritedMember)
deriving DecidableEq, Repr

/-- The read `searchResults.length`: the number of products, the `length` of an inherited
method, `undefined` (`none`) on `Object.prototype`. -/
def SearchResults.length : SearchResults → Option Nat
  | .list items => some items.length
  | .inherited (.method n) => some n
  | .inherited .objectPrototype => none

/-- What `priceRanges[product] || { min: 0, max: 1000 }` evaluates to: a price range, or a
member inherited from `Object.prototype`, whose `min` and `max` read as `undefined`. -/
inductive PriceData where
  | range (r : PriceRange)
  | inherited (member : InheritedMember)
deriving DecidableEq, Repr

/-- The read `priceData.min` (`none` for `undefined`). -/
def PriceData.min : PriceData → Option JsNumber
  | .range r => some r.min
  | .inherited _ => none

/-- The read `priceData.max` (`none` for `undefined`). -/
def PriceData.max : PriceData → Option JsNumber
  | .range r => some r.max
  | .inherited _ => none

/-- The `response` sentence of a reply, kept as the template chosen and its arguments. -/
inductive ResponseText where
  | help
  | found (count : Option Nat) (product : String)
  | noProducts
  | exceedsLimit (price limit : JsNumber)
  | purchased (name : String) (price : JsNumber) (orderId : JsVal)
  | purchaseFailed (error : JsVal)
  | linkFailed (message : String)
  | readyToPurchase (name : String) (price : JsNumber)
  | balances (alice usdc spentAlice spentUsdc : JsNumber)
  | priceRange (product : String) (min max : Option JsNumber)

/-- The object a handler of `AliceAgent` resolves to. -/
structure Reply where
  response : ResponseText
  payments : List Payment
  results : Option SearchResults
  order : Option JsVal
  paymentLink : Option JsVal
  product : Option Product
  priceData : Option PriceData

/-- A call to a collaborator outside the agent. -/
inductive ExternalCall where
  | createTask (instructions : String)
  | waitForCompletion (taskId : JsVal)
  | createPaymentLink (amount : JsNumber) (token description : String)
  | getBalance (token : String)

/-- What one call of an agent method did. -/
structure AgentOutcome where
  /-- the resolved reply, or the exception the returned promise rejects with -/
  completion : Except JsError Reply
  /-- the agent after the call -/
  agent : AliceAgent
  /-- the collaborator calls issued, in order -/
  calls : List ExternalCall

/-- `String.prototype.includes` on the characters of the two strings. -/
def includesChars : List Char → List Char → Bool
  | [], needle => needle.isEmpty
  | c :: rest, needle => needle.isPrefixOf (c :: rest) || includesChars rest needle

/-- `s.includes(sub)`. -/
def includes (s sub : String) : Bool := includesChars s.data sub.data

/-- `extractProduct(message)`; `String.prototype.toLowerCase` is an argument. -/
def extractProduct (toLowerCase : String → String) (message : String) : String :=
  let products := ["headphones", "laptop", "coffee maker", "gaming chair", "monitor"]
  match products.find? (fun product => includes (toLowerCase message) product) with
  | some product => product
  | none => "general item"

/-- `analyzeIntent(message)`. -/
def analyzeIntent (toLowerCase : String → String) (message : String) : Intent :=
  let lowerMessage := toLowerCase message
  if includes lowerMessage "search" || includes lowerMessage "find" then
    { type := "SEARCH", query := some message,
      product := some (extractProduct toLowerCase message) }
  else if includes lowerMessage "buy" || includes lowerMessage "purchase" then
    { type := "PURCHASE", query := some message,
      product := some (extractProduct toLowerCase message) }
  else if includes lowerMessage "balance" then
    { type := "BALANCE", query := none, product := none }
  else if includes lowerMessage "price" || includes lowerMessage "cost" then
    { type := "PRICE_CHECK", query := some message,
      product := some (extractProduct toLowerCase message) }
  else
    { type := "GENERAL", query := some message, product := none }

/-- `handleSearch(intent)` for the mock table `getSearchResults`; `now` is what
`new Date().toISOString()` reads.  Returns the agent after the call and the reply. -/
def handleSearch (getSearchResults : String → SearchResults) (now : String)
    (agent : AliceAgent) (intent : Intent) : AliceAgent × Reply :=
  -- Simulate API access payment (0.1 ALICE)
  let apiPayment : Payment :=
    { amount := JsNumber.ofQuot 1 10
      token := "ALICE"
      description := "Search API access for " ++ renderOpt intent.product
      timestamp := now
      paymentLink := none }
  let agent1 : AliceAgent :=
    { agent with
      dailySpent :=
        { agent.dailySpent with
          ALICE := JsNumber.add agent.dailySpent.ALICE (JsNumber.ofQuot 1 10) } }
  -- Simulate search results
  let searchResults := getSearchResults (renderOpt intent.product)
  (agent1,
   { response := .found searchResults.length (renderOpt intent.product)
     payments := [apiPayment]
     results := some searchResults
     order := none, paymentLink := none, product := none, priceData := none })

/-- `handlePriceCheck(intent)` for the mock table `getPriceData`. -/
def handlePriceCheck (getPriceData : String → PriceData) (intent : Intent) : Reply :=
  let priceData := getPriceData (renderOpt intent.product)
  { response := .priceRange (renderOpt intent.product) priceData.min priceData.max
    payments := []
    results := none, order := none, paymentLink := none, product := none
    priceData := some priceData }

/-- The reply of the `default` branch of `processMessage`. -/
def helpReply : Reply :=
  { response := .help, payments := []
    results := none, order := none, paymentLink := none, product := none, priceData := none }

/-! ## AliceAgent in `alice-backend-implementation (1).js` -/

namespace Backend

/-- `getSearchResults(product)`, that is `mockResults[product] || []`: the entry of the mock
table, the member inherited from `Object.prototype` when `product` is the name of one, and
`[]` for any other key. -/
def getSearchResults (product : String) : SearchResults :=
  if product = "headphones" then
    .list
      [{ name := "Sony WH-1000XM5", price := JsNumber.ofQuot 34999 100,
         url := "https://example.com/sony" },
       { name := "AirPods Pro 2", price := JsNumber.ofQuot 24999 100,
         url := "https://example.com/airpods" }]
  else if product = "laptop" then
    .list
      [{ name := "MacBook Air M2", price := JsNumber.ofQuot 99900 100,
         url := "https://example.com/macbook" },
       { name := "Dell XPS 13", price := JsNumber.ofQuot 119900 100,
         url := "https://example.com/dell" }]
  else
    match inheritedMember product with
    | some member => .inherited member
    | none => .list []

/-- `getPriceData(product)`, that is `priceRanges[product] || { min: 0, max: 1000 }`. -/
def getPriceData (product : String) : PriceData :=
  if product = "headphones" then .range ⟨JsNumber.ofNat 50, JsNumber.ofNat 500⟩
  else if product = "laptop" then .range ⟨JsNumber.ofNat 500, JsNumber.ofNat 3000⟩
  else if product = "coffee maker" then .range ⟨JsNumber.ofNat 30, JsNumber.ofNat 300⟩
  else
    match inheritedMember product with
    | some member => .inherited member
    | none => .range ⟨JsNumber.ofNat 0, JsNumber.ofNat 1000⟩

/-- What `browserUseClient.waitForCompletion` resolves to: `{ success: true, output }`, or
`{ success: false, error }` (a failed task or the timeout). -/
inductive TaskResult where
  | finished (output : JsVal)
  | failed (error : JsVal)

/-- What the collaborators answer during one call of `processMessage`. -/
structure World where
  /-- `new Date().toISOString()` in `handleSearch` -/
  searchTime : String
  /-- `browserUseClient.createTask(...)`: the task id, or a rejection -/
  createTask : Except JsError JsVal
  /-- `browserUseClient.waitForCompletion(taskId)` -/
  waitForCompletion : Except JsError TaskResult
  /-- `new Date().toISOString()` for the purchase payment -/
  purchaseTime : String
  /-- `tokenManager.getBalance('ALICE')` -/
  aliceBalance : JsNumber
  /-- `tokenManager.getBalance('USDC')` -/
  usdcBalance : JsNumber

/-- The part of `handlePurchase` after the search when `searchResult.results` is an array:
`agent` and `payments` are as the search left them, `results` is that array. -/
def purchaseSelected (w : World) (agent : AliceAgent) (payments : List Payment)
    (results : List Product) : AgentOutcome :=
  match results with
  | [] =>
    ⟨.ok { response := .noProducts, payments := payments
           results := none, order := none, paymentLink := none, product := none
           priceData := none },
     agent, []⟩
  | selectedProduct :: _ =>
    -- Check spending limits
    if JsNumber.gt selectedProduct.price agent.spendingLimits.perTransaction.USDC then
      ⟨.ok { response :=
               .exceedsLimit selectedProduct.price agent.spendingLimits.perTransaction.USDC
             payments := payments
             results := none, order := none, paymentLink := none, product := none
             priceData := none },
       agent, []⟩
    else
      -- Create Browser-Use task for purchase
      let task :=
        ExternalCall.createTask
          ("Go to " ++ selectedProduct.url ++ " and complete the purchase of "
            ++ selectedProduct.name)
      match w.createTask with
      | .error e => ⟨.error e, agent, [task]⟩
      | .ok taskId =>
        -- Wait for completion
        match w.waitForCompletion with
        | .error e => ⟨.error e, agent, [task, .waitForCompletion taskId]⟩
        | .ok (.failed error) =>
          ⟨.ok { response := .purchaseFailed error, payments := payments
                 results := none, order := none, paymentLink := none, product := none
                 priceData := none },
           agent, [task, .waitForCompletion taskId]⟩
        | .ok (.finished output) =>
          let purchasePayment : Payment :=
            { amount := selectedProduct.price
              token := "USDC"
              description := "Purchase of " ++ selectedProduct.name
              timestamp := w.purchaseTime
              paymentLink := none }
          let agent1 : AliceAgent :=
            { agent with
              dailySpent :=
                { agent.dailySpent with
                  USDC := JsNumber.add agent.dailySpent.USDC selectedProduct.price } }
          -- the reply reads `result.output.orderId` after the accumulator is updated
          match output.getProp "orderId" with
          | .error e => ⟨.error e, agent1, [task, .waitForCompletion taskId]⟩
          | .ok orderId =>
            ⟨.ok { response := .purchased selectedProduct.name selectedProduct.price orderId
                   payments := payments ++ [purchasePayment]
                   results := none, order := some output, paymentLink := none
                   product := none, priceData := none },
             agent1, [task, .waitForCompletion taskId]⟩

/-- The part of `handlePurchase` after the search, for any value of `searchResult.results`.
On an array it is `purchaseSelected`.  On an inherited method of `length` 0 the test
`results.length === 0` holds and the reply is the one for no products.  On any other
inherited member the test fails, `results[0]` is `undefined` and the read
`selectedProduct.price` throws a `TypeError`. -/
def purchaseAfterSearch (w : World) (agent : AliceAgent) (payments : List Payment)
    (results : SearchResults) : AgentOutcome :=
  match results with
  | .list items => purchaseSelected w agent payments items
  | .inherited (.method 0) => purchaseSelected w agent payments []
  | .inherited _ =>
    ⟨.error ⟨"Cannot read properties of undefined (reading 'price')"⟩, agent, []⟩

/-- `handlePurchase(intent, userWallet)`. -/
def handlePurchase (w : World) (agent : AliceAgent) (intent : Intent) : AgentOutcome :=
  -- First, search for the product (requires payment)
  let searched := handleSearch getSearchResults w.searchTime agent intent
  purchaseAfterSearch w searched.1 searched.2.payments (searched.2.results.getD (.list []))

/-- `handleBalanceCheck()`. -/
def handleBalanceCheck (w : World) (agent : AliceAgent) : AgentOutcome :=
  ⟨.ok { response :=
           .balances w.aliceBalance w.usdcBalance agent.dailySpent.ALICE agent.dailySpent.USDC
         payments := []
         results := none, order := none, paymentLink := none, product := none
         priceData := none },
   agent, [.getBalance "ALICE", .getBalance "USDC"]⟩

/-- `processMessage(message, userWallet)`. -/
def processMessage (toLowerCase : String → String) (w : World) (agent : AliceAgent)
    (message : String) : AgentOutcome :=
  let intent := analyzeIntent toLowerCase message
  if intent.type = "SEARCH" then
    let searched := handleSearch getSearchResults w.searchTime agent intent
    ⟨.ok searched.2, searched.1, []⟩
  else if intent.type = "PURCHASE" then handlePurchase w agent intent
  else if intent.type = "BALANCE" then handleBalanceCheck w agent
  else if intent.type = "PRICE_CHECK" then
    ⟨.ok (handlePriceCheck getPriceData intent), agent, []⟩
  else ⟨.ok helpReply, agent, []⟩

/-- The agent after a sequence of `processMessage` calls, each with what the collaborators
answer during it. -/
def processAll (toLowerCase : String → String) : AliceAgent → List (World × String) → AliceAgent
  | agent, [] => agent
  | agent, (w, message) :: rest =>
    processAll toLowerCase (processMessage toLowerCase w agent message).agent rest

end Backend

/-! ## AliceAgent in `integrated-app/server.js` -/

namespace Server

/-- `getSearchResults(product)`, that is `mockResults[product] || []`: the entry of the mock
table, the member inherited from `Object.prototype` when `product` is the name of one, and
`[]` for any other key. -/
def getSearchResults (product : String) : SearchResults :=
  if product = "headphones" then
    .list
      [{ name := "Sony WH-1000XM5", price := JsNumber.ofQuot 34999 100,
         url := "https://example.com/sony" },
       { name := "AirPods Pro 2", price := JsNumber.ofQuot 24999 100,
         url := "https://example.com/airpods" }]
  else if product = "laptop" then
    .list
      [{ name := "MacBook Air M2", price := JsNumber.ofQuot 99900 100,
         url := "https://example.com/macbook" },
       { name := "Dell XPS 13", price := JsNumber.ofQuot 119900 100,
         url := "https://example.com/dell" }]
  else if product = "coffee maker" then
    .list
      [{ name := "Keurig K-Classic", price := JsNumber.ofQuot 7999 100,
         url := "https://example.com/keurig" },
       { name := "Hamilton Beach FlexBrew", price := JsNumber.ofQuot 8999 100,
         url := "https://example.com/hamilton" }]
  else if product = "gaming chair" then
    .list
      [{ name := "Secretlab Titan Evo", price := JsNumber.ofQuot 54900 100,
         url := "https://example.com/secretlab" },
       { name := "Razer Iskur", price := JsNumber.ofQuot 49900 100,
         url := "https://example.com/razer" }]
  else if product = "monitor" then
    .list
      [{ name := "LG UltraGear 27GN950", price := JsNumber.ofQuot 79999 100,
         url := "https://example.com/lg" },
       { name := "Samsung Odyssey G7", price := JsNumber.ofQuot 64999 100,
         url := "https://example.com/samsung" }]
  else
    match inheritedMember product with
    | some member => .inherited member
    | none => .list []

/-- What the collaborators answer during one call of `handlePurchase`. -/
structure World where
  /-- `new Date().toISOString()` in `handleSearch` -/
  searchTime : String
  /-- `helioClient.createPaymentLink(...)`: `response.data`, or a rejection -/
  createPaymentLink : Except JsError JsVal
  /-- `new Date().toISOString()` for the purchase payment -/
  purchaseTime : String

/-- The part of `handlePurchase` after the search when `searchResult.results` is an array:
`agent` and `payments` are as the search left them, `results` is that array. -/
def purchaseSelected (w : World) (agent : AliceAgent) (payments : List Payment)
    (results : List Product) : AgentOutcome :=
  match results with
  | [] =>
    ⟨.ok { response := .noProducts, payments := payments
           results := none, order := none, paymentLink := none, product := none
           priceData := none },
     agent, []⟩
  | selectedProduct :: _ =>
    -- Check spending limits
    if JsNumber.gt selectedProduct.price agent.spendingLimits.perTransaction.USDC then
      ⟨.ok { response :=
               .exceedsLimit selectedProduct.price agent.spendingLimits.perTransaction.USDC
             payments := payments
             results := none, order := none, paymentLink := none, product := none
             priceData := none },
       agent, []⟩
    else
      -- Create a payment link via Helio
      let link :=
        ExternalCall.createPaymentLink selectedProduct.price "USDC"
          ("Purchase of " ++ selectedProduct.name)
      match w.createPaymentLink with
      | .error e =>
        ⟨.ok { response := .linkFailed e.message, payments := payments
               results := none, order := none, paymentLink := none, product := none
               priceData := none },
         agent, [link]⟩
      | .ok paymentLink =>
        match paymentLink.getProp "url" with
        | .error e => ⟨.error e, agent, [link]⟩
        | .ok url =>
          let purchasePayment : Payment :=
            { amount := selectedProduct.price
              token := "USDC"
              description := "Purchase of " ++ selectedProduct.name
              timestamp := w.purchaseTime
              paymentLink := some url }
          ⟨.ok { response := .readyToPurchase selectedProduct.name selectedProduct.price
                 payments := payments ++ [purchasePayment]
                 results := none, order := none, paymentLink := some url
                 product := some selectedProduct, priceData := none },
           agent, [link]⟩

/-- The part of `handlePurchase` after the search, for any value of `searchResult.results`.
On an array it is `purchaseSelected`.  On an inherited method of `length` 0 the test
`results.length === 0` holds and the reply is the one for no products.  On any other
inherited member the test fails, `results[0]` is `undefined` and the read
`selectedProduct.price` throws a `TypeError`. -/
def purchaseAfterSearch (w : World) (agent : AliceAgent) (payments : List Payment)
    (results : SearchResults) : AgentOutcome :=
  match results with
  | .list items => purchaseSelected w agent payments items
  | .inherited (.method 0) => purchaseSelected w agent payments []
  | .inherited _ =>
    ⟨.error ⟨"Cannot read properties of undefined (reading 'price')"⟩, agent, []⟩

/-- `handlePurchase(intent, userWallet)`. -/
def handlePurchase (w : World) (agent : AliceAgent) (intent : Intent) : AgentOutcome :=
  -- First, search for the product (requires payment)
  let searched := handleSearch getSearchResults w.searchTime agent intent
  purchaseAfterSearch w searched.1 searched.2.payments (searched.2.results.getD (.list []))

end Server

/-! ## Further parts of the two files -/

namespace JsNumber

/-- `Math.floor(x)` (exact on binary64 values). -/
def floor (x : JsNumber) : JsNumber :=
  ⟨x.units / ((2 ^ 1074 : Nat) : Int) * ((2 ^ 1074 : Nat) : Int)⟩

/-- JavaScript `a >= b` on numbers. -/
def ge (a b : JsNumber) : Bool := decide (b.units ≤ a.units)

/-- JavaScript `a - b` on numbers. -/
def sub (a b : JsNumber) : JsNumber := ofQuot (a.units - b.units) (2 ^ 1074)

/-- Whether the stored value is a binary64 value: below `2 ^ 1024` in magnitude and with at
most 53 significant bits.  Every JavaScript number satisfies it. -/
def isDouble (x : JsNumber) : Bool :=
  decide (x.units.natAbs < 2 ^ 2098) &&
    decide (x.units.natAbs % 2 ^ (log2 x.units.natAbs - 52) = 0)

end JsNumber

/-- Whether a string is a non-empty run of decimal digits, the way a whole number of
smallest units is written. -/
def isDecimalDigits (s : String) : Bool := !s.data.isEmpty && s.data.all Char.isDigit

namespace JsVal

/-- Whether an object has an own property of that name. -/
def hasOwn : JsVal → String → Bool
  | obj props, name => (props.lookup name).isSome
  | _, _ => false

/-- An optional string as a property value (`undefined` when absent). -/
def ofOptString : Option String → JsVal
  | some s => str s
  | none => undefined

end JsVal

/-- The object literal of one accepted method, with the property names of the source. -/
def PaymentMethod.toObject (m : PaymentMethod) : JsVal :=
  .obj [("scheme", .str m.scheme), ("network", .str m.network),
        ("maxAmountRequired", .str m.maxAmountRequired), ("resource", .str m.resource),
        ("description", .str m.description), ("mimeType", .str m.mimeType),
        ("payTo", JsVal.ofOptString m.payTo),
        ("maxTimeoutSeconds", .num (JsNumber.ofNat m.maxTimeoutSeconds)),
        ("asset", .str m.asset), ("token", .str m.token)]

/-- The object literal `createPaymentRequirement` returns. -/
def PaymentRequirement.toObject (r : PaymentRequirement) : JsVal :=
  .obj [("x402Version", .num (JsNumber.ofNat r.x402Version)),
        ("accepts", .arr (r.accepts.map PaymentMethod.toObject)),
        ("error", match r.error with
          | some e => .str e
          | none => .null)]

/-- The object handed to `res.json(...)`, with the property names of the source. -/
def ResponseBody.toObject : ResponseBody → JsVal
  | .requirement body => body.toObject
  | .invalidPayment error details => .obj [("error", .str error), ("details", details)]

/-- The handler after a sequence of `verifyPayment` calls, each with the ledger as it
answers at that time. -/
def X402PaymentHandler.verifyAll (decode : ProofDecoder) :
    X402PaymentHandler → List (Ledger × String) → X402PaymentHandler
  | h, [] => h
  | h, (ledger, paymentHeader) :: rest =>
    verifyAll decode (h.verifyPayment decode ledger paymentHeader).handler rest

/-- `amountInSmallestUnit` of `TokenManager.createTransferInstruction(token, amount, recipient)`
in `alice-backend-implementation (1).js`:
`Math.floor(amount * Math.pow(10, tokenInfo.decimals))`. -/
def TokenManager.amountInSmallestUnit (tm : TokenManager) (token : String)
    (amount : JsNumber) : Except JsError JsNumber :=
  match tm.tokens.lookup token with
  | none => .error ⟨"Cannot read properties of undefined (reading 'mint')"⟩
  | some tokenInfo =>
    .ok (JsNumber.floor (JsNumber.mul amount (JsNumber.pow10 tokenInfo.decimals)))

/-- A recipient of a Helio payment link. -/
structure HelioRecipient where
  walletId : Option String
  currencyId : String
deriving DecidableEq, Repr

/-- The `features` of a Helio payment link. -/
structure HelioFeatures where
  requireEmail : Bool
  shouldRedirectOnSuccess : Bool
deriving DecidableEq, Repr

/-- The JSON body `HelioPayClient.createPaymentLink` posts to `/paylink/create/api-key`. -/
structure PaymentLinkRequest where
  template : String
  name : String
  price : JsNumber
  pricingCurrency : String
  features : HelioFeatures
  recipients : List HelioRecipient
  description : String
deriving DecidableEq, Repr

/-- The request body built by `HelioPayClient.createPaymentLink(amount, token, description)`
(the same in both files). -/
def HelioPayClient.createPaymentLinkBody (config : Config) (amount : JsNumber)
    (token description : String) : PaymentLinkRequest :=
  { template := "OTHER"
    name := description
    -- Convert to smallest unit
    price := JsNumber.mul amount (JsNumber.ofNat 1000000)
    pricingCurrency := if token = "ALICE" then config.aliceTokenMint else config.usdcTokenMint
    features := { requireEmail := false, shouldRedirectOnSuccess := true }
    recipients :=
      [{ walletId := config.merchantWallet
         currencyId :=
           if token = "ALICE" then config.aliceTokenMint else config.usdcTokenMint }]
    description := description }

/-- The decision of the middleware on a request: whether it called `next()`. -/
def MiddlewareOutcome.admitted (o : MiddlewareOutcome) : Bool :=
  match o.completion with
  | .ok (.next _) => true
  | _ => false

/-! ## Concrete inputs used by the examples -/

namespace Sample

/-- A configuration as the environment would give it. -/
def config : Config :=
  { aliceTokenMint := "A1iceTokenMint1111111111111111111111111111"
    usdcTokenMint := "EPjFWdd5AufqSSqeM2qN1xzybapC8G4wEGGkZwyTDt1v"
    merchantWallet := some "MerchantWa11et11111111111111111111111111111" }

/-- A transaction reference. -/
def signature : JsVal := .str "4vJ9JU1bJJE96FWS"

/-- Base64 of `{"signature":"4vJ9JU1bJJE96FWS","amount":0.1,"token":"ALICE"}`. -/
def proofA : String :=
  "eyJzaWduYXR1cmUiOiI0dko5SlUxYkpKRTk2RldTIiwiYW1vdW50IjowLjEsInRva2VuIjoiQUxJQ0UifQ=="

/-- Base64 of `{"signature":"4vJ9JU1bJJE96FWS","amount":1000000,"token":"USDC"}`. -/
def proofB : String :=
  "eyJzaWduYXR1cmUiOiI0dko5SlUxYkpKRTk2RldTIiwiYW1vdW50IjoxMDAwMDAwLCJ0b2tlbiI6IlVTREMifQ=="

/-- The value `JSON.parse` gives for `proofA`. -/
def dataA : JsVal :=
  .obj [("signature", signature), ("amount", .num (JsNumber.ofQuot 1 10)),
        ("token", .str "ALICE")]

/-- The value `JSON.parse` gives for `proofB`. -/
def dataB : JsVal :=
  .obj [("signature", signature), ("amount", .num (JsNumber.ofNat 1000000)),
        ("token", .str "USDC")]

/-- The message of the `SyntaxError` of `JSON.parse` (V8, Node 20) for the header
`not json`: `Buffer.from('not json', 'base64')` skips the blank and gives the bytes
`9E 8B 63 B2 89`, which `toString('utf8')` reads as the letter `c` between two pairs of
the replacement character U+FFFD. -/
def notJsonMessage : String :=
  "Unexpected token '\uFFFD', \"\uFFFD\uFFFDc\uFFFD\uFFFD\" is not valid JSON"

/-- The decoder on the sample headers: the two proofs, and the header `not json`, which
stands for every other header here. -/
def decode : ProofDecoder := fun header =>
  if header = proofA then .ok dataA
  else if header = proofB then .ok dataB
  else .error ⟨notJsonMessage⟩

/-- The ledger does not know the transaction. -/
def ledgerAbsent : Ledger := fun _ => .ok .null

/-- The ledger has the transaction and it succeeded. -/
def ledgerSucceeded : Ledger := fun _ =>
  .ok (.obj [("slot", .num (JsNumber.ofNat 250000000)),
             ("meta", .obj [("err", .null), ("fee", .num (JsNumber.ofNat 5000))])])

/-- The ledger has the transaction and it failed. -/
def ledgerFailed : Ledger := fun _ =>
  .ok (.obj [("slot", .num (JsNumber.ofNat 250000000)),
             ("meta", .obj [("err", .obj [("InstructionError", .arr [])]),
                            ("fee", .num (JsNumber.ofNat 5000))])])

/-- The RPC request fails. -/
def ledgerDown : Ledger := fun _ => .error ⟨"fetch failed"⟩

/-- A fresh handler. -/
def handler : X402PaymentHandler := X402PaymentHandler.create (TokenManager.create config)

/-- `toLowerCase` on ASCII letters. -/
def toLowerCase (s : String) : String := String.mk (s.data.map Char.toLower)

/-- A purchase in which the Browser-Use task finishes. -/
def worldFinished : Backend.World :=
  { searchTime := "2025-01-01T10:00:00.000Z"
    createTask := .ok (.str "task-1")
    waitForCompletion := .ok (.finished (.obj [("success", .bool true),
      ("orderId", .str "A-1001"), ("totalPaid", .num (JsNumber.ofQuot 34999 100))]))
    purchaseTime := "2025-01-01T10:00:30.000Z"
    aliceBalance := JsNumber.ofNat 5000
    usdcBalance := JsNumber.ofNat 5000 }

/-- A purchase in which Helio answers with a payment link. -/
def worldLinked : Server.World :=
  { searchTime := "2025-01-01T10:00:00.000Z"
    createPaymentLink := .ok (.obj [("id", .str "pl-1"), ("url", .str "https://hel.io/pay/pl-1")])
    purchaseTime := "2025-01-01T10:00:30.000Z" }

/-- A fresh agent after six messages "buy headphones", each purchase finishing. -/
def afterSixPurchases : AliceAgent :=
  Backend.processAll toLowerCase AliceAgent.create
    (List.replicate 6 (worldFinished, "buy headphones"))

/-- The intent `analyzeIntent` gives for "buy a laptop". -/
def buyLaptop : Intent :=
  { type := "PURCHASE", query := some "buy a laptop", product := some "laptop" }

/-- The intent `analyzeIntent` gives for "buy headphones". -/
def buyHeadphones : Intent :=
  { type := "PURCHASE", query := some "buy headphones", product := some "headphones" }

/-- Base64 of `{"amount":1,"token":"USDC"}`: a proof without a `signature`. -/
def proofBare : String := "eyJhbW91bnQiOjEsInRva2VuIjoiVVNEQyJ9"

/-- The value `JSON.parse` gives for `proofBare`. -/
def dataBare : JsVal := .obj [("amount", .num (JsNumber.ofNat 1)), ("token", .str "USDC")]

/-- A fresh agent after the messages "find headphones" and "find a laptop": two searches,
`dailySpent.ALICE` is 0.2. -/
def afterTwoSearches : AliceAgent :=
  Backend.processAll toLowerCase AliceAgent.create
    [(worldFinished, "find headphones"), (worldFinished, "find a laptop")]

/-- An agent whose `dailySpent.ALICE` is `1e17`. -/
def agentLargeSpent : AliceAgent :=
  { AliceAgent.create with
    dailySpent := { AliceAgent.create.dailySpent with ALICE := JsNumber.ofNat (10 ^ 17) } }

/-- A purchase intent whose product is the name of a member of `Object.prototype`. -/
def buyConstructor : Intent :=
  { type := "PURCHASE", query := some "buy constructor", product := some "constructor" }

/-- Base64 of `null`. -/
def proofNull : String := "bnVsbA=="

/-- The decoder on the four sample proofs. -/
def decodeAll : ProofDecoder := fun header =>
  if header = proofBare then .ok dataBare
  else if header = proofNull then .ok .null
  else decode header

end Sample

/-! ## Lemmas on the cache -/

theorem sameValueZero_self {r : JsVal} (hr : r.isPrimitive = true) :
    JsVal.sameValueZero r r = true := by
  cases r <;> simp_all [JsVal.sameValueZero, JsVal.isPrimitive]

theorem find_insert_self {r : JsVal} (hr : r.isPrimitive = true) (v : Verdict)
    (l : List (JsVal × Verdict)) :
    PaymentCache.find (PaymentCache.insert l r v) r = some v := by
  induction l with
  | nil => simp [PaymentCache.insert, PaymentCache.find, sameValueZero_self hr]
  | cons kv rest ih =>
    obtain ⟨k, w⟩ := kv
    by_cases hk : JsVal.sameValueZero k r = true
    · simp [PaymentCache.insert, PaymentCache.find, hk]
    · simp [PaymentCache.insert, PaymentCache.find, hk, ih]

theorem insert_of_find_none {k : JsVal} (v : Verdict) {l : List (JsVal × Verdict)}
    (h : PaymentCache.find l k = none) : PaymentCache.insert l k v = l ++ [(k, v)] := by
  induction l with
  | nil => rfl
  | cons kv rest ih =>
    obtain ⟨k1, w⟩ := kv
    by_cases hk : JsVal.sameValueZero k1 k = true
    · simp [PaymentCache.find, hk] at h
    · simp only [PaymentCache.find, hk] at h
      simp [PaymentCache.insert, hk, ih h]

theorem find_append_of_some {k : JsVal} {v : Verdict} {l : List (JsVal × Verdict)}
    (m : List (JsVal × Verdict)) (h : PaymentCache.find l k = some v) :
    PaymentCache.find (l ++ m) k = some v := by
  induction l with
  | nil => simp [PaymentCache.find] at h
  | cons kv rest ih =>
    obtain ⟨k1, w⟩ := kv
    by_cases hk : JsVal.sameValueZero k1 k = true
    · simpa [PaymentCache.find, hk] using h
    · simp only [PaymentCache.find, hk] at h
      simpa [PaymentCache.find, hk] using ih h

theorem get_set_self {r : JsVal} (hr : r.isPrimitive = true) (c : PaymentCache) (v : Verdict) :
    (c.set r v).get r = some v :=
  find_insert_self hr v c.entries

theorem get_set_of_get_some {c : PaymentCache} {k k1 : JsVal} {v : Verdict} (v1 : Verdict)
    (hk : c.get k = some v) (hk1 : c.get k1 = none) : (c.set k1 v1).get k = some v := by
  unfold PaymentCache.get PaymentCache.set at *
  simp only [insert_of_find_none v1 hk1]
  exact find_append_of_some _ hk

theorem getProp_total_of_ok {v r : JsVal} {name : String} (other : String)
    (h : v.getProp name = .ok r) : ∃ x, v.getProp other = .ok x := by
  cases v <;> simp_all [JsVal.getProp]

/-! ## The branches of `verifyPayment` -/

namespace X402PaymentHandler

theorem verifyPayment_of_decode_error {decode : ProofDecoder} (ledger : Ledger)
    (h : X402PaymentHandler) {paymentHeader : String} {e : JsError}
    (hd : decode paymentHeader = .error e) :
    h.verifyPayment decode ledger paymentHeader = ⟨.ok (.invalid e.message), h, []⟩ := by
  simp [verifyPayment, verifyPaymentTry, hd]

theorem verifyPayment_of_no_signature {decode : ProofDecoder} (ledger : Ledger)
    (h : X402PaymentHandler) {paymentHeader : String} {paymentData : JsVal} {e : JsError}
    (hd : decode paymentHeader = .ok paymentData)
    (hs : paymentData.getProp "signature" = .error e) :
    h.verifyPayment decode ledger paymentHeader = ⟨.ok (.invalid e.message), h, []⟩ := by
  simp [verifyPayment, verifyPaymentTry, hd, hs]

theorem verifyPayment_of_cached {decode : ProofDecoder} (ledger : Ledger)
    {h : X402PaymentHandler} {paymentHeader : String} {paymentData r : JsVal} {v : Verdict}
    (hd : decode paymentHeader = .ok paymentData)
    (hs : paymentData.getProp "signature" = .ok r)
    (hc : h.paymentCache.get r = some v) :
    h.verifyPayment decode ledger paymentHeader = ⟨.ok v, h, []⟩ := by
  simp [verifyPayment, verifyPaymentTry, hd, hs, hc]

theorem verifyPayment_of_rejection {decode : ProofDecoder} {ledger : Ledger}
    {h : X402PaymentHandler} {paymentHeader : String} {paymentData r : JsVal} {e : JsError}
    (hd : decode paymentHeader = .ok paymentData)
    (hs : paymentData.getProp "signature" = .ok r)
    (hc : h.paymentCache.get r = none)
    (hl : ledger r = .error e) :
    h.verifyPayment decode ledger paymentHeader = ⟨.ok (.invalid e.message), h, [r]⟩ := by
  simp [verifyPayment, verifyPaymentTry, hd, hs, hc, hl]

theorem verifyPayment_of_absent {decode : ProofDecoder} {ledger : Ledger}
    {h : X402PaymentHandler} {paymentHeader : String} {paymentData r transaction : JsVal}
    (hd : decode paymentHeader = .ok paymentData)
    (hs : paymentData.getProp "signature" = .ok r)
    (hc : h.paymentCache.get r = none)
    (hl : ledger r = .ok transaction)
    (ht : transaction.truthy = false) :
    h.verifyPayment decode ledger paymentHeader
      = ⟨.ok (.invalid "Transaction not found or failed"), h, [r]⟩ := by
  simp [verifyPayment, verifyPaymentTry, hd, hs, hc, hl, ht]

theorem verifyPayment_of_no_meta {decode : ProofDecoder} {ledger : Ledger}
    {h : X402PaymentHandler} {paymentHeader : String} {paymentData r transaction : JsVal}
    {e : JsError}
    (hd : decode paymentHeader = .ok paymentData)
    (hs : paymentData.getProp "signature" = .ok r)
    (hc : h.paymentCache.get r = none)
    (hl : ledger r = .ok transaction)
    (ht : transaction.truthy = true)
    (hm : transactionErr transaction = .error e) :
    h.verifyPayment decode ledger paymentHeader = ⟨.ok (.invalid e.message), h, [r]⟩ := by
  simp [verifyPayment, verifyPaymentTry, hd, hs, hc, hl, ht, hm]

theorem verifyPayment_of_failed {decode : ProofDecoder} {ledger : Ledger}
    {h : X402PaymentHandler} {paymentHeader : String} {paymentData r transaction err : JsVal}
    (hd : decode paymentHeader = .ok paymentData)
    (hs : paymentData.getProp "signature" = .ok r)
    (hc : h.paymentCache.get r = none)
    (hl : ledger r = .ok transaction)
    (ht : transaction.truthy = true)
    (hm : transactionErr transaction = .ok err)
    (he : err.truthy = true) :
    h.verifyPayment decode ledger paymentHeader
      = ⟨.ok (.invalid "Transaction not found or failed"), h, [r]⟩ := by
  simp [verifyPayment, verifyPaymentTry, hd, hs, hc, hl, ht, hm, he]

theorem verifyPayment_of_succeeded {decode : ProofDecoder} {ledger : Ledger}
    {h : X402PaymentHandler} {paymentHeader : String}
    {paymentData r transaction err amount token : JsVal}
    (hd : decode paymentHeader = .ok paymentData)
    (hs : paymentData.getProp "signature" = .ok r)
    (hc : h.paymentCache.get r = none)
    (hl : ledger r = .ok transaction)
    (ht : transaction.truthy = true)
    (hm : transactionErr transaction = .ok err)
    (he : err.truthy = false)
    (ha : paymentData.getProp "amount" = .ok amount)
    (hk : paymentData.getProp "token" = .ok token) :
    h.verifyPayment decode ledger paymentHeader
      = ⟨.ok (.verified r amount token),
         { h with paymentCache := h.paymentCache.set r (.verified r amount token) },
         [r]⟩ := by
  simp [verifyPayment, verifyPaymentTry, hd, hs, hc, hl, ht, hm, he, ha, hk]

/-- The shape of every outcome of `verifyPayment`: it returns a verdict, and either leaves
the handler as it was, or has stored the valid verdict it returns under a reference that
was not cached. -/
theorem verifyPayment_shape (decode : ProofDecoder) (ledger : Ledger)
    (h : X402PaymentHandler) (paymentHeader : String) :
    ∃ v, (h.verifyPayment decode ledger paymentHeader).completion = .ok v ∧
      ((h.verifyPayment decode ledger paymentHeader).handler = h ∨
        ∃ paymentData r a t,
          decode paymentHeader = .ok paymentData ∧
          paymentData.getProp "signature" = .ok r ∧
          h.paymentCache.get r = none ∧
          v = .verified r a t ∧
          (h.verifyPayment decode ledger paymentHeader).handler
            = { h with paymentCache := h.paymentCache.set r v }) := by
  cases hd : decode paymentHeader with
  | error e => exact ⟨_, by rw [verifyPayment_of_decode_error ledger h hd], Or.inl (by
      rw [verifyPayment_of_decode_error ledger h hd])⟩
  | ok paymentData =>
    cases hs : paymentData.getProp "signature" with
    | error e => exact ⟨_, by rw [verifyPayment_of_no_signature ledger h hd hs], Or.inl (by
        rw [verifyPayment_of_no_signature ledger h hd hs])⟩
    | ok r =>
      cases hc : h.paymentCache.get r with
      | some v => exact ⟨_, by rw [verifyPayment_of_cached ledger hd hs hc], Or.inl (by
          rw [verifyPayment_of_cached ledger hd hs hc])⟩
      | none =>
        cases hl : ledger r with
        | error e => exact ⟨_, by rw [verifyPayment_of_rejection hd hs hc hl], Or.inl (by
            rw [verifyPayment_of_rejection hd hs hc hl])⟩
        | ok transaction =>
          cases ht : transaction.truthy with
          | false => exact ⟨_, by rw [verifyPayment_of_absent hd hs hc hl ht], Or.inl (by
              rw [verifyPayment_of_absent hd hs hc hl ht])⟩
          | true =>
            cases hm : transactionErr transaction with
            | error e => exact ⟨_, by rw [verifyPayment_of_no_meta hd hs hc hl ht hm],
                Or.inl (by rw [verifyPayment_of_no_meta hd hs hc hl ht hm])⟩
            | ok err =>
              cases he : err.truthy with
              | true => exact ⟨_, by rw [verifyPayment_of_failed hd hs hc hl ht hm he],
                  Or.inl (by rw [verifyPayment_of_failed hd hs hc hl ht hm he])⟩
              | false =>
                obtain ⟨a, ha⟩ := getProp_total_of_ok "amount" hs
                obtain ⟨t, hk⟩ := getProp_total_of_ok "token" hs
                refine ⟨.verified r a t, ?_, Or.inr ⟨paymentData, r, a, t, rfl, hs, hc, rfl, ?_⟩⟩
                · rw [verifyPayment_of_succeeded hd hs hc hl ht hm he ha hk]
                · rw [verifyPayment_of_succeeded hd hs hc hl ht hm he ha hk]

/-- An entry of the cache survives every call of `verifyPayment`. -/
theorem verifyPayment_keeps_entry (decode : ProofDecoder) (ledger : Ledger)
    {h : X402PaymentHandler} (paymentHeader : String) {k : JsVal} {v : Verdict}
    (hk : h.paymentCache.get k = some v) :
    (h.verifyPayment decode ledger paymentHeader).handler.paymentCache.get k = some v := by
  obtain ⟨w, _, hh | ⟨pd, r, a, t, _, _, hc, _, hh⟩⟩ :=
    verifyPayment_shape decode ledger h paymentHeader
  · rw [hh]; exact hk
  · rw [hh]; exact get_set_of_get_some _ hk hc

/-- A valid verdict returned for a primitive reference is in the cache afterwards. -/
theorem verifyPayment_valid_cached {decode : ProofDecoder} (ledger : Ledger)
    {h : X402PaymentHandler} {paymentHeader : String} {paymentData r : JsVal} {v : Verdict}
    (hd : decode paymentHeader = .ok paymentData)
    (hs : paymentData.getProp "signature" = .ok r)
    (hr : r.isPrimitive = true)
    (hv : (h.verifyPayment decode ledger paymentHeader).completion = .ok v)
    (hvalid : v.valid = true) :
    (h.verifyPayment decode ledger paymentHeader).handler.paymentCache.get r = some v := by
  cases hc : h.paymentCache.get r with
  | some c =>
    rw [verifyPayment_of_cached ledger hd hs hc] at hv ⊢
    simp only [Except.ok.injEq] at hv
    rw [← hv]; exact hc
  | none =>
    obtain ⟨w, hw, hh | ⟨pd, r1, a, t, hd1, hs1, _, hwv, hh⟩⟩ :=
      verifyPayment_shape decode ledger h paymentHeader
    · -- the handler is unchanged: then the verdict was not a fresh valid one
      exfalso
      cases hl : ledger r with
      | error e =>
        rw [verifyPayment_of_rejection hd hs hc hl] at hv
        simp only [Except.ok.injEq] at hv
        rw [← hv] at hvalid; simp [Verdict.valid] at hvalid
      | ok transaction =>
        cases ht : transaction.truthy with
        | false =>
          rw [verifyPayment_of_absent hd hs hc hl ht] at hv
          simp only [Except.ok.injEq] at hv
          rw [← hv] at hvalid; simp [Verdict.valid] at hvalid
        | true =>
          cases hm : transactionErr transaction with
          | error e =>
            rw [verifyPayment_of_no_meta hd hs hc hl ht hm] at hv
            simp only [Except.ok.injEq] at hv
            rw [← hv] at hvalid; simp [Verdict.valid] at hvalid
          | ok err =>
            cases he : err.truthy with
            | true =>
              rw [verifyPayment_of_failed hd hs hc hl ht hm he] at hv
              simp only [Except.ok.injEq] at hv
              rw [← hv] at hvalid; simp [Verdict.valid] at hvalid
            | false =>
              obtain ⟨a, ha⟩ := getProp_total_of_ok "amount" hs
              obtain ⟨t, hk⟩ := getProp_total_of_ok "token" hs
              rw [verifyPayment_of_succeeded hd hs hc hl ht hm he ha hk] at hh
              have := congrArg (fun x => x.paymentCache.get r) hh
              simp only [get_set_self hr, hc] at this
              exact absurd this (by simp)
    · rw [hd] at hd1
      simp only [Except.ok.injEq] at hd1
      subst hd1
      rw [hs] at hs1
      simp only [Except.ok.injEq] at hs1
      subst hs1
      rw [hw] at hv
      simp only [Except.ok.injEq] at hv
      subst hv
      rw [hh]
      exact get_set_self hr _ _

end X402PaymentHandler

/-! ## Claims on `verifyPayment` -/

/-- C1, as stated, fails: on a fresh handler, when the ledger does not know the transaction
the verdict is not cached and the second call with the same proof queries the ledger
again; and when the ledger learns of the transaction between the two calls, the two
verdicts differ. -/
theorem c1_second_call_requeries :
    ((Sample.handler.verifyPayment Sample.decode Sample.ledgerAbsent
        Sample.proofA).handler.verifyPayment Sample.decode Sample.ledgerAbsent
        Sample.proofA).ledgerQueries = [Sample.signature] ∧
    (Sample.handler.verifyPayment Sample.decode Sample.ledgerAbsent Sample.proofA).completion
      = .ok (.invalid "Transaction not found or failed") ∧
    ((Sample.handler.verifyPayment Sample.decode Sample.ledgerAbsent
        Sample.proofA).handler.verifyPayment Sample.decode Sample.ledgerSucceeded
        Sample.proofA).completion
      = .ok (.verified Sample.signature (.num (JsNumber.ofQuot 1 10)) (.str "ALICE")) :=
  ⟨rfl, rfl, rfl⟩

/-- C1, amended: for every reference `r` that is a primitive value (a signature string),
every ledger behaviour at the two calls and every handler state, when the first call
of `verifyPayment` on a proof that encodes `r` returns a valid verdict, the second call
returns the identical verdict, issues no ledger query and leaves the handler as it is. -/
theorem c1_verify_twice_after_valid (decode : ProofDecoder) (ledger1 ledger2 : Ledger)
    (h : X402PaymentHandler) (paymentHeader : String) (paymentData r : JsVal) (v : Verdict)
    (hd : decode paymentHeader = .ok paymentData)
    (hs : paymentData.getProp "signature" = .ok r)
    (hr : r.isPrimitive = true)
    (hv : (h.verifyPayment decode ledger1 paymentHeader).completion = .ok v)
    (hvalid : v.valid = true) :
    (h.verifyPayment decode ledger1 paymentHeader).handler.verifyPayment decode ledger2
        paymentHeader
      = ⟨.ok v, (h.verifyPayment decode ledger1 paymentHeader).handler, []⟩ :=
  X402PaymentHandler.verifyPayment_of_cached ledger2 hd hs
    (X402PaymentHandler.verifyPayment_valid_cached ledger1 hd hs hr hv hvalid)

/-- C1, amended, on a concrete input: a succeeded transaction verified twice. -/
theorem c1_verify_twice_after_valid_witness :
    (Sample.handler.verifyPayment Sample.decode Sample.ledgerSucceeded
        Sample.proofA).handler.verifyPayment Sample.decode Sample.ledgerAbsent Sample.proofA
      = ⟨.ok (.verified Sample.signature (.num (JsNumber.ofQuot 1 10)) (.str "ALICE")),
         (Sample.handler.verifyPayment Sample.decode Sample.ledgerSucceeded
            Sample.proofA).handler, []⟩ :=
  c1_verify_twice_after_valid Sample.decode Sample.ledgerSucceeded Sample.ledgerAbsent
    Sample.handler Sample.proofA Sample.dataA Sample.signature _ rfl rfl rfl rfl rfl

/-- C3, as stated, fails: two proofs with the same reference and different claims, verified
from the same fresh handler against the same ledger on which the transaction
succeeded, give verdicts with different amounts and tokens. -/
theorem c3_verdict_follows_claim :
    (Sample.handler.verifyPayment Sample.decode Sample.ledgerSucceeded Sample.proofA).completion
      = .ok (.verified Sample.signature (.num (JsNumber.ofQuot 1 10)) (.str "ALICE")) ∧
    (Sample.handler.verifyPayment Sample.decode Sample.ledgerSucceeded Sample.proofB).completion
      = .ok (.verified Sample.signature (.num (JsNumber.ofNat 1000000)) (.str "USDC")) ∧
    JsVal.num (JsNumber.ofQuot 1 10) ≠ JsVal.num (JsNumber.ofNat 1000000) ∧
    JsVal.str "ALICE" ≠ JsVal.str "USDC" :=
  ⟨rfl, rfl, by intro h; injection h with h; revert h; decide,
   by intro h; injection h with h; revert h; decide⟩

/-- C3, amended: for every proof whose reference is not cached, when the ledger has the
transaction and it succeeded, the amount and the token of the verdict are the amount
and the token the proof claims; the ledger record decides only that the verdict is
valid. -/
theorem c3_verdict_copies_claim (decode : ProofDecoder) (ledger : Ledger)
    (h : X402PaymentHandler) (paymentHeader : String)
    (paymentData r transaction err amount token : JsVal)
    (hd : decode paymentHeader = .ok paymentData)
    (hs : paymentData.getProp "signature" = .ok r)
    (hc : h.paymentCache.get r = none)
    (hl : ledger r = .ok transaction)
    (ht : transaction.truthy = true)
    (hm : transactionErr transaction = .ok err)
    (he : err.truthy = false)
    (ha : paymentData.getProp "amount" = .ok amount)
    (hk : paymentData.getProp "token" = .ok token) :
    (h.verifyPayment decode ledger paymentHeader).completion
      = .ok (.verified r amount token) := by
  rw [X402PaymentHandler.verifyPayment_of_succeeded hd hs hc hl ht hm he ha hk]

/-- C3, amended, on a concrete input: the claim of one million USDC is copied. -/
theorem c3_verdict_copies_claim_witness :
    (Sample.handler.verifyPayment Sample.decode Sample.ledgerSucceeded Sample.proofB).completion
      = .ok (.verified Sample.signature (.num (JsNumber.ofNat 1000000)) (.str "USDC")) :=
  c3_verdict_copies_claim Sample.decode Sample.ledgerSucceeded Sample.handler Sample.proofB
    Sample.dataB Sample.signature _ .null _ _ rfl rfl rfl rfl rfl rfl rfl rfl rfl

/-- C7: for every input string, every handler state and every ledger behaviour (a
rejected query and a record without `meta` included), `verifyPayment` does not throw: it
returns a verdict, whose `valid` field is a boolean; and when the input does not decode
as base64 JSON that verdict has `valid = false`. -/
theorem c7_verify_never_throws (decode : ProofDecoder) (ledger : Ledger)
    (h : X402PaymentHandler) (paymentHeader : String) :
    ∃ v : Verdict, (h.verifyPayment decode ledger paymentHeader).completion = .ok v ∧
      (v.valid = true ∨ v.valid = false) ∧
      ((∃ e, decode paymentHeader = .error e) → v.valid = false) := by
  obtain ⟨v, hv, _⟩ := X402PaymentHandler.verifyPayment_shape decode ledger h paymentHeader
  refine ⟨v, hv, by cases v.valid <;> simp, ?_⟩
  rintro ⟨e, he⟩
  rw [X402PaymentHandler.verifyPayment_of_decode_error ledger h he] at hv
  simp only [Except.ok.injEq] at hv
  rw [← hv]; rfl

/-- C7 on concrete inputs: a header that is not JSON, a rejected ledger query and a
transaction record whose `meta` is `null` all end in a returned invalid verdict. -/
theorem c7_verify_never_throws_witness :
    (∃ v : Verdict,
      (Sample.handler.verifyPayment Sample.decode Sample.ledgerDown "not json").completion
        = .ok v ∧ (v.valid = true ∨ v.valid = false) ∧
      ((∃ e, Sample.decode "not json" = .error e) → v.valid = false)) ∧
    (Sample.handler.verifyPayment Sample.decode Sample.ledgerDown Sample.proofA).completion
      = .ok (.invalid "fetch failed") ∧
    (Sample.handler.verifyPayment Sample.decode (fun _ => .ok (.obj [("meta", .null)]))
        Sample.proofA).completion
      = .ok (.invalid "Cannot read properties of null (reading 'err')") :=
  ⟨c7_verify_never_throws Sample.decode Sample.ledgerDown Sample.handler "not json", rfl, rfl⟩

/-- C8: for every handler whose cache holds a verdict `v` under the reference `r` and every
proof that decodes to reference `r`, whatever else it claims, `verifyPayment` returns
exactly `v`, issues no ledger query and leaves the handler, its cache included,
unchanged. -/
theorem c8_cache_hit (decode : ProofDecoder) (ledger : Ledger) (h : X402PaymentHandler)
    (paymentHeader : String) (paymentData r : JsVal) (v : Verdict)
    (hd : decode paymentHeader = .ok paymentData)
    (hs : paymentData.getProp "signature" = .ok r)
    (hc : h.paymentCache.get r = some v) :
    (h.verifyPayment decode ledger paymentHeader).completion = .ok v ∧
    (h.verifyPayment decode ledger paymentHeader).ledgerQueries = [] ∧
    (h.verifyPayment decode ledger paymentHeader).handler = h := by
  rw [X402PaymentHandler.verifyPayment_of_cached ledger hd hs hc]
  exact ⟨rfl, rfl, rfl⟩

/-- C8 on a concrete input: the verdict cached for `proofA` is returned for `proofB`, which
carries the same reference and another claim. -/
theorem c8_cache_hit_witness :
    (({ Sample.handler with
          paymentCache := ⟨[(Sample.signature,
            .verified Sample.signature (.num (JsNumber.ofQuot 1 10)) (.str "ALICE"))]⟩ }
        : X402PaymentHandler).verifyPayment Sample.decode Sample.ledgerDown
        Sample.proofB).completion
      = .ok (.verified Sample.signature (.num (JsNumber.ofQuot 1 10)) (.str "ALICE")) ∧
    (({ Sample.handler with
          paymentCache := ⟨[(Sample.signature,
            .verified Sample.signature (.num (JsNumber.ofQuot 1 10)) (.str "ALICE"))]⟩ }
        : X402PaymentHandler).verifyPayment Sample.decode Sample.ledgerDown
        Sample.proofB).ledgerQueries = [] ∧
    (({ Sample.handler with
          paymentCache := ⟨[(Sample.signature,
            .verified Sample.signature (.num (JsNumber.ofQuot 1 10)) (.str "ALICE"))]⟩ }
        : X402PaymentHandler).verifyPayment Sample.decode Sample.ledgerDown
        Sample.proofB).handler
      = { Sample.handler with
          paymentCache := ⟨[(Sample.signature,
            .verified Sample.signature (.num (JsNumber.ofQuot 1 10)) (.str "ALICE"))]⟩ } :=
  c8_cache_hit Sample.decode Sample.ledgerDown _ Sample.proofB Sample.dataB Sample.signature _
    rfl rfl rfl

/-- C9: for every proof and every handler state, when the ledger query that `verifyPayment`
issues is rejected, the returned verdict has `valid = false`, the handler and its
payment cache are as before the call, and a later call with the same proof queries
the ledger again. -/
theorem c9_ledger_error_not_cached (decode : ProofDecoder) (ledger later : Ledger)
    (h : X402PaymentHandler) (paymentHeader : String) (paymentData r : JsVal) (e : JsError)
    (hd : decode paymentHeader = .ok paymentData)
    (hs : paymentData.getProp "signature" = .ok r)
    (hc : h.paymentCache.get r = none)
    (hl : ledger r = .error e) :
    (h.verifyPayment decode ledger paymentHeader).completion = .ok (.invalid e.message) ∧
    (Verdict.invalid e.message).valid = false ∧
    (h.verifyPayment decode ledger paymentHeader).handler = h ∧
    ((h.verifyPayment decode ledger paymentHeader).handler.verifyPayment decode later
        paymentHeader).ledgerQueries = [r] := by
  rw [X402PaymentHandler.verifyPayment_of_rejection hd hs hc hl]
  refine ⟨rfl, rfl, rfl, ?_⟩
  show (h.verifyPayment decode later paymentHeader).ledgerQueries = [r]
  cases hl2 : later r with
  | error e2 => rw [X402PaymentHandler.verifyPayment_of_rejection hd hs hc hl2]
  | ok transaction =>
    cases ht : transaction.truthy with
    | false => rw [X402PaymentHandler.verifyPayment_of_absent hd hs hc hl2 ht]
    | true =>
      cases hm : transactionErr transaction with
      | error e2 => rw [X402PaymentHandler.verifyPayment_of_no_meta hd hs hc hl2 ht hm]
      | ok err =>
        cases he : err.truthy with
        | true => rw [X402PaymentHandler.verifyPayment_of_failed hd hs hc hl2 ht hm he]
        | false =>
          obtain ⟨a, ha⟩ := getProp_total_of_ok "amount" hs
          obtain ⟨t, hk⟩ := getProp_total_of_ok "token" hs
          rw [X402PaymentHandler.verifyPayment_of_succeeded hd hs hc hl2 ht hm he ha hk]

/-- C9 on a concrete input: the RPC is down at the first call and answers at the second. -/
theorem c9_ledger_error_not_cached_witness :
    (Sample.handler.verifyPayment Sample.decode Sample.ledgerDown Sample.proofA).completion
      = .ok (.invalid "fetch failed") ∧
    (Verdict.invalid "fetch failed").valid = false ∧
    (Sample.handler.verifyPayment Sample.decode Sample.ledgerDown Sample.proofA).handler
      = Sample.handler ∧
    ((Sample.handler.verifyPayment Sample.decode Sample.ledgerDown
        Sample.proofA).handler.verifyPayment Sample.decode Sample.ledgerSucceeded
        Sample.proofA).ledgerQueries = [Sample.signature] :=
  c9_ledger_error_not_cached Sample.decode Sample.ledgerDown Sample.ledgerSucceeded
    Sample.handler Sample.proofA Sample.dataA Sample.signature ⟨"fetch failed"⟩ rfl rfl rfl rfl

/-- C10, as stated, fails: on a fresh handler, when the ledger answers that the transaction
is not found, or that it is found and failed, no verdict is stored and the cache does
not contain the reference after the call. -/
theorem c10_failures_not_cached :
    (Sample.handler.verifyPayment Sample.decode Sample.ledgerAbsent
        Sample.proofA).handler.paymentCache.has Sample.signature = false ∧
    (Sample.handler.verifyPayment Sample.decode Sample.ledgerFailed
        Sample.proofA).handler.paymentCache.has Sample.signature = false :=
  ⟨rfl, rfl⟩

/-- C10, amended: for every reference `r` absent from the cache, when the ledger answers
that the transaction is found and succeeded, `verifyPayment` stores the verdict it
returns under key `r` (so the cache contains `r` afterwards when `r` is a primitive
value); when the ledger answers not found, or found and failed, it returns an invalid
verdict and leaves the handler and its cache unchanged. -/
theorem c10_only_success_cached (decode : ProofDecoder) (ledger : Ledger)
    (h : X402PaymentHandler) (paymentHeader : String) (paymentData r transaction : JsVal)
    (hd : decode paymentHeader = .ok paymentData)
    (hs : paymentData.getProp "signature" = .ok r)
    (hc : h.paymentCache.get r = none)
    (hl : ledger r = .ok transaction) :
    (∀ err, transaction.truthy = true → transactionErr transaction = .ok err →
      err.truthy = false →
      ∃ v, (h.verifyPayment decode ledger paymentHeader).completion = .ok v ∧
        v.valid = true ∧
        (h.verifyPayment decode ledger paymentHeader).handler.paymentCache
          = h.paymentCache.set r v ∧
        (r.isPrimitive = true →
          (h.verifyPayment decode ledger paymentHeader).handler.paymentCache.has r = true)) ∧
    ((transaction.truthy = false ∨
        ∃ err, transactionErr transaction = .ok err ∧ err.truthy = true) →
      (h.verifyPayment decode ledger paymentHeader).completion
        = .ok (.invalid "Transaction not found or failed") ∧
      (h.verifyPayment decode ledger paymentHeader).handler = h) := by
  constructor
  · intro err ht hm he
    obtain ⟨a, ha⟩ := getProp_total_of_ok "amount" hs
    obtain ⟨t, hk⟩ := getProp_total_of_ok "token" hs
    rw [X402PaymentHandler.verifyPayment_of_succeeded hd hs hc hl ht hm he ha hk]
    refine ⟨_, rfl, rfl, rfl, ?_⟩
    intro hr
    simp [PaymentCache.has, get_set_self hr]
  · rintro (ht | ⟨err, hm, he⟩)
    · rw [X402PaymentHandler.verifyPayment_of_absent hd hs hc hl ht]
      exact ⟨rfl, rfl⟩
    · cases ht : transaction.truthy with
      | false =>
        rw [X402PaymentHandler.verifyPayment_of_absent hd hs hc hl ht]
        exact ⟨rfl, rfl⟩
      | true =>
        rw [X402PaymentHandler.verifyPayment_of_failed hd hs hc hl ht hm he]
        exact ⟨rfl, rfl⟩

/-- C10, amended, on a concrete input: a succeeded transaction is stored, a failed one is
not. -/
theorem c10_only_success_cached_witness :
    (Sample.handler.verifyPayment Sample.decode Sample.ledgerSucceeded
        Sample.proofA).handler.paymentCache.has Sample.signature = true ∧
    (Sample.handler.verifyPayment Sample.decode Sample.ledgerFailed Sample.proofA).handler
      = Sample.handler := by
  have hs := c10_only_success_cached Sample.decode Sample.ledgerSucceeded Sample.handler
    Sample.proofA Sample.dataA Sample.signature _ rfl rfl rfl rfl
  have hf := c10_only_success_cached Sample.decode Sample.ledgerFailed Sample.handler
    Sample.proofA Sample.dataA Sample.signature _ rfl rfl rfl rfl
  obtain ⟨v, _, _, _, hhas⟩ := hs.1 .null rfl rfl rfl
  exact ⟨hhas rfl, (hf.2 (Or.inr ⟨.obj [("InstructionError", .arr [])], rfl, rfl⟩)).2⟩

/-! ## The middleware -/

/-- With a non-empty proof the middleware follows the `valid` field of the verdict. -/
theorem requirePayment_of_proof (config : Config) (decode : ProofDecoder)
    (amount : JsNumber) (token description : String) (ledger : Ledger)
    (h : X402PaymentHandler) {paymentHeader : String} {v : Verdict}
    (hne : paymentHeader ≠ "")
    (hv : (h.verifyPayment decode ledger paymentHeader).completion = .ok v) :
    requirePayment config decode amount token description ledger h ⟨some paymentHeader⟩
      = ⟨.ok (if v.valid then .next v
              else .respond 400 (.invalidPayment "Invalid payment" v.error)),
         (h.verifyPayment decode ledger paymentHeader).handler,
         (h.verifyPayment decode ledger paymentHeader).ledgerQueries⟩ := by
  unfold requirePayment
  simp only [Option.filter, hne, ne_eq, not_false_eq_true, decide_True, ite_true, hv]
  cases v.valid <;> simp

/-- Without a proof the middleware leaves the handler alone and asks the ledger nothing. -/
theorem requirePayment_of_no_proof (config : Config) (decode : ProofDecoder)
    (amount : JsNumber) (token description : String) (ledger : Ledger)
    (h : X402PaymentHandler) {req : Request}
    (hreq : req.xPayment.filter (fun p => decide (p ≠ "")) = none) :
    (requirePayment config decode amount token description ledger h req).handler = h ∧
    (requirePayment config decode amount token description ledger h req).ledgerQueries = [] ∧
    ∀ v, (requirePayment config decode amount token description ledger h req).completion
      ≠ .ok (.next v) := by
  unfold requirePayment
  simp only [hreq]
  cases h.createPaymentRequirement config amount token description <;> simp

/-- A request is passed on only if it carries a non-empty proof with a valid verdict. -/
theorem requirePayment_next (config : Config) (decode : ProofDecoder)
    (amount : JsNumber) (token description : String) (ledger : Ledger)
    (h : X402PaymentHandler) {paymentHeader : String} {v : Verdict}
    (hnext : (requirePayment config decode amount token description ledger h
      ⟨some paymentHeader⟩).completion = .ok (.next v)) :
    paymentHeader ≠ "" ∧
    (h.verifyPayment decode ledger paymentHeader).completion = .ok v ∧
    v.valid = true ∧
    (requirePayment config decode amount token description ledger h
      ⟨some paymentHeader⟩).handler = (h.verifyPayment decode ledger paymentHeader).handler := by
  by_cases hne : paymentHeader = ""
  · exfalso
    have hreq : (⟨some paymentHeader⟩ : Request).xPayment.filter (fun p => decide (p ≠ ""))
        = none := by simp [Option.filter, hne]
    exact (requirePayment_of_no_proof config decode amount token description ledger h hreq).2.2
      v hnext
  · obtain ⟨w, hw, _⟩ := X402PaymentHandler.verifyPayment_shape decode ledger h paymentHeader
    rw [requirePayment_of_proof config decode amount token description ledger h hne hw]
      at hnext ⊢
    cases hval : w.valid with
    | false => simp [hval] at hnext
    | true =>
      simp only [hval, ite_true, Except.ok.injEq, MiddlewareResult.next.injEq] at hnext
      subst hnext
      exact ⟨hne, hw, hval, rfl⟩

/-- An entry of the cache survives every run of the middleware. -/
theorem requirePayment_keeps_entry (config : Config) (decode : ProofDecoder)
    (amount : JsNumber) (token description : String) (ledger : Ledger)
    {h : X402PaymentHandler} (req : Request) {k : JsVal} {v : Verdict}
    (hk : h.paymentCache.get k = some v) :
    (requirePayment config decode amount token description ledger h
      req).handler.paymentCache.get k = some v := by
  cases hreq : req.xPayment.filter (fun p => decide (p ≠ "")) with
  | none =>
    rw [(requirePayment_of_no_proof config decode amount token description ledger h hreq).1]
    exact hk
  | some paymentHeader =>
    unfold requirePayment
    simp only [hreq]
    have := X402PaymentHandler.verifyPayment_keeps_entry decode ledger paymentHeader hk
    cases hc : (h.verifyPayment decode ledger paymentHeader).completion with
    | error e => simpa [hc] using this
    | ok w => cases hval : w.valid <;> simpa [hc, hval] using this

/-- An entry of the cache survives every sequence of requests. -/
theorem serveAll_keeps_entry (config : Config) (decode : ProofDecoder)
    (amount : JsNumber) (token description : String)
    (requests : List (Ledger × Request)) {h : X402PaymentHandler} {k : JsVal} {v : Verdict}
    (hk : h.paymentCache.get k = some v) :
    (serveAll config decode amount token description h requests).paymentCache.get k
      = some v := by
  induction requests generalizing h with
  | nil => exact hk
  | cons first rest ih =>
    obtain ⟨ledger, req⟩ := first
    exact ih (requirePayment_keeps_entry config decode amount token description ledger req hk)

/-- C2, as stated, fails: of two requests carrying the same proof of a succeeded
transaction, sent one after the other to the route `/api/search/:query`, both are passed
on to the protected handler. -/
theorem c2_same_proof_admitted_twice :
    (requirePayment Sample.config Sample.decode (JsNumber.ofQuot 1 10) "ALICE"
        "Premium search API access" Sample.ledgerSucceeded Sample.handler
        ⟨some Sample.proofA⟩).completion
      = .ok (.next (.verified Sample.signature (.num (JsNumber.ofQuot 1 10)) (.str "ALICE"))) ∧
    (requirePayment Sample.config Sample.decode (JsNumber.ofQuot 1 10) "ALICE"
        "Premium search API access" Sample.ledgerSucceeded
        (requirePayment Sample.config Sample.decode (JsNumber.ofQuot 1 10) "ALICE"
          "Premium search API access" Sample.ledgerSucceeded Sample.handler
          ⟨some Sample.proofA⟩).handler
        ⟨some Sample.proofA⟩).completion
      = .ok (.next (.verified Sample.signature (.num (JsNumber.ofQuot 1 10)) (.str "ALICE"))) :=
  ⟨rfl, rfl⟩

/-- C2, amended: for every payment proof whose reference is a primitive value and every
sequence of requests through the middleware sharing one handler, once a request carrying
that proof has been passed on, every later request carrying it is passed on as well, with
the same verdict, without a ledger query and without a change of the handler: the cache
memoizes the acceptance of a proof and does not limit it to one request. -/
theorem c2_admitted_proof_stays_admitted (config : Config) (decode : ProofDecoder)
    (amount : JsNumber) (token description : String) (ledger ledger2 : Ledger)
    (h : X402PaymentHandler) (paymentHeader : String) (paymentData r : JsVal) (v : Verdict)
    (between : List (Ledger × Request))
    (hd : decode paymentHeader = .ok paymentData)
    (hs : paymentData.getProp "signature" = .ok r)
    (hr : r.isPrimitive = true)
    (hfirst : (requirePayment config decode amount token description ledger h
      ⟨some paymentHeader⟩).completion = .ok (.next v)) :
    requirePayment config decode amount token description ledger2
        (serveAll config decode amount token description
          (requirePayment config decode amount token description ledger h
            ⟨some paymentHeader⟩).handler between)
        ⟨some paymentHeader⟩
      = ⟨.ok (.next v),
         serveAll config decode amount token description
           (requirePayment config decode amount token description ledger h
             ⟨some paymentHeader⟩).handler between,
         []⟩ := by
  obtain ⟨hne, hv, hvalid, hh⟩ :=
    requirePayment_next config decode amount token description ledger h hfirst
  have hcached := X402PaymentHandler.verifyPayment_valid_cached ledger hd hs hr hv hvalid
  rw [← hh] at hcached
  have hlater := serveAll_keeps_entry config decode amount token description between hcached
  have hhit := X402PaymentHandler.verifyPayment_of_cached ledger2 hd hs hlater
  rw [requirePayment_of_proof config decode amount token description ledger2 _ hne
    (by rw [hhit]), hhit]
  simp [hvalid]

/-- C2, amended, on a concrete input: the proof is passed on, a request without a proof
and one with another proof follow, and the proof is passed on again while the RPC is
down. -/
theorem c2_admitted_proof_stays_admitted_witness :
    requirePayment Sample.config Sample.decode (JsNumber.ofQuot 1 10) "ALICE"
        "Premium search API access" Sample.ledgerDown
        (serveAll Sample.config Sample.decode (JsNumber.ofQuot 1 10) "ALICE"
          "Premium search API access"
          (requirePayment Sample.config Sample.decode (JsNumber.ofQuot 1 10) "ALICE"
            "Premium search API access" Sample.ledgerSucceeded Sample.handler
            ⟨some Sample.proofA⟩).handler
          [(Sample.ledgerAbsent, ⟨none⟩), (Sample.ledgerAbsent, ⟨some "not json"⟩)])
        ⟨some Sample.proofA⟩
      = ⟨.ok (.next (.verified Sample.signature (.num (JsNumber.ofQuot 1 10)) (.str "ALICE"))),
         serveAll Sample.config Sample.decode (JsNumber.ofQuot 1 10) "ALICE"
           "Premium search API access"
           (requirePayment Sample.config Sample.decode (JsNumber.ofQuot 1 10) "ALICE"
             "Premium search API access" Sample.ledgerSucceeded Sample.handler
             ⟨some Sample.proofA⟩).handler
           [(Sample.ledgerAbsent, ⟨none⟩), (Sample.ledgerAbsent, ⟨some "not json"⟩)],
         []⟩ :=
  c2_admitted_proof_stays_admitted Sample.config Sample.decode (JsNumber.ofQuot 1 10) "ALICE"
    "Premium search API access" Sample.ledgerSucceeded Sample.ledgerDown Sample.handler
    Sample.proofA Sample.dataA Sample.signature _ _ rfl rfl rfl rfl

/-- C6, as stated, fails: a request whose verdict is valid for an amount of one million
USDC, above the per-transaction ceiling of 500 USDC and above the daily ceiling of 2000
USDC of a fresh agent, is passed on to the protected handler. -/
theorem c6_over_limit_admitted :
    (requirePayment Sample.config Sample.decode (JsNumber.ofQuot 1 10) "ALICE"
        "Premium search API access" Sample.ledgerSucceeded Sample.handler
        ⟨some Sample.proofB⟩).completion
      = .ok (.next (.verified Sample.signature (.num (JsNumber.ofNat 1000000)) (.str "USDC"))) ∧
    JsNumber.gt (JsNumber.ofNat 1000000) AliceAgent.create.spendingLimits.perTransaction.USDC
      = true ∧
    JsNumber.gt (JsNumber.add AliceAgent.create.dailySpent.USDC (JsNumber.ofNat 1000000))
      AliceAgent.create.spendingLimits.daily.USDC = true :=
  ⟨rfl, by decide, by decide⟩

/-- C6, amended: for every request carrying a non-empty proof whose verdict is valid, the
middleware passes the request on with that verdict, whatever amount and token the verdict
carries; it consults no spending ceiling and no accumulator, and changes nothing but what
`verifyPayment` changed. -/
theorem c6_valid_verdict_admitted (config : Config) (decode : ProofDecoder)
    (amount : JsNumber) (token description : String) (ledger : Ledger)
    (h : X402PaymentHandler) (paymentHeader : String) (v : Verdict)
    (hne : paymentHeader ≠ "")
    (hv : (h.verifyPayment decode ledger paymentHeader).completion = .ok v)
    (hvalid : v.valid = true) :
    requirePayment config decode amount token description ledger h ⟨some paymentHeader⟩
      = ⟨.ok (.next v), (h.verifyPayment decode ledger paymentHeader).handler,
         (h.verifyPayment decode ledger paymentHeader).ledgerQueries⟩ := by
  rw [requirePayment_of_proof config decode amount token description ledger h hne hv]
  simp [hvalid]

/-- C6, amended, on a concrete input: the verdict for one million USDC is passed on by the
route that asks for 0.1 ALICE. -/
theorem c6_valid_verdict_admitted_witness :
    requirePayment Sample.config Sample.decode (JsNumber.ofQuot 1 10) "ALICE"
        "Premium search API access" Sample.ledgerSucceeded Sample.handler ⟨some Sample.proofB⟩
      = ⟨.ok (.next (.verified Sample.signature (.num (JsNumber.ofNat 1000000)) (.str "USDC"))),
         (Sample.handler.verifyPayment Sample.decode Sample.ledgerSucceeded
            Sample.proofB).handler,
         (Sample.handler.verifyPayment Sample.decode Sample.ledgerSucceeded
            Sample.proofB).ledgerQueries⟩ :=
  c6_valid_verdict_admitted Sample.config Sample.decode (JsNumber.ofQuot 1 10) "ALICE"
    "Premium search API access" Sample.ledgerSucceeded Sample.handler Sample.proofB _
    (by decide) rfl rfl

/-! ## AliceAgent -/

/-- What `purchaseSelected` of the backend does to the agent: the limits and the ALICE
accumulator stay, and the USDC accumulator stays or grows by the price of the selected
product, which is then not above the per-transaction ceiling. -/
theorem Backend.purchaseSelected_agent (w : Backend.World) (agent : AliceAgent)
    (payments : List Payment) (results : List Product) :
    (Backend.purchaseSelected w agent payments results).agent.spendingLimits
      = agent.spendingLimits ∧
    (Backend.purchaseSelected w agent payments results).agent.dailySpent.ALICE
      = agent.dailySpent.ALICE ∧
    ((Backend.purchaseSelected w agent payments results).agent.dailySpent.USDC
        = agent.dailySpent.USDC ∨
      ∃ price, JsNumber.gt price agent.spendingLimits.perTransaction.USDC = false ∧
        (Backend.purchaseSelected w agent payments results).agent.dailySpent.USDC
          = JsNumber.add agent.dailySpent.USDC price) := by
  cases results with
  | nil => simp [Backend.purchaseSelected]
  | cons selected rest =>
    cases hgt : JsNumber.gt selected.price agent.spendingLimits.perTransaction.USDC with
    | true => simp [Backend.purchaseSelected, hgt]
    | false =>
      cases hct : w.createTask with
      | error e => simp [Backend.purchaseSelected, hgt, hct]
      | ok taskId =>
        cases hwc : w.waitForCompletion with
        | error e => simp [Backend.purchaseSelected, hgt, hct, hwc]
        | ok result =>
          cases result with
          | failed err => simp [Backend.purchaseSelected, hgt, hct, hwc]
          | finished output =>
            refine ⟨?_, ?_, Or.inr ⟨selected.price, hgt, ?_⟩⟩ <;>
              cases ho : output.getProp "orderId" <;>
              simp [Backend.purchaseSelected, hgt, hct, hwc, ho]

/-- What `purchaseSelected` of the backend does to the USDC accumulator, naming the
product: it stays, or it grows by the price of the first product of the list, which is
then not above the per-transaction ceiling. -/
theorem backend_purchase_step (w : Backend.World) (agent : AliceAgent)
    (payments : List Payment) (results : List Product) :
    (Backend.purchaseSelected w agent payments results).agent.dailySpent.USDC
        = agent.dailySpent.USDC ∨
      ∃ selected rest, results = selected :: rest ∧
        JsNumber.gt selected.price agent.spendingLimits.perTransaction.USDC = false ∧
        (Backend.purchaseSelected w agent payments results).agent.dailySpent.USDC
          = JsNumber.add agent.dailySpent.USDC selected.price := by
  cases results with
  | nil => simp [Backend.purchaseSelected]
  | cons selected rest =>
    cases hgt : JsNumber.gt selected.price agent.spendingLimits.perTransaction.USDC with
    | true => simp [Backend.purchaseSelected, hgt]
    | false =>
      cases hct : w.createTask with
      | error e => simp [Backend.purchaseSelected, hgt, hct]
      | ok taskId =>
        cases hwc : w.waitForCompletion with
        | error e => simp [Backend.purchaseSelected, hgt, hct, hwc]
        | ok result =>
          cases result with
          | failed err => simp [Backend.purchaseSelected, hgt, hct, hwc]
          | finished output =>
            refine Or.inr ⟨selected, rest, rfl, hgt, ?_⟩
            cases ho : output.getProp "orderId" <;>
              simp [Backend.purchaseSelected, hgt, hct, hwc, ho]

/-- What the part of `handlePurchase` after the search does to the agent, for any value of
the search results: on an inherited member the agent is untouched. -/
theorem backend_after_search_step (w : Backend.World) (agent : AliceAgent)
    (payments : List Payment) (results : SearchResults) :
    (Backend.purchaseAfterSearch w agent payments results).agent.spendingLimits
      = agent.spendingLimits ∧
    (Backend.purchaseAfterSearch w agent payments results).agent.dailySpent.ALICE
      = agent.dailySpent.ALICE ∧
    ((Backend.purchaseAfterSearch w agent payments results).agent.dailySpent.USDC
        = agent.dailySpent.USDC ∨
      ∃ selected rest, results = .list (selected :: rest) ∧
        JsNumber.gt selected.price agent.spendingLimits.perTransaction.USDC = false ∧
        (Backend.purchaseAfterSearch w agent payments results).agent.dailySpent.USDC
          = JsNumber.add agent.dailySpent.USDC selected.price) := by
  cases results with
  | list items =>
    have h := Backend.purchaseSelected_agent w agent payments items
    refine ⟨h.1, h.2.1, ?_⟩
    rcases backend_purchase_step w agent payments items with hs | ⟨sel, rest, rfl, hgt, hs⟩
    · exact Or.inl hs
    · exact Or.inr ⟨sel, rest, rfl, hgt, hs⟩
  | inherited member =>
    cases member with
    | method n => cases n <;> simp [Backend.purchaseAfterSearch, Backend.purchaseSelected]
    | objectPrototype => simp [Backend.purchaseAfterSearch]

/-- What one `processMessage` of the backend does to the accumulators, naming the product
whose price is added. -/
theorem backend_process_step (toLowerCase : String → String) (w : Backend.World)
    (agent : AliceAgent) (message : String) :
    (Backend.processMessage toLowerCase w agent message).agent.spendingLimits
      = agent.spendingLimits ∧
    ((Backend.processMessage toLowerCase w agent message).agent.dailySpent.ALICE
        = agent.dailySpent.ALICE ∨
      (Backend.processMessage toLowerCase w agent message).agent.dailySpent.ALICE
        = JsNumber.add agent.dailySpent.ALICE (JsNumber.ofQuot 1 10)) ∧
    ((Backend.processMessage toLowerCase w agent message).agent.dailySpent.USDC
        = agent.dailySpent.USDC ∨
      ∃ selected rest,
        Backend.getSearchResults (renderOpt (analyzeIntent toLowerCase message).product)
          = .list (selected :: rest) ∧
        JsNumber.gt selected.price agent.spendingLimits.perTransaction.USDC = false ∧
        (Backend.processMessage toLowerCase w agent message).agent.dailySpent.USDC
          = JsNumber.add agent.dailySpent.USDC selected.price) := by
  unfold Backend.processMessage
  by_cases h1 : (analyzeIntent toLowerCase message).type = "SEARCH"
  · simp [h1, handleSearch]
  · by_cases h2 : (analyzeIntent toLowerCase message).type = "PURCHASE"
    · rw [if_neg h1, if_pos h2]
      unfold Backend.handlePurchase
      have hp := backend_after_search_step w
        (handleSearch Backend.getSearchResults w.searchTime agent
          (analyzeIntent toLowerCase message)).1
        (handleSearch Backend.getSearchResults w.searchTime agent
          (analyzeIntent toLowerCase message)).2.payments
        ((handleSearch Backend.getSearchResults w.searchTime agent
          (analyzeIntent toLowerCase message)).2.results.getD (.list []))
      refine ⟨hp.1, Or.inr hp.2.1, ?_⟩
      rcases hp.2.2 with hs | ⟨sel, rest, hres, hgt, hs⟩
      · exact Or.inl hs
      · exact Or.inr ⟨sel, rest, by simpa [handleSearch] using hres,
          by simpa [handleSearch] using hgt, hs⟩
    · by_cases h3 : (analyzeIntent toLowerCase message).type = "BALANCE"
      · simp [h1, h2, h3, Backend.handleBalanceCheck]
      · by_cases h4 : (analyzeIntent toLowerCase message).type = "PRICE_CHECK"
        · simp [h1, h2, h3, h4]
        · simp [h1, h2, h3, h4]

/-- What one `processMessage` of the backend does to the agent. -/
theorem Backend.processMessage_agent (toLowerCase : String → String) (w : Backend.World)
    (agent : AliceAgent) (message : String) :
    (Backend.processMessage toLowerCase w agent message).agent.spendingLimits
      = agent.spendingLimits ∧
    ((Backend.processMessage toLowerCase w agent message).agent.dailySpent.ALICE
        = agent.dailySpent.ALICE ∨
      (Backend.processMessage toLowerCase w agent message).agent.dailySpent.ALICE
        = JsNumber.add agent.dailySpent.ALICE (JsNumber.ofQuot 1 10)) ∧
    ((Backend.processMessage toLowerCase w agent message).agent.dailySpent.USDC
        = agent.dailySpent.USDC ∨
      ∃ price, JsNumber.gt price agent.spendingLimits.perTransaction.USDC = false ∧
        (Backend.processMessage toLowerCase w agent message).agent.dailySpent.USDC
          = JsNumber.add agent.dailySpent.USDC price) := by
  have h := backend_process_step toLowerCase w agent message
  refine ⟨h.1, h.2.1, ?_⟩
  rcases h.2.2 with hs | ⟨sel, _, _, hgt, hs⟩
  · exact Or.inl hs
  · exact Or.inr ⟨sel.price, hgt, hs⟩

theorem Backend.processAll_append (toLowerCase : String → String) (agent : AliceAgent)
    (calls : List (Backend.World × String)) (w : Backend.World) (message : String) :
    Backend.processAll toLowerCase agent (calls ++ [(w, message)])
      = (Backend.processMessage toLowerCase w
          (Backend.processAll toLowerCase agent calls) message).agent := by
  induction calls generalizing agent with
  | nil => rfl
  | cons first rest ih =>
    obtain ⟨w1, m1⟩ := first
    simp only [List.cons_append, Backend.processAll]
    exact ih _

theorem Backend.processAll_limits (toLowerCase : String → String) (agent : AliceAgent)
    (calls : List (Backend.World × String)) :
    (Backend.processAll toLowerCase agent calls).spendingLimits = agent.spendingLimits := by
  induction calls generalizing agent with
  | nil => rfl
  | cons first rest ih =>
    obtain ⟨w1, m1⟩ := first
    simp only [Backend.processAll]
    rw [ih, (Backend.processMessage_agent toLowerCase w1 agent m1).1]

/-- The purchase is refused by both files when the selected product costs more than the
per-transaction ceiling: the payments are those of the search, the agent is as the search
left it and no collaborator is called. -/
theorem backend_purchase_over_limit (w : Backend.World) (agent : AliceAgent)
    (payments : List Payment) (selected : Product) (rest : List Product)
    (hgt : JsNumber.gt selected.price agent.spendingLimits.perTransaction.USDC = true) :
    Backend.purchaseSelected w agent payments (selected :: rest)
      = ⟨.ok { response :=
                 .exceedsLimit selected.price agent.spendingLimits.perTransaction.USDC
               payments := payments
               results := none, order := none, paymentLink := none, product := none
               priceData := none },
         agent, []⟩ := by
  simp [Backend.purchaseSelected, hgt]

theorem server_purchase_over_limit (w : Server.World) (agent : AliceAgent)
    (payments : List Payment) (selected : Product) (rest : List Product)
    (hgt : JsNumber.gt selected.price agent.spendingLimits.perTransaction.USDC = true) :
    Server.purchaseSelected w agent payments (selected :: rest)
      = ⟨.ok { response :=
                 .exceedsLimit selected.price agent.spendingLimits.perTransaction.USDC
               payments := payments
               results := none, order := none, paymentLink := none, product := none
               priceData := none },
         agent, []⟩ := by
  simp [Server.purchaseSelected, hgt]

/-- The prices of the mock table of the backend are positive binary64 values. -/
theorem backend_prices_positive (product : String) (items : List Product) (p : Product)
    (hres : Backend.getSearchResults product = .list items) (hp : p ∈ items) :
    p.price.isDouble = true ∧ 0 < p.price.units := by
  unfold Backend.getSearchResults at hres
  split_ifs at hres
  · simp only [SearchResults.list.injEq] at hres
    subst hres
    simp only [List.mem_cons, List.mem_singleton, List.not_mem_nil, or_false] at hp
    rcases hp with rfl | rfl <;> decide
  · simp only [SearchResults.list.injEq] at hres
    subst hres
    simp only [List.mem_cons, List.mem_singleton, List.not_mem_nil, or_false] at hp
    rcases hp with rfl | rfl <;> decide
  · cases hm : inheritedMember product with
    | some member => simp [hm] at hres
    | none =>
      simp only [hm, SearchResults.list.injEq] at hres
      subst hres
      simp at hp

/-- C4, as stated, fails: after six messages "buy headphones" to a fresh agent of the
backend, each purchase of 349.99 USDC finishing, `dailySpent.USDC` is above
`spendingLimits.daily.USDC`, which is still 2000. -/
theorem c4_daily_ceiling_exceeded :
    JsNumber.gt Sample.afterSixPurchases.dailySpent.USDC
      Sample.afterSixPurchases.spendingLimits.daily.USDC = true ∧
    Sample.afterSixPurchases.spendingLimits.daily.USDC = JsNumber.ofNat 2000 ∧
    Sample.afterSixPurchases.dailySpent.USDC.toString = "2099.94" := by
  decide

/-- C4, amended: for every finite sequence of `processMessage` calls on a freshly
constructed agent of the backend and every further call, the limits are still the
constructed ones, and the call adds at most one amount to each accumulator: to
`dailySpent.ALICE` nothing or 0.1 (which is not above `spendingLimits.perTransaction.ALICE`),
to `dailySpent.USDC` nothing or the price of the one purchased product, which is the first
search result for the product named in the message, is positive and is not above
`spendingLimits.perTransaction.USDC`. -/
theorem c4_each_call_within_per_transaction (toLowerCase : String → String)
    (calls : List (Backend.World × String)) (w : Backend.World) (message : String) :
    (Backend.processAll toLowerCase AliceAgent.create (calls ++ [(w, message)])).spendingLimits
      = AliceAgent.create.spendingLimits ∧
    JsNumber.gt (JsNumber.ofQuot 1 10) AliceAgent.create.spendingLimits.perTransaction.ALICE
      = false ∧
    ((Backend.processAll toLowerCase AliceAgent.create
          (calls ++ [(w, message)])).dailySpent.ALICE
        = (Backend.processAll toLowerCase AliceAgent.create calls).dailySpent.ALICE ∨
      (Backend.processAll toLowerCase AliceAgent.create
          (calls ++ [(w, message)])).dailySpent.ALICE
        = JsNumber.add (Backend.processAll toLowerCase AliceAgent.create calls).dailySpent.ALICE
            (JsNumber.ofQuot 1 10)) ∧
    ((Backend.processAll toLowerCase AliceAgent.create
          (calls ++ [(w, message)])).dailySpent.USDC
        = (Backend.processAll toLowerCase AliceAgent.create calls).dailySpent.USDC ∨
      ∃ selected rest,
        Backend.getSearchResults (renderOpt (analyzeIntent toLowerCase message).product)
          = .list (selected :: rest) ∧
        JsNumber.gt selected.price AliceAgent.create.spendingLimits.perTransaction.USDC
          = false ∧
        selected.price.isDouble = true ∧ 0 < selected.price.units ∧
        (Backend.processAll toLowerCase AliceAgent.create
            (calls ++ [(w, message)])).dailySpent.USDC
          = JsNumber.add (Backend.processAll toLowerCase AliceAgent.create calls).dailySpent.USDC
              selected.price) := by
  have hstep := backend_process_step toLowerCase w
    (Backend.processAll toLowerCase AliceAgent.create calls) message
  have hlim := Backend.processAll_limits toLowerCase AliceAgent.create calls
  rw [Backend.processAll_append]
  refine ⟨by rw [hstep.1, hlim], by decide, hstep.2.1, ?_⟩
  rcases hstep.2.2 with hs | ⟨sel, rest, hres, hgt, hs⟩
  · exact Or.inl hs
  · obtain ⟨hd, hpos⟩ := backend_prices_positive _ _ sel hres (List.mem_cons_self _ _)
    exact Or.inr ⟨sel, rest, hres, by rw [← hlim]; exact hgt, hd, hpos, hs⟩

/-- C4, amended, on a concrete input: "buy headphones" after a search, the purchase
finishing; the amount added is 349.99, the price of the Sony headphones. -/
theorem c4_each_call_within_per_transaction_witness :
    (Backend.processAll Sample.toLowerCase AliceAgent.create
        ([(Sample.worldFinished, "find headphones")]
          ++ [(Sample.worldFinished, "buy headphones")])).spendingLimits
      = AliceAgent.create.spendingLimits ∧
    (Backend.processAll Sample.toLowerCase AliceAgent.create
        ([(Sample.worldFinished, "find headphones")]
          ++ [(Sample.worldFinished, "buy headphones")])).dailySpent.USDC
      = JsNumber.ofQuot 34999 100 :=
  ⟨(c4_each_call_within_per_transaction Sample.toLowerCase
      [(Sample.worldFinished, "find headphones")] Sample.worldFinished "buy headphones").1,
   by decide⟩

/-- C5: for every agent state and every purchase intent whose selected product costs more
than `spendingLimits.perTransaction.USDC`, `handlePurchase` of either file denies the
purchase: it resolves to a reply whose payments are only the ALICE payment of the search,
with no payment link and no order, `dailySpent.USDC` is unchanged, and no collaborator is
called (no Browser-Use task, no Helio payment link). -/
theorem c5_over_limit_purchase_denied (wb : Backend.World) (ws : Server.World)
    (agent : AliceAgent) (intent : Intent) :
    (∀ selected rest,
      Backend.getSearchResults (renderOpt intent.product) = .list (selected :: rest) →
      JsNumber.gt selected.price agent.spendingLimits.perTransaction.USDC = true →
      (Backend.handlePurchase wb agent intent).calls = [] ∧
      (Backend.handlePurchase wb agent intent).agent.dailySpent.USDC
        = agent.dailySpent.USDC ∧
      ∃ reply, (Backend.handlePurchase wb agent intent).completion = .ok reply ∧
        reply.response
          = .exceedsLimit selected.price agent.spendingLimits.perTransaction.USDC ∧
        (∀ p ∈ reply.payments, p.token = "ALICE" ∧ p.token ≠ "USDC") ∧
        reply.payments.length = 1 ∧
        reply.paymentLink = none ∧ reply.order = none) ∧
    (∀ selected rest,
      Server.getSearchResults (renderOpt intent.product) = .list (selected :: rest) →
      JsNumber.gt selected.price agent.spendingLimits.perTransaction.USDC = true →
      (Server.handlePurchase ws agent intent).calls = [] ∧
      (Server.handlePurchase ws agent intent).agent.dailySpent.USDC
        = agent.dailySpent.USDC ∧
      ∃ reply, (Server.handlePurchase ws agent intent).completion = .ok reply ∧
        reply.response
          = .exceedsLimit selected.price agent.spendingLimits.perTransaction.USDC ∧
        (∀ p ∈ reply.payments, p.token = "ALICE" ∧ p.token ≠ "USDC") ∧
        reply.payments.length = 1 ∧
        reply.paymentLink = none ∧ reply.order = none) := by
  constructor
  · intro selected rest hres hgt
    have hsel : (handleSearch Backend.getSearchResults wb.searchTime agent
        intent).2.results.getD (.list []) = .list (selected :: rest) := by
      simp [handleSearch, hres]
    have hgt1 : JsNumber.gt selected.price
        (handleSearch Backend.getSearchResults wb.searchTime agent
          intent).1.spendingLimits.perTransaction.USDC = true := by
      simpa [handleSearch] using hgt
    unfold Backend.handlePurchase
    simp only [hsel, Backend.purchaseAfterSearch]
    rw [backend_purchase_over_limit wb _ _ selected rest hgt1]
    refine ⟨rfl, by simp [handleSearch], _, rfl, by simp [handleSearch], ?_, ?_, rfl, rfl⟩
    · intro p hp
      simp [handleSearch] at hp
      subst hp
      exact ⟨rfl, show "ALICE" ≠ "USDC" by decide⟩
    · simp [handleSearch]
  · intro selected rest hres hgt
    have hsel : (handleSearch Server.getSearchResults ws.searchTime agent
        intent).2.results.getD (.list []) = .list (selected :: rest) := by
      simp [handleSearch, hres]
    have hgt1 : JsNumber.gt selected.price
        (handleSearch Server.getSearchResults ws.searchTime agent
          intent).1.spendingLimits.perTransaction.USDC = true := by
      simpa [handleSearch] using hgt
    unfold Server.handlePurchase
    simp only [hsel, Server.purchaseAfterSearch]
    rw [server_purchase_over_limit ws _ _ selected rest hgt1]
    refine ⟨rfl, by simp [handleSearch], _, rfl, by simp [handleSearch], ?_, ?_, rfl, rfl⟩
    · intro p hp
      simp [handleSearch] at hp
      subst hp
      exact ⟨rfl, show "ALICE" ≠ "USDC" by decide⟩
    · simp [handleSearch]

/-- C5 on a concrete input: "buy a laptop" on a fresh agent, the MacBook Air at 999 USDC
being above the ceiling of 500 USDC, in both files. -/
theorem c5_over_limit_purchase_denied_witness :
    ((Backend.handlePurchase Sample.worldFinished AliceAgent.create Sample.buyLaptop).calls = [] ∧
      (Backend.handlePurchase Sample.worldFinished AliceAgent.create
          Sample.buyLaptop).agent.dailySpent.USDC = AliceAgent.create.dailySpent.USDC ∧
      ∃ reply, (Backend.handlePurchase Sample.worldFinished AliceAgent.create
          Sample.buyLaptop).completion = .ok reply ∧
        reply.response
          = .exceedsLimit (JsNumber.ofQuot 99900 100)
              AliceAgent.create.spendingLimits.perTransaction.USDC ∧
        (∀ p ∈ reply.payments, p.token = "ALICE" ∧ p.token ≠ "USDC") ∧
        reply.payments.length = 1 ∧
        reply.paymentLink = none ∧ reply.order = none) ∧
    ((Server.handlePurchase Sample.worldLinked AliceAgent.create Sample.buyLaptop).calls = [] ∧
      (Server.handlePurchase Sample.worldLinked AliceAgent.create
          Sample.buyLaptop).agent.dailySpent.USDC = AliceAgent.create.dailySpent.USDC ∧
      ∃ reply, (Server.handlePurchase Sample.worldLinked AliceAgent.create
          Sample.buyLaptop).completion = .ok reply ∧
        reply.response
          = .exceedsLimit (JsNumber.ofQuot 99900 100)
              AliceAgent.create.spendingLimits.perTransaction.USDC ∧
        (∀ p ∈ reply.payments, p.token = "ALICE" ∧ p.token ≠ "USDC") ∧
        reply.payments.length = 1 ∧
        reply.paymentLink = none ∧ reply.order = none) :=
  ⟨(c5_over_limit_purchase_denied Sample.worldFinished Sample.worldLinked AliceAgent.create
      Sample.buyLaptop).1 ⟨"MacBook Air M2", JsNumber.ofQuot 99900 100,
        "https://example.com/macbook"⟩ _ rfl (by decide),
   (c5_over_limit_purchase_denied Sample.worldFinished Sample.worldLinked AliceAgent.create
      Sample.buyLaptop).2 ⟨"MacBook Air M2", JsNumber.ofQuot 99900 100,
        "https://example.com/macbook"⟩ _ rfl (by decide)⟩

/-! ## Error values of `verifyPayment` -/

/-- A call whose reference is not cached issues exactly one ledger query, for that
reference, whatever the ledger answers. -/
theorem verifyPayment_queries_of_miss {decode : ProofDecoder} (ledger : Ledger)
    {h : X402PaymentHandler} {paymentHeader : String} {paymentData r : JsVal}
    (hd : decode paymentHeader = .ok paymentData)
    (hs : paymentData.getProp "signature" = .ok r)
    (hc : h.paymentCache.get r = none) :
    (h.verifyPayment decode ledger paymentHeader).ledgerQueries = [r] := by
  cases hl : ledger r with
  | error e => rw [X402PaymentHandler.verifyPayment_of_rejection hd hs hc hl]
  | ok transaction =>
    cases ht : transaction.truthy with
    | false => rw [X402PaymentHandler.verifyPayment_of_absent hd hs hc hl ht]
    | true =>
      cases hm : transactionErr transaction with
      | error e => rw [X402PaymentHandler.verifyPayment_of_no_meta hd hs hc hl ht hm]
      | ok err =>
        cases he : err.truthy with
        | true => rw [X402PaymentHandler.verifyPayment_of_failed hd hs hc hl ht hm he]
        | false =>
          obtain ⟨a, ha⟩ := getProp_total_of_ok "amount" hs
          obtain ⟨t, hk⟩ := getProp_total_of_ok "token" hs
          rw [X402PaymentHandler.verifyPayment_of_succeeded hd hs hc hl ht hm he ha hk]

/-- C11, as stated, fails: on a fresh handler the verdict for a transaction the ledger does
not know and the verdict for a transaction that failed carry the same error value,
`Transaction not found or failed`, which is neither `NOT_FOUND` nor
`TRANSACTION_FAILED`. -/
theorem c11_one_error_for_both :
    (Sample.handler.verifyPayment Sample.decode Sample.ledgerAbsent Sample.proofA).completion
      = (Sample.handler.verifyPayment Sample.decode Sample.ledgerFailed
          Sample.proofA).completion ∧
    (Sample.handler.verifyPayment Sample.decode Sample.ledgerAbsent Sample.proofA).completion
      = .ok (.invalid "Transaction not found or failed") ∧
    "Transaction not found or failed" ≠ "NOT_FOUND" ∧
    "Transaction not found or failed" ≠ "TRANSACTION_FAILED" :=
  ⟨rfl, rfl, by decide, by decide⟩

/-- C11, amended: for every proof whose reference is not cached, if the ledger reports the
transaction absent `verifyPayment` returns `valid = false`, and if the ledger reports it
present but failed (`meta.err` set) it returns `valid = false` as well; both verdicts
carry the one error value `Transaction not found or failed`. -/
theorem c11_absent_and_failed_verdicts (decode : ProofDecoder) (ledgerA ledgerF : Ledger)
    (h : X402PaymentHandler) (paymentHeader : String)
    (paymentData r absent failed err : JsVal)
    (hd : decode paymentHeader = .ok paymentData)
    (hs : paymentData.getProp "signature" = .ok r)
    (hc : h.paymentCache.get r = none)
    (hla : ledgerA r = .ok absent) (hta : absent.truthy = false)
    (hlf : ledgerF r = .ok failed) (htf : failed.truthy = true)
    (hm : transactionErr failed = .ok err) (he : err.truthy = true) :
    (h.verifyPayment decode ledgerA paymentHeader).completion
      = .ok (.invalid "Transaction not found or failed") ∧
    (h.verifyPayment decode ledgerF paymentHeader).completion
      = .ok (.invalid "Transaction not found or failed") ∧
    (Verdict.invalid "Transaction not found or failed").valid = false := by
  rw [X402PaymentHandler.verifyPayment_of_absent hd hs hc hla hta,
    X402PaymentHandler.verifyPayment_of_failed hd hs hc hlf htf hm he]
  exact ⟨rfl, rfl, rfl⟩

/-- C11, amended, on a concrete input. -/
theorem c11_absent_and_failed_verdicts_witness :
    (Sample.handler.verifyPayment Sample.decode Sample.ledgerAbsent Sample.proofA).completion
      = .ok (.invalid "Transaction not found or failed") ∧
    (Sample.handler.verifyPayment Sample.decode Sample.ledgerFailed Sample.proofA).completion
      = .ok (.invalid "Transaction not found or failed") ∧
    (Verdict.invalid "Transaction not found or failed").valid = false :=
  c11_absent_and_failed_verdicts Sample.decode Sample.ledgerAbsent Sample.ledgerFailed
    Sample.handler Sample.proofA Sample.dataA Sample.signature .null _
    (.obj [("InstructionError", .arr [])]) rfl rfl rfl rfl rfl rfl rfl rfl rfl

/-- C12, as stated, fails: for a header that is not JSON the error of the verdict is the
message of the `SyntaxError`, not `MALFORMED_PROOF`; for a proof that decodes to `null` it
is the message of the `TypeError` of the read `paymentData.signature`; and a proof that
decodes to an object without `signature` is not rejected before the ledger is asked: the
reference `undefined` is queried and the error is the one of an unknown transaction. -/
theorem c12_no_malformed_proof_kind :
    (Sample.handler.verifyPayment Sample.decodeAll Sample.ledgerAbsent "not json").completion
      = .ok (.invalid Sample.notJsonMessage) ∧
    Sample.notJsonMessage ≠ "MALFORMED_PROOF" ∧
    Sample.handler.verifyPayment Sample.decodeAll Sample.ledgerAbsent Sample.proofNull
      = ⟨.ok (.invalid "Cannot read properties of null (reading 'signature')"),
         Sample.handler, []⟩ ∧
    "Cannot read properties of null (reading 'signature')" ≠ "MALFORMED_PROOF" ∧
    (Sample.handler.verifyPayment Sample.decodeAll Sample.ledgerAbsent
        Sample.proofBare).completion
      = .ok (.invalid "Transaction not found or failed") ∧
    (Sample.handler.verifyPayment Sample.decodeAll Sample.ledgerAbsent
        Sample.proofBare).ledgerQueries = [.undefined] ∧
    "Transaction not found or failed" ≠ "MALFORMED_PROOF" :=
  ⟨rfl, by decide, rfl, by decide, rfl, rfl, by decide⟩

/-- C12, amended: for every proof that fails to decode, `verifyPayment` returns a verdict
with `valid = false` whose error is the message of the decoding exception, asks the ledger
nothing and leaves the handler unchanged.  So it does for a proof that decodes to a value
on which the read of `signature` throws, which is the value `null`: the error is the
message of that `TypeError`, nothing is looked up and nothing is queried.  A proof that
decodes to any other value without a `signature` is not rejected as malformed: the
reference `undefined` is looked up in the cache and a verdict cached under it is returned
as it is, with no query; when nothing is cached under it, `undefined` is the one reference
queried on the ledger and the verdict is the one the answer gives for any reference:
invalid with the message of the rejection, invalid with "Transaction not found or failed"
for an unknown or failed transaction, invalid with the message of the `TypeError` for a
record without `meta`, and for a succeeded transaction valid, with `signature` undefined,
and stored in the cache under `undefined`. -/
theorem c12_decode_failure_verdict (decode : ProofDecoder) (ledger : Ledger)
    (h : X402PaymentHandler) (paymentHeader : String) :
    (∀ e, decode paymentHeader = .error e →
      h.verifyPayment decode ledger paymentHeader = ⟨.ok (.invalid e.message), h, []⟩ ∧
      (Verdict.invalid e.message).valid = false) ∧
    (∀ paymentData e, decode paymentHeader = .ok paymentData →
      paymentData.getProp "signature" = .error e →
      h.verifyPayment decode ledger paymentHeader = ⟨.ok (.invalid e.message), h, []⟩ ∧
      (Verdict.invalid e.message).valid = false ∧
      (paymentData = .null ∨ paymentData = .undefined)) ∧
    (decode paymentHeader = .ok .null →
      h.verifyPayment decode ledger paymentHeader
        = ⟨.ok (.invalid "Cannot read properties of null (reading 'signature')"), h, []⟩) ∧
    (∀ paymentData, decode paymentHeader = .ok paymentData →
      paymentData.getProp "signature" = .ok .undefined →
      (∀ v, h.paymentCache.get .undefined = some v →
        h.verifyPayment decode ledger paymentHeader = ⟨.ok v, h, []⟩) ∧
      (h.paymentCache.get .undefined = none →
        (h.verifyPayment decode ledger paymentHeader).ledgerQueries = [.undefined] ∧
        (∀ e, ledger .undefined = .error e →
          h.verifyPayment decode ledger paymentHeader
            = ⟨.ok (.invalid e.message), h, [.undefined]⟩) ∧
        (∀ transaction, ledger .undefined = .ok transaction →
          transaction.truthy = false →
          h.verifyPayment decode ledger paymentHeader
            = ⟨.ok (.invalid "Transaction not found or failed"), h, [.undefined]⟩) ∧
        (∀ transaction e, ledger .undefined = .ok transaction →
          transaction.truthy = true → transactionErr transaction = .error e →
          h.verifyPayment decode ledger paymentHeader
            = ⟨.ok (.invalid e.message), h, [.undefined]⟩) ∧
        (∀ transaction err, ledger .undefined = .ok transaction →
          transaction.truthy = true → transactionErr transaction = .ok err →
          err.truthy = true →
          h.verifyPayment decode ledger paymentHeader
            = ⟨.ok (.invalid "Transaction not found or failed"), h, [.undefined]⟩) ∧
        (∀ transaction err, ledger .undefined = .ok transaction →
          transaction.truthy = true → transactionErr transaction = .ok err →
          err.truthy = false →
          ∃ amount token, paymentData.getProp "amount" = .ok amount ∧
            paymentData.getProp "token" = .ok token ∧
            h.verifyPayment decode ledger paymentHeader
              = ⟨.ok (.verified .undefined amount token),
                 { h with
                   paymentCache :=
                     h.paymentCache.set .undefined (.verified .undefined amount token) },
                 [.undefined]⟩))) := by
  refine ⟨fun _ he => ⟨X402PaymentHandler.verifyPayment_of_decode_error ledger h he, rfl⟩,
    fun paymentData e hd hs =>
      ⟨X402PaymentHandler.verifyPayment_of_no_signature ledger h hd hs, rfl, ?_⟩,
    fun hd => X402PaymentHandler.verifyPayment_of_no_signature ledger h hd rfl,
    fun paymentData hd hs =>
      ⟨fun v hc => X402PaymentHandler.verifyPayment_of_cached ledger hd hs hc,
       fun hc => ⟨verifyPayment_queries_of_miss ledger hd hs hc,
         fun e hl => X402PaymentHandler.verifyPayment_of_rejection hd hs hc hl,
         fun t hl ht => X402PaymentHandler.verifyPayment_of_absent hd hs hc hl ht,
         fun t e hl ht hm => X402PaymentHandler.verifyPayment_of_no_meta hd hs hc hl ht hm,
         fun t err hl ht hm he =>
           X402PaymentHandler.verifyPayment_of_failed hd hs hc hl ht hm he,
         ?_⟩⟩⟩
  · cases paymentData <;> simp_all [JsVal.getProp]
  · intro t err hl ht hm he
    obtain ⟨a, ha⟩ := getProp_total_of_ok "amount" hs
    obtain ⟨k, hk⟩ := getProp_total_of_ok "token" hs
    exact ⟨a, k, ha, hk,
      X402PaymentHandler.verifyPayment_of_succeeded hd hs hc hl ht hm he ha hk⟩

/-- C12, amended, on concrete inputs: a header that is not JSON, a proof that decodes to
`null`, and a proof without `signature` while the RPC is down. -/
theorem c12_decode_failure_verdict_witness :
    (Sample.handler.verifyPayment Sample.decodeAll Sample.ledgerDown "not json"
        = ⟨.ok (.invalid Sample.notJsonMessage), Sample.handler, []⟩ ∧
      (Verdict.invalid Sample.notJsonMessage).valid = false) ∧
    Sample.handler.verifyPayment Sample.decodeAll Sample.ledgerDown Sample.proofNull
      = ⟨.ok (.invalid "Cannot read properties of null (reading 'signature')"),
         Sample.handler, []⟩ ∧
    Sample.handler.verifyPayment Sample.decodeAll Sample.ledgerDown Sample.proofBare
      = ⟨.ok (.invalid "fetch failed"), Sample.handler, [.undefined]⟩ :=
  ⟨(c12_decode_failure_verdict Sample.decodeAll Sample.ledgerDown Sample.handler
      "not json").1 ⟨Sample.notJsonMessage⟩ rfl,
   (c12_decode_failure_verdict Sample.decodeAll Sample.ledgerDown Sample.handler
      Sample.proofNull).2.2.1 rfl,
   ((c12_decode_failure_verdict Sample.decodeAll Sample.ledgerDown Sample.handler
      Sample.proofBare).2.2.2 Sample.dataBare rfl rfl).2 rfl |>.2.1 ⟨"fetch failed"⟩ rfl⟩

/-! ## The payment requirement and the responses of the middleware -/

/-- The requirement built for a token of the table. -/
theorem createPaymentRequirement_of_token (config : Config) (h : X402PaymentHandler)
    (amount : JsNumber) (token description : String) {tokenInfo : TokenInfo}
    (ht : h.tokenManager.tokens.lookup token = some tokenInfo) :
    h.createPaymentRequirement config amount token description
      = .ok
          { x402Version := 1
            accepts :=
              [{ scheme := "exact"
                 network := "solana-mainnet"
                 maxAmountRequired :=
                   (JsNumber.mul amount (JsNumber.pow10 tokenInfo.decimals)).toString
                 resource := description
                 description := description
                 mimeType := "application/json"
                 payTo := config.merchantWallet
                 maxTimeoutSeconds := 300
                 asset := tokenInfo.mint
                 token := token }]
            error := none } := by
  simp [X402PaymentHandler.createPaymentRequirement, ht]

/-- The answer of the middleware to a request without a proof. -/
theorem requirePayment_challenge (config : Config) (decode : ProofDecoder)
    (amount : JsNumber) (token description : String) (ledger : Ledger)
    (h : X402PaymentHandler) {req : Request} {body : PaymentRequirement}
    (hreq : req.xPayment = none ∨ req.xPayment = some "")
    (hbody : h.createPaymentRequirement config amount token description = .ok body) :
    requirePayment config decode amount token description ledger h req
      = ⟨.ok (.respond 402 (.requirement body)), h, []⟩ := by
  unfold requirePayment
  rcases hreq with hreq | hreq <;> simp [hreq, Option.filter, hbody]

/-- The middleware on a request without a proof when the requirement cannot be built: the
exception leaves the middleware and nothing is sent. -/
theorem requirePayment_no_challenge (config : Config) (decode : ProofDecoder)
    (amount : JsNumber) (token description : String) (ledger : Ledger)
    (h : X402PaymentHandler) {req : Request} {e : JsError}
    (hreq : req.xPayment = none ∨ req.xPayment = some "")
    (hbody : h.createPaymentRequirement config amount token description = .error e) :
    requirePayment config decode amount token description ledger h req
      = ⟨.error e, h, []⟩ := by
  unfold requirePayment
  rcases hreq with hreq | hreq <;> simp [hreq, Option.filter, hbody]

/-- The requirement cannot be built for a token outside the table. -/
theorem createPaymentRequirement_of_unknown (config : Config) (h : X402PaymentHandler)
    (amount : JsNumber) (token description : String)
    (ht : h.tokenManager.tokens.lookup token = none) :
    ∃ e, h.createPaymentRequirement config amount token description = .error e := by
  unfold X402PaymentHandler.createPaymentRequirement
  rw [ht]
  cases inheritedMember token <;> exact ⟨_, rfl⟩

/-- C13, as stated, fails: on the route configuration `(0.1, 'SOL', ...)`, whose token is
not in the token table, a request without a proof gets no 402 response: the read
`tokenInfo.decimals` in `createPaymentRequirement` throws, the exception leaves the
middleware and no response is sent. -/
theorem c13_unconfigured_token_gets_no_challenge :
    X402PaymentHandler.createPaymentRequirement Sample.config Sample.handler
        (JsNumber.ofQuot 1 10) "SOL" "Premium search API access"
      = .error ⟨"Cannot read properties of undefined (reading 'decimals')"⟩ ∧
    (requirePayment Sample.config Sample.decode (JsNumber.ofQuot 1 10) "SOL"
        "Premium search API access" Sample.ledgerDown Sample.handler ⟨none⟩).completion
      = .error ⟨"Cannot read properties of undefined (reading 'decimals')"⟩ ∧
    (∀ status body,
      (requirePayment Sample.config Sample.decode (JsNumber.ofQuot 1 10) "SOL"
          "Premium search API access" Sample.ledgerDown Sample.handler ⟨none⟩).completion
        ≠ .ok (.respond status body)) :=
  ⟨rfl, rfl, fun _ _ hc => Except.noConfusion hc⟩

/-- C13, amended: for every route configuration `(amount, token, description)` and every
request with no `x-payment` proof (the header absent or empty), when the token is a key of
the token table of the handler the middleware responds with status 402 and the body
`createPaymentRequirement(amount, token, description)`; when it is not,
`createPaymentRequirement` throws and the middleware ends with that exception, sending no
response.  In both cases it does not call `next()`, asks the ledger nothing and leaves the
handler and its payment cache unchanged, and the outcome depends on neither the proof
decoder nor the ledger, which are not consulted. -/
theorem c13_no_proof_gets_challenge (config : Config) (decode : ProofDecoder)
    (amount : JsNumber) (token description : String) (ledger : Ledger)
    (h : X402PaymentHandler) (req : Request)
    (hreq : req.xPayment = none ∨ req.xPayment = some "") :
    (∀ tokenInfo, h.tokenManager.tokens.lookup token = some tokenInfo →
      ∃ body, h.createPaymentRequirement config amount token description = .ok body ∧
        (requirePayment config decode amount token description ledger h req).completion
          = .ok (.respond 402 (.requirement body))) ∧
    (∀ body, h.createPaymentRequirement config amount token description = .ok body →
      (requirePayment config decode amount token description ledger h req).completion
        = .ok (.respond 402 (.requirement body))) ∧
    (h.tokenManager.tokens.lookup token = none →
      ∃ e, h.createPaymentRequirement config amount token description = .error e ∧
        (requirePayment config decode amount token description ledger h req).completion
          = .error e) ∧
    (∀ v, (requirePayment config decode amount token description ledger h req).completion
      ≠ .ok (.next v)) ∧
    (requirePayment config decode amount token description ledger h req).ledgerQueries = [] ∧
    (requirePayment config decode amount token description ledger h req).handler = h ∧
    (requirePayment config decode amount token description ledger h
      req).handler.paymentCache = h.paymentCache ∧
    (∀ (decode2 : ProofDecoder) (ledger2 : Ledger),
      requirePayment config decode2 amount token description ledger2 h req
        = requirePayment config decode amount token description ledger h req) := by
  have hcases : ∀ (d : ProofDecoder) (l : Ledger),
      (∃ body, h.createPaymentRequirement config amount token description = .ok body ∧
        requirePayment config d amount token description l h req
          = ⟨.ok (.respond 402 (.requirement body)), h, []⟩) ∨
      (∃ e, h.createPaymentRequirement config amount token description = .error e ∧
        requirePayment config d amount token description l h req = ⟨.error e, h, []⟩) := by
    intro d l
    cases hb : h.createPaymentRequirement config amount token description with
    | ok body =>
      exact Or.inl ⟨body, rfl,
        requirePayment_challenge config d amount token description l h hreq hb⟩
    | error e =>
      exact Or.inr ⟨e, rfl,
        requirePayment_no_challenge config d amount token description l h hreq hb⟩
  refine ⟨?_, ?_, ?_, ?_, ?_, ?_, ?_, ?_⟩
  · intro tokenInfo ht
    have hb := createPaymentRequirement_of_token config h amount token description ht
    exact ⟨_, hb, by
      rw [requirePayment_challenge config decode amount token description ledger h hreq hb]⟩
  · intro body hb
    rw [requirePayment_challenge config decode amount token description ledger h hreq hb]
  · intro ht
    obtain ⟨e, he⟩ := createPaymentRequirement_of_unknown config h amount token description ht
    exact ⟨e, he, by
      rw [requirePayment_no_challenge config decode amount token description ledger h hreq he]⟩
  · intro v hv
    rcases hcases decode ledger with ⟨_, _, hr⟩ | ⟨_, _, hr⟩ <;> rw [hr] at hv <;> simp at hv
  · rcases hcases decode ledger with ⟨_, _, hr⟩ | ⟨_, _, hr⟩ <;> rw [hr]
  · rcases hcases decode ledger with ⟨_, _, hr⟩ | ⟨_, _, hr⟩ <;> rw [hr]
  · rcases hcases decode ledger with ⟨_, _, hr⟩ | ⟨_, _, hr⟩ <;> rw [hr]
  · intro decode2 ledger2
    rcases hcases decode ledger with ⟨b, hb, hr⟩ | ⟨e, hb, hr⟩
    · rw [hr, requirePayment_challenge config decode2 amount token description ledger2 h
        hreq hb]
    · rw [hr, requirePayment_no_challenge config decode2 amount token description ledger2 h
        hreq hb]

/-- C13, amended, on concrete inputs: the search route without a proof, with the RPC
down: the 402 response carries the requirement of 0.1 ALICE, the ledger is not asked and
the handler is unchanged. -/
theorem c13_no_proof_gets_challenge_witness :
    (∃ body,
      X402PaymentHandler.createPaymentRequirement Sample.config Sample.handler
          (JsNumber.ofQuot 1 10) "ALICE" "Premium search API access" = .ok body ∧
      (requirePayment Sample.config Sample.decode (JsNumber.ofQuot 1 10) "ALICE"
          "Premium search API access" Sample.ledgerDown Sample.handler ⟨none⟩).completion
        = .ok (.respond 402 (.requirement body))) ∧
    (requirePayment Sample.config Sample.decode (JsNumber.ofQuot 1 10) "ALICE"
        "Premium search API access" Sample.ledgerDown Sample.handler ⟨none⟩).ledgerQueries
      = [] ∧
    (requirePayment Sample.config Sample.decode (JsNumber.ofQuot 1 10) "ALICE"
        "Premium search API access" Sample.ledgerDown Sample.handler ⟨none⟩).handler
      = Sample.handler :=
  ⟨(c13_no_proof_gets_challenge Sample.config Sample.decode (JsNumber.ofQuot 1 10) "ALICE"
      "Premium search API access" Sample.ledgerDown Sample.handler ⟨none⟩
      (Or.inl rfl)).1 _ rfl,
   (c13_no_proof_gets_challenge Sample.config Sample.decode (JsNumber.ofQuot 1 10) "ALICE"
      "Premium search API access" Sample.ledgerDown Sample.handler ⟨none⟩
      (Or.inl rfl)).2.2.2.2.1,
   (c13_no_proof_gets_challenge Sample.config Sample.decode (JsNumber.ofQuot 1 10) "ALICE"
      "Premium search API access" Sample.ledgerDown Sample.handler ⟨none⟩
      (Or.inl rfl)).2.2.2.2.2.1⟩

/-- C14, as stated, fails: the body of the 400 response to a proof of an unknown
transaction has the properties `error` and `details`; it has no property `reason`. -/
theorem c14_body_has_no_reason :
    (requirePayment Sample.config Sample.decode (JsNumber.ofQuot 1 10) "ALICE"
        "Premium search API access" Sample.ledgerAbsent Sample.handler
        ⟨some Sample.proofA⟩).completion
      = .ok (.respond 400
          (.invalidPayment "Invalid payment" (.str "Transaction not found or failed"))) ∧
    (ResponseBody.invalidPayment "Invalid payment"
        (.str "Transaction not found or failed")).toObject.hasOwn "reason" = false ∧
    (ResponseBody.invalidPayment "Invalid payment"
        (.str "Transaction not found or failed")).toObject.hasOwn "details" = true ∧
    (ResponseBody.invalidPayment "Invalid payment"
        (.str "Transaction not found or failed")).toObject.hasOwn "error" = true :=
  ⟨rfl, rfl, rfl, rfl⟩

/-- C14, amended: for every request carrying a non-empty proof for which `verifyPayment`
returns `valid = false`, the middleware does not call `next()` and responds with status
400 and a body with the two properties `error`, the text `Invalid payment`, and `details`,
the error of the verdict. -/
theorem c14_invalid_verdict_rejected (config : Config) (decode : ProofDecoder)
    (amount : JsNumber) (token description : String) (ledger : Ledger)
    (h : X402PaymentHandler) (paymentHeader : String) (v : Verdict)
    (hne : paymentHeader ≠ "")
    (hv : (h.verifyPayment decode ledger paymentHeader).completion = .ok v)
    (hinvalid : v.valid = false) :
    (requirePayment config decode amount token description ledger h
        ⟨some paymentHeader⟩).completion
      = .ok (.respond 400 (.invalidPayment "Invalid payment" v.error)) ∧
    (ResponseBody.invalidPayment "Invalid payment" v.error).toObject
      = .obj [("error", .str "Invalid payment"), ("details", v.error)] ∧
    (∀ w, (requirePayment config decode amount token description ledger h
        ⟨some paymentHeader⟩).completion ≠ .ok (.next w)) := by
  rw [requirePayment_of_proof config decode amount token description ledger h hne hv]
  simp [hinvalid, ResponseBody.toObject]

/-- C14, amended, on a concrete input: the proof of a failed transaction. -/
theorem c14_invalid_verdict_rejected_witness :
    (requirePayment Sample.config Sample.decode (JsNumber.ofQuot 1 10) "ALICE"
        "Premium search API access" Sample.ledgerFailed Sample.handler
        ⟨some Sample.proofA⟩).completion
      = .ok (.respond 400
          (.invalidPayment "Invalid payment" (.str "Transaction not found or failed"))) :=
  (c14_invalid_verdict_rejected Sample.config Sample.decode (JsNumber.ofQuot 1 10) "ALICE"
    "Premium search API access" Sample.ledgerFailed Sample.handler Sample.proofA
    (.invalid "Transaction not found or failed") (by decide) rfl rfl).1

/-- C15: `createPaymentRequirement(0.1, 'ALICE', description)` returns, for every
description (and every configuration and cache), a requirement whose only accepted method
has `maxAmountRequired` equal to the string `100000000`; and it is the body of the 402
response of the route `/api/search/:query`, which is
`requirePayment(0.1, 'ALICE', 'Premium search API access')`, to a request without a
proof. -/
theorem c15_search_route_amount (config : Config) (cache : PaymentCache)
    (description : String) (decode : ProofDecoder) (ledger : Ledger) :
    (∃ body,
      X402PaymentHandler.createPaymentRequirement config
          ⟨TokenManager.create config, cache⟩ (JsNumber.ofQuot 1 10) "ALICE" description
        = .ok body ∧
      body.accepts.map (fun m => m.maxAmountRequired) = ["100000000"]) ∧
    (∃ body,
      (requirePayment config decode (JsNumber.ofQuot 1 10) "ALICE"
          "Premium search API access" ledger ⟨TokenManager.create config, cache⟩
          ⟨none⟩).completion
        = .ok (.respond 402 (.requirement body)) ∧
      X402PaymentHandler.createPaymentRequirement config
          ⟨TokenManager.create config, cache⟩ (JsNumber.ofQuot 1 10) "ALICE"
          "Premium search API access"
        = .ok body ∧
      body.accepts.map (fun m => m.maxAmountRequired) = ["100000000"]) := by
  have hlookup : (TokenManager.create config).tokens.lookup "ALICE"
      = some { mint := config.aliceTokenMint, decimals := 9,
               priceUsd := JsNumber.ofQuot 10 100 } := rfl
  have hamount :
      (JsNumber.mul (JsNumber.ofQuot 1 10) (JsNumber.pow10 9)).toString = "100000000" := by
    decide
  constructor
  · refine ⟨_, createPaymentRequirement_of_token config ⟨TokenManager.create config, cache⟩
      _ "ALICE" description hlookup, ?_⟩
    simp [hamount]
  · refine ⟨_, ?_, createPaymentRequirement_of_token config
      ⟨TokenManager.create config, cache⟩ _ "ALICE" "Premium search API access" hlookup, ?_⟩
    · rw [requirePayment_challenge config decode _ "ALICE" "Premium search API access" ledger
        ⟨TokenManager.create config, cache⟩ (Or.inl rfl)
        (createPaymentRequirement_of_token config ⟨TokenManager.create config, cache⟩
          _ "ALICE" "Premium search API access" hlookup)]
    · simp [hamount]

/-- C16: for every amount, every token of the table (`ALICE` and `USDC`) and every
description, `createPaymentRequirement` returns a requirement with `x402Version = 1` and
exactly one accepted method, whose scheme is `exact`, whose resource and description are
the description argument, whose `payTo` is `config.merchantWallet`, whose
`maxTimeoutSeconds` is 300, whose asset is the mint of the token and whose token is the
token argument.  The function only builds this value: its result is the same for every
cache, and the middleware that calls it leaves the handler, cache and token table
included, as it was. -/
theorem c16_requirement_fields (config : Config) (cache : PaymentCache) (amount : JsNumber)
    (token description : String) (decode : ProofDecoder) (ledger : Ledger)
    (htoken : token = "ALICE" ∨ token = "USDC") :
    (∃ m,
      X402PaymentHandler.createPaymentRequirement config
          ⟨TokenManager.create config, cache⟩ amount token description
        = .ok { x402Version := 1, accepts := [m], error := none } ∧
      m.scheme = "exact" ∧ m.network = "solana-mainnet" ∧
      m.resource = description ∧ m.description = description ∧
      m.mimeType = "application/json" ∧
      m.payTo = config.merchantWallet ∧ m.maxTimeoutSeconds = 300 ∧
      m.asset = (if token = "ALICE" then config.aliceTokenMint else config.usdcTokenMint) ∧
      (TokenManager.create config).tokens.lookup token
        = some { mint := m.asset, decimals := if token = "ALICE" then 9 else 6,
                 priceUsd := if token = "ALICE" then JsNumber.ofQuot 10 100
                   else JsNumber.ofQuot 100 100 } ∧
      m.token = token) ∧
    (∀ cache2 : PaymentCache,
      X402PaymentHandler.createPaymentRequirement config
          ⟨TokenManager.create config, cache2⟩ amount token description
        = X402PaymentHandler.createPaymentRequirement config
            ⟨TokenManager.create config, cache⟩ amount token description) ∧
    (requirePayment config decode amount token description ledger
        ⟨TokenManager.create config, cache⟩ ⟨none⟩).handler
      = ⟨TokenManager.create config, cache⟩ := by
  rcases htoken with rfl | rfl
  · have hlookup : (TokenManager.create config).tokens.lookup "ALICE"
        = some { mint := config.aliceTokenMint, decimals := 9,
                 priceUsd := JsNumber.ofQuot 10 100 } := rfl
    refine ⟨⟨_, createPaymentRequirement_of_token config
      ⟨TokenManager.create config, cache⟩ amount "ALICE" description hlookup,
      rfl, rfl, rfl, rfl, rfl, rfl, rfl, rfl, rfl, rfl⟩, fun _ => rfl, ?_⟩
    rw [requirePayment_challenge config decode amount "ALICE" description ledger
      ⟨TokenManager.create config, cache⟩ (Or.inl rfl)
      (createPaymentRequirement_of_token config ⟨TokenManager.create config, cache⟩
        amount "ALICE" description hlookup)]
  · have hlookup : (TokenManager.create config).tokens.lookup "USDC"
        = some { mint := config.usdcTokenMint, decimals := 6,
                 priceUsd := JsNumber.ofQuot 100 100 } := rfl
    refine ⟨⟨_, createPaymentRequirement_of_token config
      ⟨TokenManager.create config, cache⟩ amount "USDC" description hlookup,
      rfl, rfl, rfl, rfl, rfl, rfl, rfl, rfl, rfl, rfl⟩, fun _ => rfl, ?_⟩
    rw [requirePayment_challenge config decode amount "USDC" description ledger
      ⟨TokenManager.create config, cache⟩ (Or.inl rfl)
      (createPaymentRequirement_of_token config ⟨TokenManager.create config, cache⟩
        amount "USDC" description hlookup)]

/-- C16 on a concrete input: five USDC on a fresh handler. -/
theorem c16_requirement_fields_witness :
    ∃ m,
      X402PaymentHandler.createPaymentRequirement Sample.config
          ⟨TokenManager.create Sample.config, PaymentCache.empty⟩ (JsNumber.ofNat 5) "USDC"
          "Premium search API access"
        = .ok { x402Version := 1, accepts := [m], error := none } ∧
      m.scheme = "exact" ∧ m.network = "solana-mainnet" ∧
      m.resource = "Premium search API access" ∧
      m.description = "Premium search API access" ∧
      m.mimeType = "application/json" ∧
      m.payTo = Sample.config.merchantWallet ∧ m.maxTimeoutSeconds = 300 ∧
      m.asset = (if "USDC" = "ALICE" then Sample.config.aliceTokenMint
        else Sample.config.usdcTokenMint) ∧
      (TokenManager.create Sample.config).tokens.lookup "USDC"
        = some { mint := m.asset, decimals := if "USDC" = "ALICE" then 9 else 6,
                 priceUsd := if "USDC" = "ALICE" then JsNumber.ofQuot 10 100
                   else JsNumber.ofQuot 100 100 } ∧
      m.token = "USDC" :=
  (c16_requirement_fields Sample.config PaymentCache.empty (JsNumber.ofNat 5) "USDC"
    "Premium search API access" Sample.decode Sample.ledgerDown (Or.inr rfl)).1

/-! ## What the cache holds -/

/-- Every entry is a valid verdict stored under its own signature. -/
theorem verifyPayment_keeps_verified (decode : ProofDecoder) (ledger : Ledger)
    (h : X402PaymentHandler) (paymentHeader : String)
    (hinv : ∀ k v, (k, v) ∈ h.paymentCache.entries → v.valid = true ∧ v.signature = k) :
    ∀ k v, (k, v) ∈ (h.verifyPayment decode ledger paymentHeader).handler.paymentCache.entries →
      v.valid = true ∧ v.signature = k := by
  obtain ⟨w, _, hh | ⟨pd, r, a, t, _, _, hc, hw, hh⟩⟩ :=
    X402PaymentHandler.verifyPayment_shape decode ledger h paymentHeader
  · rw [hh]; exact hinv
  · rw [hh]
    intro k v hkv
    have hset : (h.paymentCache.set r w).entries = h.paymentCache.entries ++ [(r, w)] :=
      insert_of_find_none w hc
    simp only [hset, List.mem_append, List.mem_singleton, Prod.mk.injEq] at hkv
    rcases hkv with hkv | ⟨rfl, rfl⟩
    · exact hinv k v hkv
    · rw [hw]; exact ⟨rfl, rfl⟩

theorem verifyAll_keeps_verified (decode : ProofDecoder) (calls : List (Ledger × String))
    (h : X402PaymentHandler)
    (hinv : ∀ k v, (k, v) ∈ h.paymentCache.entries → v.valid = true ∧ v.signature = k) :
    ∀ k v, (k, v) ∈ (h.verifyAll decode calls).paymentCache.entries →
      v.valid = true ∧ v.signature = k := by
  induction calls generalizing h with
  | nil => exact hinv
  | cons first rest ih =>
    obtain ⟨ledger, paymentHeader⟩ := first
    exact ih _ (verifyPayment_keeps_verified decode ledger h paymentHeader hinv)

/-- C19: in every state reached from a fresh `X402PaymentHandler` by any sequence of
`verifyPayment` calls, under any ledger behaviour, every entry of the payment cache
stored under a key `k` is a verdict with `valid = true` whose `signature` field is `k`. -/
theorem c19_cache_holds_verified_only (decode : ProofDecoder) (tokenManager : TokenManager)
    (calls : List (Ledger × String)) (k : JsVal) (v : Verdict)
    (hentry : (k, v) ∈
      ((X402PaymentHandler.create tokenManager).verifyAll decode calls).paymentCache.entries) :
    v.valid = true ∧ v.signature = k :=
  verifyAll_keeps_verified decode calls (X402PaymentHandler.create tokenManager)
    (fun _ _ hkv => by simp [X402PaymentHandler.create, PaymentCache.empty] at hkv) k v hentry

/-- C19 on a concrete input: after an unknown, a failed and a succeeded verification the
one entry of the cache is the valid verdict, under its signature. -/
theorem c19_cache_holds_verified_only_witness :
    (Verdict.verified Sample.signature (.num (JsNumber.ofQuot 1 10)) (.str "ALICE")).valid
      = true ∧
    (Verdict.verified Sample.signature (.num (JsNumber.ofQuot 1 10)) (.str "ALICE")).signature
      = Sample.signature :=
  c19_cache_holds_verified_only Sample.decode (TokenManager.create Sample.config)
    [(Sample.ledgerAbsent, Sample.proofA), (Sample.ledgerFailed, Sample.proofB),
     (Sample.ledgerDown, "not json"), (Sample.ledgerSucceeded, Sample.proofA)]
    Sample.signature _ (List.mem_singleton.mpr rfl)

/-! ## Amounts in smallest units -/

/-- C17, the code at the failing input `createPaymentRequirement(2.01, 'USDC', ...)`:
`2.01 * Math.pow(10, 6)` is `2009999.9999999998` and `maxAmountRequired` is that string,
which is not the decimal string of a whole number; `createTransferInstruction` of the
backend floors the same product and gets `2009999`. -/
theorem c17_requirement_not_floored :
    (X402PaymentHandler.createPaymentRequirement Sample.config Sample.handler
        (JsNumber.ofQuot 201 100) "USDC" "Premium search API access").map
        (fun body => body.accepts.map (fun m => m.maxAmountRequired))
      = .ok ["2009999.9999999998"] ∧
    isDecimalDigits "2009999.9999999998" = false ∧
    TokenManager.amountInSmallestUnit (TokenManager.create Sample.config) "USDC"
        (JsNumber.ofQuot 201 100)
      = .ok (JsNumber.floor (JsNumber.mul (JsNumber.ofQuot 201 100) (JsNumber.pow10 6))) ∧
    (JsNumber.floor (JsNumber.mul (JsNumber.ofQuot 201 100) (JsNumber.pow10 6))).toString
      = "2009999" ∧
    isDecimalDigits "2009999" = true :=
  ⟨rfl, by decide, rfl, by decide, by decide⟩

/-- C20, the code at the failing input `createPaymentLink(1, 'ALICE', ...)`: the price of
the request is `1000000`, one ALICE scaled by `10 ^ 6`, while the token table gives ALICE
nine decimals and the smallest-unit amount is `1000000000`; for USDC, with six decimals,
the price is the smallest-unit amount. -/
theorem c20_alice_price_scaled_by_million :
    (HelioPayClient.createPaymentLinkBody Sample.config (JsNumber.ofNat 1) "ALICE"
        "Purchase of an item").price = JsNumber.ofNat 1000000 ∧
    ((TokenManager.create Sample.config).tokens.lookup "ALICE").map (fun t => t.decimals)
      = some 9 ∧
    JsNumber.mul (JsNumber.ofNat 1) (JsNumber.pow10 9) = JsNumber.ofNat 1000000000 ∧
    JsNumber.ofNat 1000000 ≠ JsNumber.ofNat 1000000000 ∧
    (HelioPayClient.createPaymentLinkBody Sample.config (JsNumber.ofNat 1) "ALICE"
        "Purchase of an item").pricingCurrency = Sample.config.aliceTokenMint ∧
    ((TokenManager.create Sample.config).tokens.lookup "USDC").map (fun t => t.decimals)
      = some 6 ∧
    (HelioPayClient.createPaymentLinkBody Sample.config (JsNumber.ofQuot 34999 100) "USDC"
        "Purchase of Sony WH-1000XM5").price
      = JsNumber.mul (JsNumber.ofQuot 34999 100) (JsNumber.pow10 6) := by
  decide

/-! ## Rounding of sums -/

namespace JsNumber

theorem log2Search_spec (f : Nat) : ∀ (lo n : Nat), 2 ^ lo ≤ n → n < 2 ^ (lo + 2 ^ f) →
    2 ^ (log2Search f lo (lo + 2 ^ f) n) ≤ n ∧
      n < 2 ^ (log2Search f lo (lo + 2 ^ f) n + 1) := by
  induction f with
  | zero =>
    intro lo n hlo hhi
    simpa [log2Search] using ⟨hlo, hhi⟩
  | succ f ih =>
    intro lo n hlo hhi
    have hmid : (lo + (lo + 2 ^ (f + 1))) / 2 = lo + 2 ^ f := by
      have : 2 ^ (f + 1) = 2 * 2 ^ f := by rw [pow_succ]; ring
      omega
    have hhi2 : lo + 2 ^ (f + 1) = (lo + 2 ^ f) + 2 ^ f := by
      have : 2 ^ (f + 1) = 2 * 2 ^ f := by rw [pow_succ]; ring
      omega
    simp only [log2Search, hmid]
    by_cases hc : 2 ^ (lo + 2 ^ f) ≤ n
    · simp only [hc, ite_true]
      rw [hhi2]
      exact ih (lo + 2 ^ f) n hc (by rw [← hhi2]; exact hhi)
    · simp only [hc, ite_false]
      exact ih lo n hlo (by omega)

theorem log2_spec {n : Nat} (h1 : 1 ≤ n) (h2 : n < 2 ^ 16384) :
    2 ^ log2 n ≤ n ∧ n < 2 ^ (log2 n + 1) := by
  have h := log2Search_spec 14 0 n (by simpa using h1) (by simpa using h2)
  simpa [log2] using h

theorem log2_mono {n m : Nat} (h1 : 1 ≤ n) (hnm : n ≤ m) (h2 : m < 2 ^ 16384) :
    log2 n ≤ log2 m := by
  have hn := log2_spec h1 (lt_of_le_of_lt hnm h2)
  have hm := log2_spec (le_trans h1 hnm) h2
  have : 2 ^ log2 n < 2 ^ (log2 m + 1) := lt_of_le_of_lt (le_trans hn.1 hnm) hm.2
  have := (Nat.pow_lt_pow_iff_right (by norm_num : 1 < 2)).mp this
  omega

theorem log2_two_pow_1074 : log2 (2 ^ 1074) = 1074 := by decide

theorem binExp_two_pow_1074 {n : Nat} (h1 : 1 ≤ n) (h2 : n < 2 ^ 16384) :
    binExp n (2 ^ 1074) = (log2 n : Int) - 1074 := by
  have hs := (log2_spec h1 h2).1
  unfold binExp
  simp only [log2_two_pow_1074]
  by_cases h : (0 : Int) ≤ (log2 n : Int) - ((1074 : Nat) : Int)
  · have hk : ((log2 n : Int) - ((1074 : Nat) : Int)).toNat = log2 n - 1074 := by omega
    have hle : 2 ^ 1074 * 2 ^ (log2 n - 1074) ≤ n := by
      rw [← pow_add]
      have : 1074 + (log2 n - 1074) = log2 n := by omega
      rw [this]; exact hs
    simp only [h, ite_true, hk, hle]
    norm_num
  · have hk : (-((log2 n : Int) - ((1074 : Nat) : Int))).toNat = 1074 - log2 n := by omega
    have hle : 2 ^ 1074 ≤ n * 2 ^ (1074 - log2 n) := by
      have h3 : 2 ^ log2 n * 2 ^ (1074 - log2 n) ≤ n * 2 ^ (1074 - log2 n) :=
        Nat.mul_le_mul_right _ hs
      rw [← pow_add] at h3
      have : log2 n + (1074 - log2 n) = 1074 := by omega
      rw [this] at h3; exact h3
    simp only [h, ite_false, hk, hle, ite_true]
    norm_num

theorem roundQuot_two_pow_1074 {n : Nat} (h1 : 1 ≤ n) (h2 : n < 2 ^ 16384) :
    roundQuot n (2 ^ 1074)
      = roundHalfEven (n * 2 ^ 1074) (2 ^ 1074 * 2 ^ (log2 n - 52)) * 2 ^ (log2 n - 52) := by
  unfold roundQuot
  have hn : n ≠ 0 := by omega
  have hk : (max ((log2 n : Int) - 1074) (-1022) + 1022).toNat = log2 n - 52 := by omega
  simp only [hn, ite_false, binExp_two_pow_1074 h1 h2, hk]

theorem roundHalfEven_bounds (n : Nat) {d : Nat} (hd : 0 < d) :
    n / d ≤ roundHalfEven n d ∧ roundHalfEven n d ≤ n / d + 1 ∧
      (n % d = 0 → roundHalfEven n d = n / d) := by
  unfold roundHalfEven
  simp only
  split_ifs <;> omega

/-- Rounding to a multiple of `2 ^ k` does not go below a multiple that is below. -/
theorem le_round_of_multiple {n k M : Nat} (hM : 2 ^ k ∣ M) (hle : M ≤ n) :
    M ≤ roundHalfEven (n * 2 ^ 1074) (2 ^ 1074 * 2 ^ k) * 2 ^ k := by
  have hD : 0 < 2 ^ 1074 := Nat.pow_pos (by norm_num)
  have hK : 0 < 2 ^ k := Nat.pow_pos (by norm_num)
  have hq : n * 2 ^ 1074 / (2 ^ 1074 * 2 ^ k) = n / 2 ^ k := by
    rw [Nat.mul_comm n, Nat.mul_div_mul_left _ _ hD]
  have hb := (roundHalfEven_bounds (n * 2 ^ 1074) (Nat.mul_pos hD hK)).1
  rw [hq] at hb
  obtain ⟨t, rfl⟩ := hM
  have ht : t ≤ n / 2 ^ k := (Nat.le_div_iff_mul_le hK).mpr (by rw [Nat.mul_comm]; exact hle)
  calc 2 ^ k * t = t * 2 ^ k := Nat.mul_comm _ _
    _ ≤ roundHalfEven (n * 2 ^ 1074) (2 ^ 1074 * 2 ^ k) * 2 ^ k :=
      Nat.mul_le_mul_right _ (le_trans ht hb)

/-- Rounding to a multiple of `2 ^ k` does not go above a multiple that is above. -/
theorem round_le_of_multiple {n k M : Nat} (hM : 2 ^ k ∣ M) (hle : n ≤ M) :
    roundHalfEven (n * 2 ^ 1074) (2 ^ 1074 * 2 ^ k) * 2 ^ k ≤ M := by
  have hD : 0 < 2 ^ 1074 := Nat.pow_pos (by norm_num)
  have hK : 0 < 2 ^ k := Nat.pow_pos (by norm_num)
  have hq : n * 2 ^ 1074 / (2 ^ 1074 * 2 ^ k) = n / 2 ^ k := by
    rw [Nat.mul_comm n, Nat.mul_div_mul_left _ _ hD]
  have hr : n * 2 ^ 1074 % (2 ^ 1074 * 2 ^ k) = 2 ^ 1074 * (n % 2 ^ k) := by
    rw [Nat.mul_comm n, Nat.mul_mod_mul_left]
  obtain ⟨hb1, hb2, hb3⟩ := roundHalfEven_bounds (n * 2 ^ 1074) (Nat.mul_pos hD hK)
  rw [hq] at hb1 hb2 hb3
  obtain ⟨t, rfl⟩ := hM
  by_cases hz : n % 2 ^ k = 0
  · rw [hb3 (by rw [hr, hz, Nat.mul_zero])]
    exact le_trans (Nat.div_mul_le_self n (2 ^ k)) hle
  · have hne : n ≠ 2 ^ k * t := by
      intro h; apply hz; rw [h]; exact Nat.mul_mod_right _ _
    have hlt : n < t * 2 ^ k := by
      rw [Nat.mul_comm]; exact lt_of_le_of_ne hle hne
    have hdiv : n / 2 ^ k < t := (Nat.div_lt_iff_lt_mul hK).mpr hlt
    calc roundHalfEven (n * 2 ^ 1074) (2 ^ 1074 * 2 ^ k) * 2 ^ k
        ≤ t * 2 ^ k := Nat.mul_le_mul_right _ (by omega)
      _ = 2 ^ k * t := Nat.mul_comm _ _

theorem isDouble_spec {x : JsNumber} (hx : x.isDouble = true) :
    x.units.natAbs < 2 ^ 2098 ∧ 2 ^ (log2 x.units.natAbs - 52) ∣ x.units.natAbs := by
  simp only [isDouble, Bool.and_eq_true, decide_eq_true_eq] at hx
  exact ⟨hx.1, Nat.dvd_of_mod_eq_zero hx.2⟩

/-- Adding a positive number to a binary64 value does not give a smaller value: rounding
to nearest never crosses the binary64 value the sum started from. -/
theorem units_le_add (x c : JsNumber) (hx : x.isDouble = true) (hc : c.isDouble = true)
    (hc0 : 0 < c.units) : x.units ≤ (add x c).units := by
  obtain ⟨hb, hdvd⟩ := isDouble_spec hx
  have hbig : (2 : Nat) ^ 2098 + 2 ^ 2098 ≤ 2 ^ 16384 := by
    have h1 : (2 : Nat) ^ 2098 + 2 ^ 2098 = 2 ^ 2099 := by rw [pow_succ]; ring
    rw [h1]; exact Nat.pow_le_pow_right (by norm_num) (by norm_num)
  have hc1n : c.units.natAbs < 2 ^ 2098 := (isDouble_spec hc).1
  generalize hB : (2 : Nat) ^ 2098 = B at hb hbig hc1n
  generalize hT : (2 : Nat) ^ 16384 = T at hbig
  unfold add ofQuot
  by_cases hs : x.units + c.units < 0
  · simp only [hs, ite_true]
    have hn1 : 1 ≤ (x.units + c.units).natAbs := by omega
    have hna : (x.units + c.units).natAbs ≤ x.units.natAbs := by omega
    have hn2 : (x.units + c.units).natAbs < 2 ^ 16384 := by rw [hT]; omega
    have ha2 : x.units.natAbs < 2 ^ 16384 := by rw [hT]; omega
    rw [roundQuot_two_pow_1074 hn1 hn2]
    have hk : log2 (x.units + c.units).natAbs - 52 ≤ log2 x.units.natAbs - 52 :=
      Nat.sub_le_sub_right (log2_mono hn1 hna ha2) 52
    have hd : 2 ^ (log2 (x.units + c.units).natAbs - 52) ∣ x.units.natAbs :=
      dvd_trans (Nat.pow_dvd_pow 2 hk) hdvd
    have hr := round_le_of_multiple hd hna
    generalize roundHalfEven ((x.units + c.units).natAbs * 2 ^ 1074)
      (2 ^ 1074 * 2 ^ (log2 (x.units + c.units).natAbs - 52))
      * 2 ^ (log2 (x.units + c.units).natAbs - 52) = r at hr
    show x.units ≤ -(r : Int)
    omega
  · simp only [hs, ite_false]
    by_cases hx0 : x.units ≤ 0
    · exact le_trans hx0 (Int.ofNat_nonneg _)
    · have hn1 : 1 ≤ (x.units + c.units).natAbs := by omega
      have ha1 : 1 ≤ x.units.natAbs := by omega
      have han : x.units.natAbs ≤ (x.units + c.units).natAbs := by omega
      have hn2 : (x.units + c.units).natAbs < 2 ^ 16384 := by rw [hT]; omega
      rw [roundQuot_two_pow_1074 hn1 hn2]
      have hmono := log2_mono ha1 han hn2
      have hxa : x.units = (x.units.natAbs : Int) := by omega
      by_cases heq : log2 x.units.natAbs = log2 (x.units + c.units).natAbs
      · have hd : 2 ^ (log2 (x.units + c.units).natAbs - 52) ∣ x.units.natAbs := by
          rw [← heq]; exact hdvd
        have hr := le_round_of_multiple hd han
        generalize roundHalfEven ((x.units + c.units).natAbs * 2 ^ 1074)
          (2 ^ 1074 * 2 ^ (log2 (x.units + c.units).natAbs - 52))
          * 2 ^ (log2 (x.units + c.units).natAbs - 52) = r at hr
        show x.units ≤ (r : Int)
        omega
      · have hlt : log2 x.units.natAbs + 1 ≤ log2 (x.units + c.units).natAbs := by omega
        have hd : 2 ^ (log2 (x.units + c.units).natAbs - 52)
            ∣ 2 ^ log2 (x.units + c.units).natAbs := Nat.pow_dvd_pow 2 (Nat.sub_le _ _)
        have hr := le_round_of_multiple hd (log2_spec hn1 hn2).1
        have hax : x.units.natAbs < 2 ^ (log2 x.units.natAbs + 1) :=
          (log2_spec ha1 (lt_of_le_of_lt han hn2)).2
        have hpow : 2 ^ (log2 x.units.natAbs + 1) ≤ 2 ^ log2 (x.units + c.units).natAbs :=
          Nat.pow_le_pow_right (by norm_num) hlt
        generalize roundHalfEven ((x.units + c.units).natAbs * 2 ^ 1074)
          (2 ^ 1074 * 2 ^ (log2 (x.units + c.units).natAbs - 52))
          * 2 ^ (log2 (x.units + c.units).natAbs - 52) = r at hr
        show x.units ≤ (r : Int)
        omega

end JsNumber

/-! ## The accumulators -/

/-- The only amount `purchaseSelected` of the backend adds to the USDC accumulator is the
price of a listed product. -/
theorem backend_purchase_adds_price (w : Backend.World) (agent : AliceAgent)
    (payments : List Payment) (results : List Product) :
    (Backend.purchaseSelected w agent payments results).agent.dailySpent.USDC
        = agent.dailySpent.USDC ∨
      ∃ selected ∈ results,
        (Backend.purchaseSelected w agent payments results).agent.dailySpent.USDC
          = JsNumber.add agent.dailySpent.USDC selected.price := by
  cases results with
  | nil => simp [Backend.purchaseSelected]
  | cons selected rest =>
    cases hgt : JsNumber.gt selected.price agent.spendingLimits.perTransaction.USDC with
    | true => simp [Backend.purchaseSelected, hgt]
    | false =>
      cases hct : w.createTask with
      | error e => simp [Backend.purchaseSelected, hgt, hct]
      | ok taskId =>
        cases hwc : w.waitForCompletion with
        | error e => simp [Backend.purchaseSelected, hgt, hct, hwc]
        | ok result =>
          cases result with
          | failed err => simp [Backend.purchaseSelected, hgt, hct, hwc]
          | finished output =>
            refine Or.inr ⟨selected, List.mem_cons_self _ _, ?_⟩
            cases ho : output.getProp "orderId" <;>
              simp [Backend.purchaseSelected, hgt, hct, hwc, ho]

/-- C18: for every state of the agent of the backend (its accumulators being JavaScript
numbers, that is binary64 values), every message and every outcome of the external
collaborators, after `processMessage` (whether it resolves or rejects) the accumulators
`dailySpent.ALICE` and `dailySpent.USDC` are greater than or equal to their values before
the call. -/
theorem c18_accumulators_never_decrease (toLowerCase : String → String)
    (w : Backend.World) (agent : AliceAgent) (message : String)
    (hA : agent.dailySpent.ALICE.isDouble = true)
    (hU : agent.dailySpent.USDC.isDouble = true) :
    JsNumber.ge (Backend.processMessage toLowerCase w agent message).agent.dailySpent.ALICE
      agent.dailySpent.ALICE = true ∧
    JsNumber.ge (Backend.processMessage toLowerCase w agent message).agent.dailySpent.USDC
      agent.dailySpent.USDC = true := by
  have hstep := backend_process_step toLowerCase w agent message
  constructor
  · rcases hstep.2.1 with h | h
    · rw [h]; simp [JsNumber.ge]
    · rw [h]
      simpa [JsNumber.ge] using
        JsNumber.units_le_add agent.dailySpent.ALICE (JsNumber.ofQuot 1 10) hA (by decide)
          (by decide)
  · rcases hstep.2.2 with h | ⟨sel, rest, hres, _, h⟩
    · rw [h]; simp [JsNumber.ge]
    · rw [h]
      obtain ⟨hd, hpos⟩ := backend_prices_positive _ _ sel hres (List.mem_cons_self _ _)
      simpa [JsNumber.ge] using
        JsNumber.units_le_add agent.dailySpent.USDC sel.price hU hd hpos

/-- C18 on a concrete input: "buy headphones" on a fresh agent, the purchase finishing. -/
theorem c18_accumulators_never_decrease_witness :
    JsNumber.ge (Backend.processMessage Sample.toLowerCase Sample.worldFinished
        AliceAgent.create "buy headphones").agent.dailySpent.ALICE
      AliceAgent.create.dailySpent.ALICE = true ∧
    JsNumber.ge (Backend.processMessage Sample.toLowerCase Sample.worldFinished
        AliceAgent.create "buy headphones").agent.dailySpent.USDC
      AliceAgent.create.dailySpent.USDC = true :=
  c18_accumulators_never_decrease Sample.toLowerCase Sample.worldFinished AliceAgent.create
    "buy headphones" (by decide) (by decide)

/-! ## The search payment of a purchase -/

/-- The payments of a reply of `purchaseSelected` of the backend begin with the payments it
was given. -/
theorem backend_purchase_payments (w : Backend.World) (agent : AliceAgent)
    (payments : List Payment) (results : List Product) (reply : Reply)
    (h : (Backend.purchaseSelected w agent payments results).completion = .ok reply) :
    ∃ extra, reply.payments = payments ++ extra := by
  cases results with
  | nil =>
    simp [Backend.purchaseSelected] at h
    subst h
    exact ⟨[], by simp⟩
  | cons selected rest =>
    cases hgt : JsNumber.gt selected.price agent.spendingLimits.perTransaction.USDC with
    | true =>
      simp [Backend.purchaseSelected, hgt, ite_true] at h
      subst h
      exact ⟨[], by simp⟩
    | false =>
      cases hct : w.createTask with
      | error e => simp [Backend.purchaseSelected, hgt, hct] at h
      | ok taskId =>
        cases hwc : w.waitForCompletion with
        | error e => simp [Backend.purchaseSelected, hgt, hct, hwc] at h
        | ok result =>
          cases result with
          | failed err =>
            simp [Backend.purchaseSelected, hgt, hct, hwc] at h
            subst h
            exact ⟨[], by simp⟩
          | finished output =>
            cases ho : output.getProp "orderId" with
            | error e => simp [Backend.purchaseSelected, hgt, hct, hwc, ho] at h
            | ok orderId =>
              simp [Backend.purchaseSelected, hgt, hct, hwc, ho] at h
              subst h
              exact ⟨_, rfl⟩

/-- When `purchaseSelected` of the backend resolves and when it rejects. -/
theorem backend_purchase_returns (w : Backend.World) (agent : AliceAgent)
    (payments : List Payment) (results : List Product) :
    (∃ reply, (Backend.purchaseSelected w agent payments results).completion = .ok reply) ∨
    ∃ selected rest, results = selected :: rest ∧
      JsNumber.gt selected.price agent.spendingLimits.perTransaction.USDC = false ∧
      ((∃ e, w.createTask = .error e) ∨ (∃ e, w.waitForCompletion = .error e) ∨
        ∃ output e, w.waitForCompletion = .ok (.finished output) ∧
          output.getProp "orderId" = .error e) := by
  cases results with
  | nil => exact Or.inl (by simp [Backend.purchaseSelected])
  | cons selected rest =>
    cases hgt : JsNumber.gt selected.price agent.spendingLimits.perTransaction.USDC with
    | true => exact Or.inl (by simp [Backend.purchaseSelected, hgt])
    | false =>
      cases hct : w.createTask with
      | error e => exact Or.inr ⟨selected, rest, rfl, hgt, Or.inl ⟨e, rfl⟩⟩
      | ok taskId =>
        cases hwc : w.waitForCompletion with
        | error e => exact Or.inr ⟨selected, rest, rfl, hgt, Or.inr (Or.inl ⟨e, rfl⟩)⟩
        | ok result =>
          cases result with
          | failed err => exact Or.inl (by simp [Backend.purchaseSelected, hgt, hct, hwc])
          | finished output =>
            cases ho : output.getProp "orderId" with
            | error e =>
              exact Or.inr ⟨selected, rest, rfl, hgt, Or.inr (Or.inr ⟨output, e, rfl, ho⟩)⟩
            | ok orderId =>
              exact Or.inl (by simp [Backend.purchaseSelected, hgt, hct, hwc, ho])

/-- The purchase of `server.js` never writes to the agent. -/
theorem server_purchase_agent (w : Server.World) (agent : AliceAgent)
    (payments : List Payment) (results : List Product) :
    (Server.purchaseSelected w agent payments results).agent = agent := by
  cases results with
  | nil => simp [Server.purchaseSelected]
  | cons selected rest =>
    cases hgt : JsNumber.gt selected.price agent.spendingLimits.perTransaction.USDC with
    | true => simp [Server.purchaseSelected, hgt]
    | false =>
      cases hl : w.createPaymentLink with
      | error e => simp [Server.purchaseSelected, hgt, hl]
      | ok data =>
        cases hu : data.getProp "url" <;> simp [Server.purchaseSelected, hgt, hl, hu]

/-- The payments of a reply of `purchaseSelected` of `server.js` begin with the payments it
was given. -/
theorem server_purchase_payments (w : Server.World) (agent : AliceAgent)
    (payments : List Payment) (results : List Product) (reply : Reply)
    (h : (Server.purchaseSelected w agent payments results).completion = .ok reply) :
    ∃ extra, reply.payments = payments ++ extra := by
  cases results with
  | nil =>
    simp [Server.purchaseSelected] at h
    subst h
    exact ⟨[], by simp⟩
  | cons selected rest =>
    cases hgt : JsNumber.gt selected.price agent.spendingLimits.perTransaction.USDC with
    | true =>
      simp [Server.purchaseSelected, hgt, ite_true] at h
      subst h
      exact ⟨[], by simp⟩
    | false =>
      cases hl : w.createPaymentLink with
      | error e =>
        simp [Server.purchaseSelected, hgt, hl] at h
        subst h
        exact ⟨[], by simp⟩
      | ok data =>
        cases hu : data.getProp "url" with
        | error e => simp [Server.purchaseSelected, hgt, hl, hu] at h
        | ok url =>
          simp [Server.purchaseSelected, hgt, hl, hu] at h
          subst h
          exact ⟨_, rfl⟩

/-- When `purchaseSelected` of `server.js` resolves and when it rejects. -/
theorem server_purchase_returns (w : Server.World) (agent : AliceAgent)
    (payments : List Payment) (results : List Product) :
    (∃ reply, (Server.purchaseSelected w agent payments results).completion = .ok reply) ∨
    ∃ selected rest data e, results = selected :: rest ∧
      JsNumber.gt selected.price agent.spendingLimits.perTransaction.USDC = false ∧
      w.createPaymentLink = .ok data ∧ data.getProp "url" = .error e := by
  cases results with
  | nil => exact Or.inl (by simp [Server.purchaseSelected])
  | cons selected rest =>
    cases hgt : JsNumber.gt selected.price agent.spendingLimits.perTransaction.USDC with
    | true => exact Or.inl (by simp [Server.purchaseSelected, hgt])
    | false =>
      cases hl : w.createPaymentLink with
      | error e => exact Or.inl (by simp [Server.purchaseSelected, hgt, hl])
      | ok data =>
        cases hu : data.getProp "url" with
        | error e => exact Or.inr ⟨selected, rest, data, e, rfl, hgt, rfl, hu⟩
        | ok url => exact Or.inl (by simp [Server.purchaseSelected, hgt, hl, hu])

/-- The binary64 sum that `dailySpent.ALICE += 0.1` computes is rounded to nearest: from
0.2 the accumulator goes to 0.30000000000000004. -/
theorem accumulator_sum_is_rounded :
    (JsNumber.add (JsNumber.ofQuot 2 10) (JsNumber.ofQuot 1 10)).toString
      = "0.30000000000000004" ∧
    (JsNumber.add (JsNumber.ofNat 0) (JsNumber.ofQuot 1 10)) = JsNumber.ofQuot 1 10 := by
  decide

/-- The payments of a reply of the part of `handlePurchase` of the backend after the search
begin with the payments it was given. -/
theorem backend_after_search_payments (w : Backend.World) (agent : AliceAgent)
    (payments : List Payment) (results : SearchResults) (reply : Reply)
    (h : (Backend.purchaseAfterSearch w agent payments results).completion = .ok reply) :
    ∃ extra, reply.payments = payments ++ extra := by
  cases results with
  | list items => exact backend_purchase_payments w agent payments items reply h
  | inherited member =>
    cases member with
    | method n =>
      cases n with
      | zero => exact backend_purchase_payments w agent payments [] reply h
      | succ k => simp [Backend.purchaseAfterSearch] at h
    | objectPrototype => simp [Backend.purchaseAfterSearch] at h

/-- When the part of `handlePurchase` of the backend after the search resolves and when it
rejects. -/
theorem backend_after_search_returns (w : Backend.World) (agent : AliceAgent)
    (payments : List Payment) (results : SearchResults) :
    (∃ reply, (Backend.purchaseAfterSearch w agent payments results).completion = .ok reply) ∨
    (∃ member, results = .inherited member ∧ member ≠ .method 0 ∧
      (Backend.purchaseAfterSearch w agent payments results).completion
        = .error ⟨"Cannot read properties of undefined (reading 'price')"⟩) ∨
    ∃ selected rest, results = .list (selected :: rest) ∧
      JsNumber.gt selected.price agent.spendingLimits.perTransaction.USDC = false ∧
      ((∃ e, w.createTask = .error e) ∨ (∃ e, w.waitForCompletion = .error e) ∨
        ∃ output e, w.waitForCompletion = .ok (.finished output) ∧
          output.getProp "orderId" = .error e) := by
  cases results with
  | list items =>
    rcases backend_purchase_returns w agent payments items with h | ⟨sel, rest, rfl, hgt, hrej⟩
    · exact Or.inl h
    · exact Or.inr (Or.inr ⟨sel, rest, rfl, hgt, hrej⟩)
  | inherited member =>
    cases member with
    | method n =>
      cases n with
      | zero => exact Or.inl (by simp [Backend.purchaseAfterSearch, Backend.purchaseSelected])
      | succ k =>
        exact Or.inr (Or.inl ⟨.method (k + 1), rfl, by simp, by simp [Backend.purchaseAfterSearch]⟩)
    | objectPrototype =>
      exact Or.inr (Or.inl ⟨.objectPrototype, rfl, by simp, by simp [Backend.purchaseAfterSearch]⟩)

/-- The part of `handlePurchase` of `server.js` after the search never writes to the
agent. -/
theorem server_after_search_agent (w : Server.World) (agent : AliceAgent)
    (payments : List Payment) (results : SearchResults) :
    (Server.purchaseAfterSearch w agent payments results).agent = agent := by
  cases results with
  | list items => exact server_purchase_agent w agent payments items
  | inherited member =>
    cases member with
    | method n => cases n <;> simp [Server.purchaseAfterSearch, Server.purchaseSelected]
    | objectPrototype => simp [Server.purchaseAfterSearch]

/-- The payments of a reply of the part of `handlePurchase` of `server.js` after the search
begin with the payments it was given. -/
theorem server_after_search_payments (w : Server.World) (agent : AliceAgent)
    (payments : List Payment) (results : SearchResults) (reply : Reply)
    (h : (Server.purchaseAfterSearch w agent payments results).completion = .ok reply) :
    ∃ extra, reply.payments = payments ++ extra := by
  cases results with
  | list items => exact server_purchase_payments w agent payments items reply h
  | inherited member =>
    cases member with
    | method n =>
      cases n with
      | zero => exact server_purchase_payments w agent payments [] reply h
      | succ k => simp [Server.purchaseAfterSearch] at h
    | objectPrototype => simp [Server.purchaseAfterSearch] at h

/-- When the part of `handlePurchase` of `server.js` after the search resolves and when it
rejects. -/
theorem server_after_search_returns (w : Server.World) (agent : AliceAgent)
    (payments : List Payment) (results : SearchResults) :
    (∃ reply, (Server.purchaseAfterSearch w agent payments results).completion = .ok reply) ∨
    (∃ member, results = .inherited member ∧ member ≠ .method 0 ∧
      (Server.purchaseAfterSearch w agent payments results).completion
        = .error ⟨"Cannot read properties of undefined (reading 'price')"⟩) ∨
    ∃ selected rest data e, results = .list (selected :: rest) ∧
      JsNumber.gt selected.price agent.spendingLimits.perTransaction.USDC = false ∧
      w.createPaymentLink = .ok data ∧ data.getProp "url" = .error e := by
  cases results with
  | list items =>
    rcases server_purchase_returns w agent payments items with
      h | ⟨sel, rest, data, e, rfl, hgt, hl, hu⟩
    · exact Or.inl h
    · exact Or.inr (Or.inr ⟨sel, rest, data, e, rfl, hgt, hl, hu⟩)
  | inherited member =>
    cases member with
    | method n =>
      cases n with
      | zero => exact Or.inl (by simp [Server.purchaseAfterSearch, Server.purchaseSelected])
      | succ k =>
        exact Or.inr (Or.inl ⟨.method (k + 1), rfl, by simp, by simp [Server.purchaseAfterSearch]⟩)
    | objectPrototype =>
      exact Or.inr (Or.inl ⟨.objectPrototype, rfl, by simp, by simp [Server.purchaseAfterSearch]⟩)

/-- C21, the sentence as written fails: the accumulator is not always increased by exactly
0.1.  After two searches `dailySpent.ALICE` is 0.2; `handlePurchase` of either file then
leaves 0.30000000000000004, which is not 0.3; the increase, new value minus old value, is
not the number 0.1 (JavaScript prints the difference as 0.10000000000000003).  From `1e17`
the accumulator is not increased at all. -/
theorem c21_increase_is_not_always_a_tenth :
    Sample.afterTwoSearches.dailySpent.ALICE = JsNumber.ofQuot 2 10 ∧
    (Backend.handlePurchase Sample.worldFinished Sample.afterTwoSearches
        Sample.buyHeadphones).agent.dailySpent.ALICE.toString = "0.30000000000000004" ∧
    (Server.handlePurchase Sample.worldLinked Sample.afterTwoSearches
        Sample.buyHeadphones).agent.dailySpent.ALICE.toString = "0.30000000000000004" ∧
    (Backend.handlePurchase Sample.worldFinished Sample.afterTwoSearches
        Sample.buyHeadphones).agent.dailySpent.ALICE ≠ JsNumber.ofQuot 3 10 ∧
    (Backend.handlePurchase Sample.worldFinished Sample.afterTwoSearches
          Sample.buyHeadphones).agent.dailySpent.ALICE.units
        - Sample.afterTwoSearches.dailySpent.ALICE.units ≠ (JsNumber.ofQuot 1 10).units ∧
    (JsNumber.sub
        (Backend.handlePurchase Sample.worldFinished Sample.afterTwoSearches
          Sample.buyHeadphones).agent.dailySpent.ALICE
        Sample.afterTwoSearches.dailySpent.ALICE).toString = "0.10000000000000003" ∧
    (Backend.handlePurchase Sample.worldFinished Sample.agentLargeSpent
        Sample.buyHeadphones).agent.dailySpent.ALICE
      = Sample.agentLargeSpent.dailySpent.ALICE ∧
    (Server.handlePurchase Sample.worldLinked Sample.agentLargeSpent
        Sample.buyHeadphones).agent.dailySpent.ALICE
      = Sample.agentLargeSpent.dailySpent.ALICE := by
  refine ⟨?_, ?_, ?_, ?_, ?_, ?_, ?_, ?_⟩ <;> decide

/-- C21: for every purchase intent, every agent state and every answer of the
collaborators, `handlePurchase` of either file first pays for the search.
`dailySpent.ALICE` after the call is the binary64 sum `dailySpent.ALICE + 0.1` that the
assignment `+= 0.1` computes, whether the call resolves or rejects, and that sum is never
below the value before the call; every reply it resolves to has as the first element of
`payments` a payment of amount 0.1 in token ALICE; and it does resolve in each of the
outcomes "no product found", "per-transaction limit exceeded", "payment link failure" (in
the backend: a failed Browser-Use task) and "success".  It rejects, returning no list,
only when the product name is that of a member inherited from `Object.prototype` other than
a method of `length` 0 (then with the `TypeError` of the read `selectedProduct.price`), or
when, for a product within the limit, a collaborator call rejects or answers with a value
whose property cannot be read. -/
theorem c21_purchase_pays_search_first (wb : Backend.World) (ws : Server.World)
    (agent : AliceAgent) (intent : Intent) :
    ((Backend.handlePurchase wb agent intent).agent.dailySpent.ALICE
        = JsNumber.add agent.dailySpent.ALICE (JsNumber.ofQuot 1 10) ∧
      (agent.dailySpent.ALICE.isDouble = true →
        JsNumber.ge (Backend.handlePurchase wb agent intent).agent.dailySpent.ALICE
          agent.dailySpent.ALICE = true) ∧
      (∀ reply, (Backend.handlePurchase wb agent intent).completion = .ok reply →
        ∃ first rest, reply.payments = first :: rest ∧
          first.amount = JsNumber.ofQuot 1 10 ∧ first.token = "ALICE") ∧
      ((∃ reply, (Backend.handlePurchase wb agent intent).completion = .ok reply) ∨
        (∃ member,
          Backend.getSearchResults (renderOpt intent.product) = .inherited member ∧
          member ≠ .method 0 ∧
          (Backend.handlePurchase wb agent intent).completion
            = .error ⟨"Cannot read properties of undefined (reading 'price')"⟩) ∨
        ∃ selected rest,
          Backend.getSearchResults (renderOpt intent.product) = .list (selected :: rest) ∧
          JsNumber.gt selected.price agent.spendingLimits.perTransaction.USDC = false ∧
          ((∃ e, wb.createTask = .error e) ∨ (∃ e, wb.waitForCompletion = .error e) ∨
            ∃ output e, wb.waitForCompletion = .ok (.finished output) ∧
              output.getProp "orderId" = .error e))) ∧
    ((Server.handlePurchase ws agent intent).agent.dailySpent.ALICE
        = JsNumber.add agent.dailySpent.ALICE (JsNumber.ofQuot 1 10) ∧
      (agent.dailySpent.ALICE.isDouble = true →
        JsNumber.ge (Server.handlePurchase ws agent intent).agent.dailySpent.ALICE
          agent.dailySpent.ALICE = true) ∧
      (∀ reply, (Server.handlePurchase ws agent intent).completion = .ok reply →
        ∃ first rest, reply.payments = first :: rest ∧
          first.amount = JsNumber.ofQuot 1 10 ∧ first.token = "ALICE") ∧
      ((∃ reply, (Server.handlePurchase ws agent intent).completion = .ok reply) ∨
        (∃ member,
          Server.getSearchResults (renderOpt intent.product) = .inherited member ∧
          member ≠ .method 0 ∧
          (Server.handlePurchase ws agent intent).completion
            = .error ⟨"Cannot read properties of undefined (reading 'price')"⟩) ∨
        ∃ selected rest data e,
          Server.getSearchResults (renderOpt intent.product) = .list (selected :: rest) ∧
          JsNumber.gt selected.price agent.spendingLimits.perTransaction.USDC = false ∧
          ws.createPaymentLink = .ok data ∧ data.getProp "url" = .error e)) := by
  have hb : (Backend.handlePurchase wb agent intent).agent.dailySpent.ALICE
      = JsNumber.add agent.dailySpent.ALICE (JsNumber.ofQuot 1 10) := by
    unfold Backend.handlePurchase
    rw [(backend_after_search_step wb _ _ _).2.1]
    simp [handleSearch]
  have hs : (Server.handlePurchase ws agent intent).agent.dailySpent.ALICE
      = JsNumber.add agent.dailySpent.ALICE (JsNumber.ofQuot 1 10) := by
    unfold Server.handlePurchase
    rw [server_after_search_agent]
    simp [handleSearch]
  refine ⟨⟨hb, ?_, ?_, ?_⟩, ⟨hs, ?_, ?_, ?_⟩⟩
  · intro hA
    rw [hb]
    simpa [JsNumber.ge] using
      JsNumber.units_le_add agent.dailySpent.ALICE (JsNumber.ofQuot 1 10) hA (by decide)
        (by decide)
  · intro reply hreply
    unfold Backend.handlePurchase at hreply
    obtain ⟨extra, hextra⟩ := backend_after_search_payments wb _ _ _ reply hreply
    refine ⟨{ amount := JsNumber.ofQuot 1 10, token := "ALICE",
               description := "Search API access for " ++ renderOpt intent.product,
               timestamp := wb.searchTime, paymentLink := none }, extra, ?_, rfl, rfl⟩
    rw [hextra]
    simp [handleSearch]
  · unfold Backend.handlePurchase
    rcases backend_after_search_returns wb
      (handleSearch Backend.getSearchResults wb.searchTime agent intent).1
      (handleSearch Backend.getSearchResults wb.searchTime agent intent).2.payments
      ((handleSearch Backend.getSearchResults wb.searchTime agent intent).2.results.getD
        (.list []))
      with h | ⟨member, hres, hne, herr⟩ | ⟨selected, rest, hres, hgt, hrej⟩
    · exact Or.inl h
    · exact Or.inr (Or.inl ⟨member, by simpa [handleSearch] using hres, hne, herr⟩)
    · exact Or.inr (Or.inr ⟨selected, rest, by simpa [handleSearch] using hres,
        by simpa [handleSearch] using hgt, hrej⟩)
  · intro hA
    rw [hs]
    simpa [JsNumber.ge] using
      JsNumber.units_le_add agent.dailySpent.ALICE (JsNumber.ofQuot 1 10) hA (by decide)
        (by decide)
  · intro reply hreply
    unfold Server.handlePurchase at hreply
    obtain ⟨extra, hextra⟩ := server_after_search_payments ws _ _ _ reply hreply
    refine ⟨{ amount := JsNumber.ofQuot 1 10, token := "ALICE",
               description := "Search API access for " ++ renderOpt intent.product,
               timestamp := ws.searchTime, paymentLink := none }, extra, ?_, rfl, rfl⟩
    rw [hextra]
    simp [handleSearch]
  · unfold Server.handlePurchase
    rcases server_after_search_returns ws
      (handleSearch Server.getSearchResults ws.searchTime agent intent).1
      (handleSearch Server.getSearchResults ws.searchTime agent intent).2.payments
      ((handleSearch Server.getSearchResults ws.searchTime agent intent).2.results.getD
        (.list []))
      with h | ⟨member, hres, hne, herr⟩ | ⟨selected, rest, data, e, hres, hgt, hl, hu⟩
    · exact Or.inl h
    · exact Or.inr (Or.inl ⟨member, by simpa [handleSearch] using hres, hne, herr⟩)
    · exact Or.inr (Or.inr ⟨selected, rest, data, e, by simpa [handleSearch] using hres,
        by simpa [handleSearch] using hgt, hl, hu⟩)

/-- C21 on concrete inputs: "buy headphones" on a fresh agent in both files, the
accumulator goes from 0 to 0.1 and is not below 0; and a purchase of the product
`constructor`, which pays for the search and then rejects. -/
theorem c21_purchase_pays_search_first_witness :
    (Backend.handlePurchase Sample.worldFinished AliceAgent.create
        Sample.buyHeadphones).agent.dailySpent.ALICE
      = JsNumber.add AliceAgent.create.dailySpent.ALICE (JsNumber.ofQuot 1 10) ∧
    JsNumber.ge (Server.handlePurchase Sample.worldLinked AliceAgent.create
        Sample.buyHeadphones).agent.dailySpent.ALICE AliceAgent.create.dailySpent.ALICE
      = true ∧
    (Server.handlePurchase Sample.worldLinked AliceAgent.create
        Sample.buyConstructor).agent.dailySpent.ALICE
      = JsNumber.add AliceAgent.create.dailySpent.ALICE (JsNumber.ofQuot 1 10) ∧
    (Server.handlePurchase Sample.worldLinked AliceAgent.create
        Sample.buyConstructor).completion
      = .error ⟨"Cannot read properties of undefined (reading 'price')"⟩ :=
  ⟨(c21_purchase_pays_search_first Sample.worldFinished Sample.worldLinked AliceAgent.create
      Sample.buyHeadphones).1.1,
   (c21_purchase_pays_search_first Sample.worldFinished Sample.worldLinked AliceAgent.create
      Sample.buyHeadphones).2.2.1 (by decide),
   (c21_purchase_pays_search_first Sample.worldFinished Sample.worldLinked AliceAgent.create
      Sample.buyConstructor).2.1,
   rfl⟩

/-! ## The decision of the middleware -/

/-- C22: for every two requests that carry a non-empty `x-payment` proof, on any two route
configurations `(amount, token, description)`, handlers and ledgers, if the two verdicts
of `verifyPayment` have the same `valid` field the middleware makes the same decision,
whatever amounts and tokens the verdicts and the routes carry: the decision is the `valid`
field, and a valid verdict is passed on as it is. -/
theorem c22_decision_is_valid_field (config1 config2 : Config)
    (decode1 decode2 : ProofDecoder) (amount1 amount2 : JsNumber)
    (token1 token2 description1 description2 : String) (ledger1 ledger2 : Ledger)
    (h1 h2 : X402PaymentHandler) (header1 header2 : String) (v1 v2 : Verdict)
    (hne1 : header1 ≠ "") (hne2 : header2 ≠ "")
    (hv1 : (h1.verifyPayment decode1 ledger1 header1).completion = .ok v1)
    (hv2 : (h2.verifyPayment decode2 ledger2 header2).completion = .ok v2)
    (hvalid : v1.valid = v2.valid) :
    (requirePayment config1 decode1 amount1 token1 description1 ledger1 h1
        ⟨some header1⟩).admitted
      = (requirePayment config2 decode2 amount2 token2 description2 ledger2 h2
          ⟨some header2⟩).admitted ∧
    (requirePayment config1 decode1 amount1 token1 description1 ledger1 h1
        ⟨some header1⟩).admitted = v1.valid ∧
    (v1.valid = true →
      (requirePayment config1 decode1 amount1 token1 description1 ledger1 h1
          ⟨some header1⟩).completion = .ok (.next v1)) := by
  rw [requirePayment_of_proof config1 decode1 amount1 token1 description1 ledger1 h1 hne1 hv1,
    requirePayment_of_proof config2 decode2 amount2 token2 description2 ledger2 h2 hne2 hv2]
  rw [← hvalid]
  cases hval : v1.valid <;> simp [MiddlewareOutcome.admitted]

/-- C22 on a concrete input: the verdict for 0.1 ALICE on the search route and the verdict
for one million USDC on a route asking for five USDC are both valid, and both requests are
passed on. -/
theorem c22_decision_is_valid_field_witness :
    (requirePayment Sample.config Sample.decode (JsNumber.ofQuot 1 10) "ALICE"
        "Premium search API access" Sample.ledgerSucceeded Sample.handler
        ⟨some Sample.proofA⟩).admitted
      = (requirePayment Sample.config Sample.decode (JsNumber.ofNat 5) "USDC"
          "Premium report" Sample.ledgerSucceeded Sample.handler
          ⟨some Sample.proofB⟩).admitted ∧
    (requirePayment Sample.config Sample.decode (JsNumber.ofQuot 1 10) "ALICE"
        "Premium search API access" Sample.ledgerSucceeded Sample.handler
        ⟨some Sample.proofA⟩).admitted
      = (Verdict.verified Sample.signature (.num (JsNumber.ofQuot 1 10)) (.str "ALICE")).valid ∧
    ((Verdict.verified Sample.signature (.num (JsNumber.ofQuot 1 10)) (.str "ALICE")).valid
        = true →
      (requirePayment Sample.config Sample.decode (JsNumber.ofQuot 1 10) "ALICE"
          "Premium search API access" Sample.ledgerSucceeded Sample.handler
          ⟨some Sample.proofA⟩).completion
        = .ok (.next
            (.verified Sample.signature (.num (JsNumber.ofQuot 1 10)) (.str "ALICE")))) :=
  c22_decision_is_valid_field Sample.config Sample.config Sample.decode Sample.decode
    (JsNumber.ofQuot 1 10) (JsNumber.ofNat 5) "ALICE" "USDC" "Premium search API access"
    "Premium report" Sample.ledgerSucceeded Sample.ledgerSucceeded Sample.handler
    Sample.handler Sample.proofA Sample.proofB
    (.verified Sample.signature (.num (JsNumber.ofQuot 1 10)) (.str "ALICE"))
    (.verified Sample.signature (.num (JsNumber.ofNat 1000000)) (.str "USDC"))
    (by decide) (by decide) rfl rfl rfl

end SolanaPay
